import Mathlib

/-!
# Half-life smoothing and grid geometry of `DemoRoundBasedTactic`

A shallow embedding of the numeric core of the module:

* `CameraMovementSmoothing_Components.cpp` : exponential and critically damped
  spring half-life smoothers,
* `SmoothingBlueprintLibrary.cpp` : the stateless exponential smoother,
* `HalfLifeSmootherComponent.cpp` : the clamped exponential smoother component,
* `GridGeometryLibrary.cpp` : the grid to world and world to grid transforms,
* `HeightMapGridBindingComponent.cpp` : the array-backed height provider and the
  construction of the grid configuration from a height map asset.

Floating point values (`float`, `double`) are read as exact real numbers, so every
definition that touches them lives in `ℝ`.  Where the rounding or the overflow of
single-precision arithmetic decides a result, the section "Single precision" gives the
same source functions with the rounding of every `float` result explicit (`roundF32`,
the functions named `...Rnd`, and `F32Val` for infinities and NaN).  Machine integers
(`int32`) are embedded in `ℤ`; the float to `int32` conversions go through `toInt32` and
`int32` arithmetic that can leave the range goes through `wrapInt32`.

Engine primitives (`FMath::Pow`, `FMath::Exp`, `FMath::Loge`, `FMath::Clamp`,
`FMath::FloorToInt`, `FVector::GetSafeNormal`, `FRotationMatrix`, ...) are not part
of the module; they are embedded by their mathematical meaning.
-/

noncomputable section

namespace DemoRoundBasedTactic

/-! ## Engine vector types -/

/-- Engine type `FVector2D`: a pair of reals. -/
structure FVector2D where
  X : ℝ
  Y : ℝ

/-- Engine constant `FVector2D::ZeroVector`. -/
def FVector2D.ZeroVector : FVector2D := ⟨0, 0⟩

/-- Engine `FVector2D` sum, componentwise. -/
def FVector2D.add (a b : FVector2D) : FVector2D := ⟨a.X + b.X, a.Y + b.Y⟩

/-- Engine `FVector2D` difference, componentwise. -/
def FVector2D.sub (a b : FVector2D) : FVector2D := ⟨a.X - b.X, a.Y - b.Y⟩

/-- Engine `FVector2D` scaling by a scalar. -/
def FVector2D.smul (a : FVector2D) (k : ℝ) : FVector2D := ⟨a.X * k, a.Y * k⟩

/-! ## `CameraMovementSmoothing_Components` -/

/-- State of `UCameraMovement_ExpHalfLifeComponent` (the `UPROPERTY` fields). -/
structure UCameraMovement_ExpHalfLifeComponent where
  HalfLife : ℝ
  Desire1D : ℝ
  Current1D : ℝ
  Desire2D : FVector2D
  Current2D : FVector2D

/-- State of `UCameraMovement_SpringHalfLifeComponent` (the `UPROPERTY` fields). -/
structure UCameraMovement_SpringHalfLifeComponent where
  HalfLife : ℝ
  Desire1D : ℝ
  Current1D : ℝ
  Velocity1D : ℝ
  Desire2D : FVector2D
  Current2D : FVector2D
  Velocity2D : FVector2D

/-- The helper `HalfLifeDecayK`: the decay coefficient for a half-life and a step.
`FMath::Pow` is the real power function. -/
def HalfLifeDecayK (HalfLife Dt : ℝ) : ℝ :=
  if HalfLife ≤ 0 then 0 else (0.5 : ℝ) ^ (Dt / HalfLife)

/-- The method `UCameraMovement_ExpHalfLifeComponent::Update1D`: returns the value it
returns together with the component after the call. -/
def UCameraMovement_ExpHalfLifeComponent.Update1D
    (self : UCameraMovement_ExpHalfLifeComponent) (DeltaTime : ℝ) :
    ℝ × UCameraMovement_ExpHalfLifeComponent :=
  let K := HalfLifeDecayK self.HalfLife DeltaTime
  let self1 := { self with Current1D := self.Desire1D + (self.Current1D - self.Desire1D) * K }
  (self1.Current1D, self1)

/-- The method `UCameraMovement_ExpHalfLifeComponent::Update2D`. -/
def UCameraMovement_ExpHalfLifeComponent.Update2D
    (self : UCameraMovement_ExpHalfLifeComponent) (DeltaTime : ℝ) :
    FVector2D × UCameraMovement_ExpHalfLifeComponent :=
  let K := HalfLifeDecayK self.HalfLife DeltaTime
  let self1 := { self with
    Current2D := self.Desire2D.add ((self.Current2D.sub self.Desire2D).smul K) }
  (self1.Current2D, self1)

/-- The method `UCameraMovement_ExpHalfLifeComponent::Snap1D`. -/
def UCameraMovement_ExpHalfLifeComponent.Snap1D
    (self : UCameraMovement_ExpHalfLifeComponent) : UCameraMovement_ExpHalfLifeComponent :=
  { self with Current1D := self.Desire1D }

/-- The method `UCameraMovement_ExpHalfLifeComponent::Snap2D`. -/
def UCameraMovement_ExpHalfLifeComponent.Snap2D
    (self : UCameraMovement_ExpHalfLifeComponent) : UCameraMovement_ExpHalfLifeComponent :=
  { self with Current2D := self.Desire2D }

/-- The helper `SpringUpdate1D`: one step of the critically damped spring.  The two
reference parameters `Current`, `Velocity` are returned as the pair
`(Current, Velocity)` after the call. -/
def SpringUpdate1D (HalfLife Dt Desire Current Velocity : ℝ) : ℝ × ℝ :=
  if HalfLife ≤ 0 then (Desire, 0)
  else
    let W := Real.log 2 / HalfLife
    let E := Real.exp (-W * Dt)
    let y := Current - Desire
    let j := Velocity + W * y
    let y1 := (y + j * Dt) * E
    let Velocity1 := (Velocity - W * j * Dt) * E
    (Desire + y1, Velocity1)

/-- The helper `SpringUpdate2D`: one step of the spring on a 2D state, returned as
`(Current, Velocity)` after the call. -/
def SpringUpdate2D (HalfLife Dt : ℝ) (Desire Current Velocity : FVector2D) :
    FVector2D × FVector2D :=
  if HalfLife ≤ 0 then (Desire, FVector2D.ZeroVector)
  else
    let W := Real.log 2 / HalfLife
    let E := Real.exp (-W * Dt)
    let y := Current.sub Desire
    let j := Velocity.add (y.smul W)
    let y1 := (y.add (j.smul Dt)).smul E
    let Velocity1 := (Velocity.sub (j.smul (W * Dt))).smul E
    (Desire.add y1, Velocity1)

/-- The method `UCameraMovement_SpringHalfLifeComponent::Update1D`. -/
def UCameraMovement_SpringHalfLifeComponent.Update1D
    (self : UCameraMovement_SpringHalfLifeComponent) (DeltaTime : ℝ) :
    ℝ × UCameraMovement_SpringHalfLifeComponent :=
  let r := SpringUpdate1D self.HalfLife DeltaTime self.Desire1D self.Current1D self.Velocity1D
  let self1 := { self with Current1D := r.1, Velocity1D := r.2 }
  (self1.Current1D, self1)

/-- The method `UCameraMovement_SpringHalfLifeComponent::Update2D`. -/
def UCameraMovement_SpringHalfLifeComponent.Update2D
    (self : UCameraMovement_SpringHalfLifeComponent) (DeltaTime : ℝ) :
    FVector2D × UCameraMovement_SpringHalfLifeComponent :=
  let r := SpringUpdate2D self.HalfLife DeltaTime self.Desire2D self.Current2D self.Velocity2D
  let self1 := { self with Current2D := r.1, Velocity2D := r.2 }
  (self1.Current2D, self1)

/-- The method `UCameraMovement_SpringHalfLifeComponent::Snap1D`. -/
def UCameraMovement_SpringHalfLifeComponent.Snap1D
    (self : UCameraMovement_SpringHalfLifeComponent) :
    UCameraMovement_SpringHalfLifeComponent :=
  { self with Current1D := self.Desire1D, Velocity1D := 0 }

/-- The method `UCameraMovement_SpringHalfLifeComponent::Snap2D`. -/
def UCameraMovement_SpringHalfLifeComponent.Snap2D
    (self : UCameraMovement_SpringHalfLifeComponent) :
    UCameraMovement_SpringHalfLifeComponent :=
  { self with Current2D := self.Desire2D, Velocity2D := FVector2D.ZeroVector }

/-! ## `SmoothingBlueprintLibrary` -/

/-- Engine constant `SMALL_NUMBER` (`1.e-8f`). -/
def SMALL_NUMBER : ℝ := 1 / 100000000

/-- Engine constant `KINDA_SMALL_NUMBER` (`1.e-4f`). -/
def KINDA_SMALL_NUMBER : ℝ := 1 / 10000

/-- The literal `0.6931471805599453f` of `ExpSmoothHL_Internal`. -/
def LN2_LITERAL : ℝ := 0.6931471805599453

/-- The helper `ExpSmoothHL_Internal` of `SmoothingBlueprintLibrary.cpp`. -/
def ExpSmoothHL_Internal (Current Target HalfLife dt : ℝ) : ℝ :=
  if HalfLife ≤ SMALL_NUMBER then Target
  else
    let Lambda := LN2_LITERAL / HalfLife
    let OneMinusS := 1 - Real.exp (-Lambda * max 0 dt)
    Current + (Target - Current) * OneMinusS

/-- The function `USmoothingBlueprintLibrary::ExpSmoothingHL`. -/
def ExpSmoothingHL (Current Target HalfLife DeltaTime : ℝ) : ℝ :=
  ExpSmoothHL_Internal Current Target HalfLife DeltaTime

/-! ## Engine primitives used by the grid geometry -/

/-- Engine type `FVector`: a triple of reals. -/
structure FVector where
  X : ℝ
  Y : ℝ
  Z : ℝ

/-- Engine type `FIntPoint`: a pair of `int32`. -/
structure FIntPoint where
  X : ℤ
  Y : ℤ
  deriving DecidableEq

/-- Engine type `FRotator`: pitch, yaw and roll in degrees. -/
structure FRotator where
  Pitch : ℝ
  Yaw : ℝ
  Roll : ℝ

/-- Engine constant `FVector::ZeroVector`. -/
def FVector.ZeroVector : FVector := ⟨0, 0, 0⟩

/-- Engine constant `FVector::ForwardVector`. -/
def FVector.ForwardVector : FVector := ⟨1, 0, 0⟩

/-- Engine constant `FVector::RightVector`. -/
def FVector.RightVector : FVector := ⟨0, 1, 0⟩

/-- Engine constant `FRotator::ZeroRotator`. -/
def FRotator.ZeroRotator : FRotator := ⟨0, 0, 0⟩

/-- Engine `FVector` sum, componentwise. -/
def FVector.add (a b : FVector) : FVector := ⟨a.X + b.X, a.Y + b.Y, a.Z + b.Z⟩

/-- Engine `FVector` difference, componentwise. -/
def FVector.sub (a b : FVector) : FVector := ⟨a.X - b.X, a.Y - b.Y, a.Z - b.Z⟩

/-- Engine `FVector` scaling by a scalar. -/
def FVector.smul (a : FVector) (k : ℝ) : FVector := ⟨a.X * k, a.Y * k, a.Z * k⟩

/-- Engine `FVector::DotProduct`. -/
def FVector.DotProduct (a b : FVector) : ℝ := a.X * b.X + a.Y * b.Y + a.Z * b.Z

/-- Engine `FVector::GetSafeNormal` with its default arguments: a vector of squared
length exactly one is returned as it is, a vector of squared length below
`SMALL_NUMBER` gives `FVector::ZeroVector`, any other vector is scaled by the inverse
of its length. -/
def FVector.GetSafeNormal (v : FVector) : FVector :=
  let SquareSum := v.X * v.X + v.Y * v.Y + v.Z * v.Z
  if SquareSum = 1 then v
  else if SquareSum < SMALL_NUMBER then FVector.ZeroVector
  else
    let Scale := 1 / Real.sqrt SquareSum
    ⟨v.X * Scale, v.Y * Scale, v.Z * Scale⟩

/-- Degrees to radians, as the engine does before taking sines and cosines. -/
def DegreesToRadians (d : ℝ) : ℝ := d * (Real.pi / 180)

/-- Engine `FRotationMatrix(Rot).GetUnitAxis(EAxis::X)`: the first row of the rotation
matrix, normalised. -/
def FRotationMatrix.GetUnitAxisX (Rot : FRotator) : FVector :=
  let SP := Real.sin (DegreesToRadians Rot.Pitch)
  let CP := Real.cos (DegreesToRadians Rot.Pitch)
  let SY := Real.sin (DegreesToRadians Rot.Yaw)
  let CY := Real.cos (DegreesToRadians Rot.Yaw)
  FVector.GetSafeNormal ⟨CP * CY, CP * SY, SP⟩

/-- Engine `FRotationMatrix(Rot).GetUnitAxis(EAxis::Y)`: the second row of the rotation
matrix, normalised. -/
def FRotationMatrix.GetUnitAxisY (Rot : FRotator) : FVector :=
  let SP := Real.sin (DegreesToRadians Rot.Pitch)
  let CP := Real.cos (DegreesToRadians Rot.Pitch)
  let SY := Real.sin (DegreesToRadians Rot.Yaw)
  let CY := Real.cos (DegreesToRadians Rot.Yaw)
  let SR := Real.sin (DegreesToRadians Rot.Roll)
  let CR := Real.cos (DegreesToRadians Rot.Roll)
  FVector.GetSafeNormal ⟨SR * SP * CY - CR * SY, SR * SP * SY + CR * CY, -SR * CP⟩

/-- Least value of an `int32`. -/
def INT32_MIN : ℤ := -2147483648

/-- Greatest value of an `int32`. -/
def INT32_MAX : ℤ := 2147483647

/-- Conversion of an integral float value to `int32`: the value itself when it fits,
and the x86 "integer indefinite" value `INT32_MIN` when it does not. -/
def toInt32 (z : ℤ) : ℤ :=
  if INT32_MIN ≤ z ∧ z ≤ INT32_MAX then z else INT32_MIN

/-- Engine `FMath::FloorToInt` on a float. -/
def FloorToInt (F : ℝ) : ℤ := toInt32 ⌊F⌋

/-- Engine `FMath::CeilToInt` on a float. -/
def CeilToInt (F : ℝ) : ℤ := toInt32 ⌈F⌉

/-- Engine `FMath::RoundToInt` on a float: `FloorToInt(F + 0.5f)`. -/
def RoundToInt (F : ℝ) : ℤ := FloorToInt (F + 0.5)

/-- Engine `FMath::Clamp` on `int32`. -/
def Clamp (X Min Max : ℤ) : ℤ :=
  if X < Min then Min else if X < Max then X else Max

/-! ## `GridTypes` -/

/-- The enumeration `EGridRoundingPolicy`.  Its three enumerators are `Floor`, `Round`
and `Ceil`; `Other` stands for any other value of the underlying `uint8`, which the
`switch` of `WorldToGrid` sends to its `default` label. -/
inductive EGridRoundingPolicy where
  | Floor
  | Round
  | Ceil
  | Other
  deriving DecidableEq

/-- The interface `IGridHeightProvider`: its one virtual method. -/
structure IGridHeightProvider where
  GetHeightAt : ℤ → ℤ → ℝ

/-- The struct `FGridConfig`.  The shared pointer `HeightProvider` is `none` when it is
not valid. -/
structure FGridConfig where
  Width : ℤ
  Height : ℤ
  GridOrigin : FVector
  bUseRotation : Bool
  GridRotation : FRotator
  AxisX : FVector
  AxisY : FVector
  CellSize : ℝ
  DefaultEyeHeight : ℝ
  HeightProvider : Option IGridHeightProvider

/-- The default member initialisers of `FGridConfig`. -/
def FGridConfig.default : FGridConfig where
  Width := 0
  Height := 0
  GridOrigin := FVector.ZeroVector
  bUseRotation := false
  GridRotation := FRotator.ZeroRotator
  AxisX := FVector.ForwardVector
  AxisY := FVector.RightVector
  CellSize := 100
  DefaultEyeHeight := 160
  HeightProvider := none

/-! ## `GridGeometryLibrary` -/

/-- The helper `ResolveGridAxes`: the pair `(OutXAxis, OutYAxis)`. -/
def ResolveGridAxes (Config : FGridConfig) : FVector × FVector :=
  if Config.bUseRotation then
    (FRotationMatrix.GetUnitAxisX Config.GridRotation,
      FRotationMatrix.GetUnitAxisY Config.GridRotation)
  else
    (Config.AxisX.GetSafeNormal, Config.AxisY.GetSafeNormal)

/-- The helper `GetGroundHeight`. -/
def GetGroundHeight (Config : FGridConfig) (GridX GridY : ℤ) : ℝ :=
  match Config.HeightProvider with
  | some p => p.GetHeightAt GridX GridY
  | none => Config.GridOrigin.Z

/-- The function `UGridGeometryLibrary::GridToWorldGround`. -/
def GridToWorldGround (Config : FGridConfig) (GridCoord : FIntPoint) : FVector :=
  let Axes := ResolveGridAxes Config
  let HalfCell : ℝ := 0.5
  let LateralX := ((GridCoord.X : ℝ) + HalfCell) * Config.CellSize
  let LateralY := ((GridCoord.Y : ℝ) + HalfCell) * Config.CellSize
  let LateralOffset := (Axes.1.smul LateralX).add (Axes.2.smul LateralY)
  let WorldPos := Config.GridOrigin.add LateralOffset
  { WorldPos with Z := GetGroundHeight Config GridCoord.X GridCoord.Y }

/-- The function `UGridGeometryLibrary::GridToWorldEye`. -/
def GridToWorldEye (Config : FGridConfig) (GridCoord : FIntPoint) : FVector :=
  let Result := GridToWorldGround Config GridCoord
  { Result with Z := Result.Z + Config.DefaultEyeHeight }

/-- The index `WorldToGrid` computes along one axis from the continuous coordinate,
before bounds handling: the `switch (Rounding)` of the function. -/
def RoundIndex (Rounding : EGridRoundingPolicy) (F : ℝ) : ℤ :=
  match Rounding with
  | EGridRoundingPolicy.Round => RoundToInt F
  | EGridRoundingPolicy.Ceil => CeilToInt F
  | EGridRoundingPolicy.Floor => FloorToInt F
  | EGridRoundingPolicy.Other => FloorToInt F

/-- The continuous grid coordinates `(Fx, Fy)` of `WorldToGrid`. -/
def WorldToGridContinuous (Config : FGridConfig) (WorldPosition : FVector) : ℝ × ℝ :=
  let Axes := ResolveGridAxes Config
  let Local := WorldPosition.sub Config.GridOrigin
  let U := FVector.DotProduct Local Axes.1
  let V := FVector.DotProduct Local Axes.2
  (U / Config.CellSize, V / Config.CellSize)

/-- The function `UGridGeometryLibrary::WorldToGrid`: the pair of the returned flag and
`OutGrid` after the call. -/
def WorldToGrid (Config : FGridConfig) (WorldPosition : FVector) (bClampToBounds : Bool)
    (Rounding : EGridRoundingPolicy) : Bool × FIntPoint :=
  if Config.Width ≤ 0 ∨ Config.Height ≤ 0 ∨ Config.CellSize ≤ KINDA_SMALL_NUMBER then
    (false, ⟨-1, -1⟩)
  else
    let F := WorldToGridContinuous Config WorldPosition
    let Gx := RoundIndex Rounding F.1
    let Gy := RoundIndex Rounding F.2
    if bClampToBounds then
      (true, ⟨Clamp Gx 0 (Config.Width - 1), Clamp Gy 0 (Config.Height - 1)⟩)
    else if Gx < 0 ∨ Gx ≥ Config.Width ∨ Gy < 0 ∨ Gy ≥ Config.Height then
      (false, ⟨-1, -1⟩)
    else
      (true, ⟨Gx, Gy⟩)

/-- The configuration of the worked example of the grid transforms: 10 by 10 cells of
size 100, origin `(0,0,0)`, no rotation, default axes, no height provider. -/
def exampleConfig : FGridConfig :=
  { FGridConfig.default with Width := 10, Height := 10 }

/-- The example configuration with both axes set to `(1,0,0)`: unit, horizontal, not
orthogonal. -/
def skewConfig : FGridConfig :=
  { exampleConfig with AxisY := ⟨1, 0, 0⟩ }

/-- The example configuration with `AxisX` set to the vertical unit vector `(0,0,1)`:
the axes are orthonormal, `AxisX` is not horizontal. -/
def tiltedConfig : FGridConfig :=
  { exampleConfig with AxisX := ⟨0, 0, 1⟩ }

/-- The example configuration with `AxisX` set to the zero vector. -/
def zeroAxisConfig : FGridConfig :=
  { exampleConfig with AxisX := ⟨0, 0, 0⟩ }

/-- A value is representable as an `int32`. -/
def IsInt32 (z : ℤ) : Prop := INT32_MIN ≤ z ∧ z ≤ INT32_MAX

/-- The component after `n` successive calls of `Update1D` with the same step. -/
def UCameraMovement_ExpHalfLifeComponent.Update1D_iter
    (self : UCameraMovement_ExpHalfLifeComponent) (DeltaTime : ℝ) :
    ℕ → UCameraMovement_ExpHalfLifeComponent
  | 0 => self
  | n + 1 => ((Update1D_iter self DeltaTime n).Update1D DeltaTime).2

/-! ## `HeightMapGridBindingComponent` and `TerrainHeightMapAsset` -/

/-- Result of an `int32` addition or multiplication: the mathematical result wrapped
into the `int32` range. -/
def wrapInt32 (z : ℤ) : ℤ := (z + 2147483648) % 4294967296 - 2147483648

/-- The data asset `UTerrainHeightMapAsset`: its three `UPROPERTY` fields. -/
structure UTerrainHeightMapAsset where
  Width : ℤ
  Height : ℤ
  CellHeights : List ℝ

/-- The members of the class `FArrayGridHeightProvider`. -/
structure FArrayGridHeightProvider where
  Width : ℤ
  Height : ℤ
  CellHeights : List ℝ

/-- The constructor of `FArrayGridHeightProvider`: `none` when its `check` on the
buffer length fails. -/
def FArrayGridHeightProvider.Make (InWidth InHeight : ℤ) (InCellHeights : List ℝ) :
    Option FArrayGridHeightProvider :=
  if (InCellHeights.length : ℤ) = wrapInt32 (InWidth * InHeight) then
    some ⟨InWidth, InHeight, InCellHeights⟩
  else none

/-- The method `FArrayGridHeightProvider::GetHeightAt`: `none` when its `check` on the
flat index fails. -/
def FArrayGridHeightProvider.GetHeightAt (self : FArrayGridHeightProvider)
    (GridX GridY : ℤ) : Option ℝ :=
  let Index := wrapInt32 (GridY * self.Width + GridX)
  if Index ≥ 0 ∧ Index < (self.CellHeights.length : ℤ) then
    self.CellHeights[Index.toNat]?
  else none

/-- The provider seen through the interface `IGridHeightProvider`.  A query whose
`check` fails returns nothing in the code; the interface function is given the value
`0` there. -/
def FArrayGridHeightProvider.toInterface (self : FArrayGridHeightProvider) :
    IGridHeightProvider :=
  ⟨fun GridX GridY => (self.GetHeightAt GridX GridY).getD 0⟩

/-- Engine `FVector::Normalize` with its default tolerance: the returned flag and the
vector after the call.  A vector of squared length above `SMALL_NUMBER` is scaled to
unit length and the flag is `true`; any other vector is left as it is and the flag is
`false`. -/
def FVector.Normalize (v : FVector) : Bool × FVector :=
  let SquareSum := v.X * v.X + v.Y * v.Y + v.Z * v.Z
  if SquareSum > SMALL_NUMBER then
    let Scale := 1 / Real.sqrt SquareSum
    (true, ⟨v.X * Scale, v.Y * Scale, v.Z * Scale⟩)
  else (false, v)

/-- The `UPROPERTY` fields of `UHeightMapGridBindingComponent`; the asset pointer is
`none` when it is null. -/
structure UHeightMapGridBindingComponent where
  HeightMapAsset : Option UTerrainHeightMapAsset
  CellSize : ℝ
  GridOrigin : FVector
  bUseRotation : Bool
  GridRotation : FRotator
  AxisX : FVector
  AxisY : FVector
  DefaultEyeHeight : ℝ
  GridConfig : FGridConfig

/-- The basis `(BasisX, BasisY)` that `RebuildGridConfig` computes: from the rotation
when `bUseRotation`, else the configured axes flattened, normalised, and replaced by
the canonical forward and right vectors when `Normalize` fails. -/
def UHeightMapGridBindingComponent.RebuildBasis (self : UHeightMapGridBindingComponent) :
    FVector × FVector :=
  if self.bUseRotation then
    (FRotationMatrix.GetUnitAxisX self.GridRotation,
      FRotationMatrix.GetUnitAxisY self.GridRotation)
  else
    let BasisX : FVector := { self.AxisX with Z := 0 }
    let BasisY : FVector := { self.AxisY with Z := 0 }
    let NX := BasisX.Normalize
    let NY := BasisY.Normalize
    (if !NX.1 then FVector.ForwardVector else NX.2,
      if !NY.1 then FVector.RightVector else NY.2)

/-- The method `UHeightMapGridBindingComponent::RebuildGridConfig`: the component after
the call. -/
def UHeightMapGridBindingComponent.RebuildGridConfig
    (self : UHeightMapGridBindingComponent) : UHeightMapGridBindingComponent :=
  match self.HeightMapAsset with
  | none => { self with GridConfig := FGridConfig.default }
  | some Asset =>
    if Asset.Width ≤ 0 ∨ Asset.Height ≤ 0 ∨
        (Asset.CellHeights.length : ℤ) ≠ wrapInt32 (Asset.Width * Asset.Height) then
      { self with GridConfig := FGridConfig.default }
    else
      let Basis := self.RebuildBasis
      let HalfSizeX := 0.5 * (Asset.Width : ℝ) * self.CellSize
      let HalfSizeY := 0.5 * (Asset.Height : ℝ) * self.CellSize
      { self with GridConfig :=
        { Width := Asset.Width
          Height := Asset.Height
          GridOrigin :=
            (self.GridOrigin.sub (Basis.1.smul HalfSizeX)).sub (Basis.2.smul HalfSizeY)
          bUseRotation := self.bUseRotation
          GridRotation := self.GridRotation
          AxisX := Basis.1
          AxisY := Basis.2
          CellSize := self.CellSize
          DefaultEyeHeight := self.DefaultEyeHeight
          HeightProvider :=
            (FArrayGridHeightProvider.Make Asset.Width Asset.Height Asset.CellHeights).map
              FArrayGridHeightProvider.toInterface } }

/-- The example configuration with `AxisY` set to the zero vector. -/
def zeroAxisYConfig : FGridConfig :=
  { exampleConfig with AxisY := ⟨0, 0, 0⟩ }

/-- A binding component whose two configured axes are the zero vector, no rotation. -/
def zeroAxesComponent : UHeightMapGridBindingComponent where
  HeightMapAsset := none
  CellSize := 100
  GridOrigin := FVector.ZeroVector
  bUseRotation := false
  GridRotation := FRotator.ZeroRotator
  AxisX := ⟨0, 0, 0⟩
  AxisY := ⟨0, 0, 0⟩
  DefaultEyeHeight := 160
  GridConfig := FGridConfig.default

/-- The array-backed provider of the worked example: a 2 by 2 grid over the row-major
buffer `[1, 2, 3, 4]`. -/
def exampleProvider : FArrayGridHeightProvider := ⟨2, 2, [1, 2, 3, 4]⟩

/-! ## `HalfLifeSmootherComponent` -/

/-- The helper `ExpSmoothHL_Internal` with the literal `0.6931471805599453f` taken as
the parameter `Ln2`; `ExpSmoothHL_Internal` is its value at `LN2_LITERAL`. -/
def ExpSmoothHL_InternalLn2 (Ln2 Current Target HalfLife dt : ℝ) : ℝ :=
  if HalfLife ≤ SMALL_NUMBER then Target
  else
    let Lambda := Ln2 / HalfLife
    let OneMinusS := 1 - Real.exp (-Lambda * max 0 dt)
    Current + (Target - Current) * OneMinusS

/-- The helper `ExpSmoothHL_Component` of `HalfLifeSmootherComponent.cpp`. -/
def ExpSmoothHL_Component (Current Desire HalfLife dt : ℝ) : ℝ :=
  if HalfLife ≤ SMALL_NUMBER then Desire
  else
    let Lambda := LN2_LITERAL / HalfLife
    let OneMinusS := 1 - Real.exp (-Lambda * max 0 dt)
    Current + (Desire - Current) * OneMinusS

/-- The helper `ExpSmoothHL_Component` with the literal `0.6931471805599453f` taken as
the parameter `Ln2`; `ExpSmoothHL_Component` is its value at `LN2_LITERAL`. -/
def ExpSmoothHL_ComponentLn2 (Ln2 Current Desire HalfLife dt : ℝ) : ℝ :=
  if HalfLife ≤ SMALL_NUMBER then Desire
  else
    let Lambda := Ln2 / HalfLife
    let OneMinusS := 1 - Real.exp (-Lambda * max 0 dt)
    Current + (Desire - Current) * OneMinusS

/-- Engine `FMath::Clamp` on floats. -/
def ClampFloat (X Min Max : ℝ) : ℝ :=
  if X < Min then Min else if X < Max then X else Max

/-- The `UPROPERTY` fields of `UHalfLifeSmootherComponent`. -/
structure UHalfLifeSmootherComponent where
  HalfLife : ℝ
  Current : ℝ
  Desire : ℝ
  MinValue : ℝ
  MaxValue : ℝ
  bClamp : Bool

/-- The method `UHalfLifeSmootherComponent::SetDesire`. -/
def UHalfLifeSmootherComponent.SetDesire (self : UHalfLifeSmootherComponent)
    (NewDesire : ℝ) : UHalfLifeSmootherComponent :=
  { self with
    Desire := if self.bClamp then ClampFloat NewDesire self.MinValue self.MaxValue
      else NewDesire }

/-- The method `UHalfLifeSmootherComponent::SetCurrent`. -/
def UHalfLifeSmootherComponent.SetCurrent (self : UHalfLifeSmootherComponent)
    (NewCurrent : ℝ) : UHalfLifeSmootherComponent :=
  { self with
    Current := if self.bClamp then ClampFloat NewCurrent self.MinValue self.MaxValue
      else NewCurrent }

/-- The method `UHalfLifeSmootherComponent::Update`: the returned value and the
component after the call. -/
def UHalfLifeSmootherComponent.Update (self : UHalfLifeSmootherComponent)
    (DeltaTime : ℝ) : ℝ × UHalfLifeSmootherComponent :=
  let self1 : UHalfLifeSmootherComponent :=
    if self.bClamp then
      { self with
        Desire := ClampFloat self.Desire self.MinValue self.MaxValue
        Current := ClampFloat self.Current self.MinValue self.MaxValue }
    else self
  let self2 : UHalfLifeSmootherComponent :=
    { self1 with
      Current := ExpSmoothHL_Component self1.Current self1.Desire self1.HalfLife DeltaTime }
  let self3 : UHalfLifeSmootherComponent :=
    if self2.bClamp then
      { self2 with Current := ClampFloat self2.Current self2.MinValue self2.MaxValue }
    else self2
  (self3.Current, self3)

/-- The height map asset of the worked example: 2 by 2 cells over `[1, 2, 3, 4]`. -/
def exampleAsset : UTerrainHeightMapAsset := ⟨2, 2, [1, 2, 3, 4]⟩

/-- A binding component over the example asset: cells of size 100, map centre
`(500, 300, 0)`, no rotation, axes `(3, 4, 5)` and `(0, 0, 0)`. -/
def exampleComponent : UHeightMapGridBindingComponent where
  HeightMapAsset := some exampleAsset
  CellSize := 100
  GridOrigin := ⟨500, 300, 0⟩
  bUseRotation := false
  GridRotation := FRotator.ZeroRotator
  AxisX := ⟨3, 4, 5⟩
  AxisY := ⟨0, 0, 0⟩
  DefaultEyeHeight := 160
  GridConfig := FGridConfig.default

/-- A smoother component with the default member initialisers, except for a current
and a desire outside `[MinValue, MaxValue]`. -/
def exampleSmoother : UHalfLifeSmootherComponent where
  HalfLife := 0.12
  Current := 2000
  Desire := 50
  MinValue := 150
  MaxValue := 1000
  bClamp := true

/-- The integer `z` is the greatest integer below or equal to `f`. -/
def IsGreatestIntLE (z : ℤ) (f : ℝ) : Prop :=
  (z : ℝ) ≤ f ∧ ∀ w : ℤ, (w : ℝ) ≤ f → w ≤ z

/-- The integer `z` is the least integer above or equal to `f`. -/
def IsLeastIntGE (z : ℤ) (f : ℝ) : Prop :=
  f ≤ (z : ℝ) ∧ ∀ w : ℤ, f ≤ (w : ℝ) → z ≤ w

/-- The integer `z` is an integer nearest to `f`: it is within one half of `f`, and no
integer is closer. -/
def IsNearestInt (z : ℤ) (f : ℝ) : Prop :=
  |(z : ℝ) - f| ≤ 1 / 2 ∧ ∀ w : ℤ, |(z : ℝ) - f| ≤ |(w : ℝ) - f|

/-- A float lies inside the `int32` range. -/
def InInt32Range (f : ℝ) : Prop :=
  ((INT32_MIN : ℤ) : ℝ) ≤ f ∧ f ≤ ((INT32_MAX : ℤ) : ℝ)

/-! ## Single precision

The definitions above read every `float` as an exact real.  The definitions of this
section make the single-precision arithmetic of the source explicit, for the inputs at
which it decides the result: `roundF32` is the rounding of a real to the nearest
`float`, and the functions named `...Rnd` are the source functions with a rounding
`rnd` applied to the result of every `float` operation (with `rnd = id` they are the
functions above); `F32Val` adds the infinities and NaN.  Double-precision results
(`FVector`, `FVector2D`) stay exact. -/

/-- Rounding of a real to the nearest integer, ties to the even one. -/
def roundHalfEven (x : ℝ) : ℤ :=
  if x - ⌊x⌋ < 1 / 2 then ⌊x⌋
  else if 1 / 2 < x - ⌊x⌋ then ⌊x⌋ + 1
  else if ⌊x⌋ % 2 = 0 then ⌊x⌋ else ⌊x⌋ + 1

/-- The binary exponent that fixes the spacing of the `float` values around `x`:
`⌊log₂ |x|⌋`, and `-126` in the subnormal range. -/
def binadeF32 (x : ℝ) : ℤ := max (Int.log 2 |x|) (-126)

/-- Rounding of a real to the nearest `float` (IEEE 754 binary32, round to nearest, ties
to even): around `x` the `float` values are the multiples of `2 ^ (binadeF32 x - 23)`.
Results beyond the largest finite `float` are not covered here. -/
def roundF32 (x : ℝ) : ℝ :=
  (roundHalfEven (x / (2 : ℝ) ^ (binadeF32 x - 23)) : ℝ) * (2 : ℝ) ^ (binadeF32 x - 23)

/-- The helper `HalfLifeDecayK` with its `float` results rounded by `rnd`: the quotient
`Dt / HalfLife` and the value of `FMath::Pow`. -/
def HalfLifeDecayKRnd (rnd : ℝ → ℝ) (HalfLife Dt : ℝ) : ℝ :=
  if HalfLife ≤ 0 then 0 else rnd ((0.5 : ℝ) ^ rnd (Dt / HalfLife))

/-- The method `UCameraMovement_ExpHalfLifeComponent::Update1D` with its `float`
results rounded by `rnd`: the difference, the product and the sum of
`Desire1D + (Current1D - Desire1D) * K`. -/
def UCameraMovement_ExpHalfLifeComponent.Update1DRnd (rnd : ℝ → ℝ)
    (self : UCameraMovement_ExpHalfLifeComponent) (DeltaTime : ℝ) :
    ℝ × UCameraMovement_ExpHalfLifeComponent :=
  let K := HalfLifeDecayKRnd rnd self.HalfLife DeltaTime
  let self1 := { self with
    Current1D := rnd (self.Desire1D + rnd (rnd (self.Current1D - self.Desire1D) * K)) }
  (self1.Current1D, self1)

/-- The method `UCameraMovement_ExpHalfLifeComponent::Update2D` with its `float`
results rounded by `rnd`: only `K` is a `float`, the `FVector2D` arithmetic is double
precision. -/
def UCameraMovement_ExpHalfLifeComponent.Update2DRnd (rnd : ℝ → ℝ)
    (self : UCameraMovement_ExpHalfLifeComponent) (DeltaTime : ℝ) :
    FVector2D × UCameraMovement_ExpHalfLifeComponent :=
  let K := HalfLifeDecayKRnd rnd self.HalfLife DeltaTime
  let self1 := { self with
    Current2D := self.Desire2D.add ((self.Current2D.sub self.Desire2D).smul K) }
  (self1.Current2D, self1)

/-- The function `UGridGeometryLibrary::GridToWorldGround` with its `float` results
rounded by `rnd`: the conversion of the index, the sum with `HalfCell` and the product
with `CellSize`, for `LateralX` and `LateralY`. -/
def GridToWorldGroundRnd (rnd : ℝ → ℝ) (Config : FGridConfig) (GridCoord : FIntPoint) :
    FVector :=
  let Axes := ResolveGridAxes Config
  let HalfCell : ℝ := 0.5
  let LateralX := rnd (rnd (rnd (GridCoord.X : ℝ) + HalfCell) * Config.CellSize)
  let LateralY := rnd (rnd (rnd (GridCoord.Y : ℝ) + HalfCell) * Config.CellSize)
  let LateralOffset := (Axes.1.smul LateralX).add (Axes.2.smul LateralY)
  let WorldPos := Config.GridOrigin.add LateralOffset
  { WorldPos with Z := GetGroundHeight Config GridCoord.X GridCoord.Y }

/-- The continuous grid coordinates `(Fx, Fy)` of `WorldToGrid` with their `float`
results rounded by `rnd`: the narrowing of the two dot products to `U`, `V` and the
two quotients by `CellSize`. -/
def WorldToGridContinuousRnd (rnd : ℝ → ℝ) (Config : FGridConfig)
    (WorldPosition : FVector) : ℝ × ℝ :=
  let Axes := ResolveGridAxes Config
  let Local := WorldPosition.sub Config.GridOrigin
  let U := rnd (FVector.DotProduct Local Axes.1)
  let V := rnd (FVector.DotProduct Local Axes.2)
  (rnd (U / Config.CellSize), rnd (V / Config.CellSize))

/-- Engine `FMath::RoundToInt` on a float, `FloorToInt(F + 0.5f)`, with the `float` sum
rounded by `rnd`. -/
def RoundToIntRnd (rnd : ℝ → ℝ) (F : ℝ) : ℤ := FloorToInt (rnd (F + 0.5))

/-- The `switch (Rounding)` of `WorldToGrid` with the `float` sum of `RoundToInt`
rounded by `rnd`. -/
def RoundIndexRnd (rnd : ℝ → ℝ) (Rounding : EGridRoundingPolicy) (F : ℝ) : ℤ :=
  match Rounding with
  | EGridRoundingPolicy.Round => RoundToIntRnd rnd F
  | EGridRoundingPolicy.Ceil => CeilToInt F
  | EGridRoundingPolicy.Floor => FloorToInt F
  | EGridRoundingPolicy.Other => FloorToInt F

/-- The function `UGridGeometryLibrary::WorldToGrid` with its `float` results rounded
by `rnd`. -/
def WorldToGridRnd (rnd : ℝ → ℝ) (Config : FGridConfig) (WorldPosition : FVector)
    (bClampToBounds : Bool) (Rounding : EGridRoundingPolicy) : Bool × FIntPoint :=
  if Config.Width ≤ 0 ∨ Config.Height ≤ 0 ∨ Config.CellSize ≤ KINDA_SMALL_NUMBER then
    (false, ⟨-1, -1⟩)
  else
    let F := WorldToGridContinuousRnd rnd Config WorldPosition
    let Gx := RoundIndexRnd rnd Rounding F.1
    let Gy := RoundIndexRnd rnd Rounding F.2
    if bClampToBounds then
      (true, ⟨Clamp Gx 0 (Config.Width - 1), Clamp Gy 0 (Config.Height - 1)⟩)
    else if Gx < 0 ∨ Gx ≥ Config.Width ∨ Gy < 0 ∨ Gy ≥ Config.Height then
      (false, ⟨-1, -1⟩)
    else
      (true, ⟨Gx, Gy⟩)

/-- The method `UHeightMapGridBindingComponent::RebuildGridConfig` with its `float`
results rounded by `rnd`: the conversions of `Width` and `Height` and the two products
of `HalfSizeX` and of `HalfSizeY`. -/
def UHeightMapGridBindingComponent.RebuildGridConfigRnd (rnd : ℝ → ℝ)
    (self : UHeightMapGridBindingComponent) : UHeightMapGridBindingComponent :=
  match self.HeightMapAsset with
  | none => { self with GridConfig := FGridConfig.default }
  | some Asset =>
    if Asset.Width ≤ 0 ∨ Asset.Height ≤ 0 ∨
        (Asset.CellHeights.length : ℤ) ≠ wrapInt32 (Asset.Width * Asset.Height) then
      { self with GridConfig := FGridConfig.default }
    else
      let Basis := self.RebuildBasis
      let HalfSizeX := rnd (rnd (0.5 * rnd (Asset.Width : ℝ)) * self.CellSize)
      let HalfSizeY := rnd (rnd (0.5 * rnd (Asset.Height : ℝ)) * self.CellSize)
      { self with GridConfig :=
        { Width := Asset.Width
          Height := Asset.Height
          GridOrigin :=
            (self.GridOrigin.sub (Basis.1.smul HalfSizeX)).sub (Basis.2.smul HalfSizeY)
          bUseRotation := self.bUseRotation
          GridRotation := self.GridRotation
          AxisX := Basis.1
          AxisY := Basis.2
          CellSize := self.CellSize
          DefaultEyeHeight := self.DefaultEyeHeight
          HeightProvider :=
            (FArrayGridHeightProvider.Make Asset.Width Asset.Height Asset.CellHeights).map
              FArrayGridHeightProvider.toInterface } }

/-- A `float` value with the non-finite ones: a finite value (read as an exact real),
the infinity of either sign, or NaN. -/
inductive F32Val where
  | fin (x : ℝ)
  | pinf
  | ninf
  | nan

/-- The largest finite `float`, `(2 - 2⁻²³) * 2¹²⁷`. -/
def FLT_MAX : ℝ := 340282346638528859811704183484516925440

/-- The `float` result of an operation whose exact result is `x`: beyond the largest
finite `float` it is the infinity of the sign of `x`. -/
def F32Val.ofReal (x : ℝ) : F32Val :=
  if FLT_MAX < x then F32Val.pinf else if x < -FLT_MAX then F32Val.ninf else F32Val.fin x

/-- Negation of a `float`. -/
def F32Val.neg : F32Val → F32Val
  | F32Val.fin x => F32Val.fin (-x)
  | F32Val.pinf => F32Val.ninf
  | F32Val.ninf => F32Val.pinf
  | F32Val.nan => F32Val.nan

/-- Sum of two `float` values: infinities of opposite sign and NaN operands give NaN. -/
def F32Val.add : F32Val → F32Val → F32Val
  | F32Val.fin a, F32Val.fin b => F32Val.ofReal (a + b)
  | F32Val.fin _, F32Val.pinf => F32Val.pinf
  | F32Val.fin _, F32Val.ninf => F32Val.ninf
  | F32Val.pinf, F32Val.fin _ => F32Val.pinf
  | F32Val.ninf, F32Val.fin _ => F32Val.ninf
  | F32Val.pinf, F32Val.pinf => F32Val.pinf
  | F32Val.ninf, F32Val.ninf => F32Val.ninf
  | F32Val.pinf, F32Val.ninf => F32Val.nan
  | F32Val.ninf, F32Val.pinf => F32Val.nan
  | F32Val.nan, _ => F32Val.nan
  | _, F32Val.nan => F32Val.nan

/-- Difference of two `float` values. -/
def F32Val.sub (a b : F32Val) : F32Val := a.add b.neg

/-- The product of an infinity with the finite value `a`: an infinity of the product of
the signs, and NaN when `a` is zero; `positive` is the sign of the infinity. -/
def F32Val.infTimes (positive : Bool) (a : ℝ) : F32Val :=
  if 0 < a then (if positive then F32Val.pinf else F32Val.ninf)
  else if a < 0 then (if positive then F32Val.ninf else F32Val.pinf)
  else F32Val.nan

/-- Product of two `float` values: zero times an infinity and NaN operands give NaN. -/
def F32Val.mul : F32Val → F32Val → F32Val
  | F32Val.fin a, F32Val.fin b => F32Val.ofReal (a * b)
  | F32Val.fin a, F32Val.pinf => F32Val.infTimes true a
  | F32Val.fin a, F32Val.ninf => F32Val.infTimes false a
  | F32Val.pinf, F32Val.fin b => F32Val.infTimes true b
  | F32Val.ninf, F32Val.fin b => F32Val.infTimes false b
  | F32Val.pinf, F32Val.pinf => F32Val.pinf
  | F32Val.ninf, F32Val.ninf => F32Val.pinf
  | F32Val.pinf, F32Val.ninf => F32Val.ninf
  | F32Val.ninf, F32Val.pinf => F32Val.ninf
  | F32Val.nan, _ => F32Val.nan
  | _, F32Val.nan => F32Val.nan

/-- Engine `FMath::Exp` on a `float`, with overflow to infinity. -/
def F32Val.exp : F32Val → F32Val
  | F32Val.fin x => F32Val.ofReal (Real.exp x)
  | F32Val.pinf => F32Val.pinf
  | F32Val.ninf => F32Val.fin 0
  | F32Val.nan => F32Val.nan

/-- The helper `SpringUpdate1D` on finite `float` arguments with the non-finite results
of its operations: every operation is the exact one unless it overflows or meets an
infinity or NaN.  Returns `(Current, Velocity)` after the call. -/
def SpringUpdate1DOvf (HalfLife Dt Desire Current Velocity : ℝ) : F32Val × F32Val :=
  if HalfLife ≤ 0 then (F32Val.fin Desire, F32Val.fin 0)
  else
    let W := F32Val.ofReal (Real.log 2 / HalfLife)
    let E := (W.neg.mul (F32Val.fin Dt)).exp
    let y := (F32Val.fin Current).sub (F32Val.fin Desire)
    let j := (F32Val.fin Velocity).add (W.mul y)
    let y1 := (y.add (j.mul (F32Val.fin Dt))).mul E
    let Velocity1 := ((F32Val.fin Velocity).sub ((W.mul j).mul (F32Val.fin Dt))).mul E
    ((F32Val.fin Desire).add y1, Velocity1)

/-- The example configuration with cells of size `1`. -/
def unitConfig : FGridConfig :=
  { exampleConfig with CellSize := 1 }

/-- A binding component over a 3 by 1 asset with cells of size `1 + 2⁻²³` (a `float`),
map centre `(0, 0, 0)`, no rotation and the default axes. -/
def roundingComponent : UHeightMapGridBindingComponent where
  HeightMapAsset := some ⟨3, 1, [0, 0, 0]⟩
  CellSize := 1 + 1 / 8388608
  GridOrigin := ⟨0, 0, 0⟩
  bUseRotation := false
  GridRotation := FRotator.ZeroRotator
  AxisX := ⟨1, 0, 0⟩
  AxisY := ⟨0, 1, 0⟩
  DefaultEyeHeight := 160
  GridConfig := FGridConfig.default

/-- An exponential component with half-life `1` whose 1D and 2D states hold the same
`float` values: desire `1` and current `1 + 3 * 2⁻²³`. -/
def roundingSmoother : UCameraMovement_ExpHalfLifeComponent where
  HalfLife := 1
  Desire1D := 1
  Current1D := 1 + 3 / 8388608
  Desire2D := ⟨1, 0⟩
  Current2D := ⟨1 + 3 / 8388608, 0⟩

/-! ## Properties of the exponential smoother -/

/-- The decay coefficient for a positive half-life. -/
theorem HalfLifeDecayK_of_pos {h : ℝ} (hh : 0 < h) (dt : ℝ) :
    HalfLifeDecayK h dt = (0.5 : ℝ) ^ (dt / h) := by
  unfold HalfLifeDecayK
  rw [if_neg (not_le.mpr hh)]

/-- The decay coefficient of two steps multiplies. -/
theorem HalfLifeDecayK_add {h : ℝ} (hh : 0 < h) (t1 t2 : ℝ) :
    HalfLifeDecayK h (t1 + t2) = HalfLifeDecayK h t1 * HalfLifeDecayK h t2 := by
  rw [HalfLifeDecayK_of_pos hh, HalfLifeDecayK_of_pos hh, HalfLifeDecayK_of_pos hh,
    add_div, Real.rpow_add (by norm_num)]

/-- The component after one `Update1D`, field by field. -/
theorem Update1D_state (s : UCameraMovement_ExpHalfLifeComponent) (dt : ℝ) :
    (s.Update1D dt).2 =
      { s with Current1D :=
          s.Desire1D + (s.Current1D - s.Desire1D) * HalfLifeDecayK s.HalfLife dt } := rfl

/-- Closed form of `n` successive `Update1D` calls with step `δ`. -/
theorem Update1D_iter_closed (s : UCameraMovement_ExpHalfLifeComponent)
    (hh : 0 < s.HalfLife) (δ : ℝ) (n : ℕ) :
    s.Update1D_iter δ n =
      { s with Current1D :=
          s.Desire1D + (s.Current1D - s.Desire1D) * HalfLifeDecayK s.HalfLife (n * δ) } := by
  induction n with
  | zero =>
    simp [UCameraMovement_ExpHalfLifeComponent.Update1D_iter, HalfLifeDecayK_of_pos hh]
  | succ k ih =>
    rw [UCameraMovement_ExpHalfLifeComponent.Update1D_iter, ih, Update1D_state]
    have hk : ((k + 1 : ℕ) : ℝ) * δ = k * δ + δ := by push_cast; ring
    rw [hk, HalfLifeDecayK_add hh]
    simp only [add_sub_cancel_left, mul_assoc]

/-- C1: semigroup law of the exponential smoother.  For a positive half-life, `n ≥ 1`
calls of `Update1D` with step `T / n` leave the same component (so the same
`Current1D`) as one call with step `T`, and two calls with steps `t1`, `t2` leave the
same component as one call with step `t1 + t2`. -/
theorem Update1D_semigroup (s : UCameraMovement_ExpHalfLifeComponent)
    (hh : 0 < s.HalfLife) :
    (∀ (T : ℝ) (n : ℕ), 1 ≤ n →
        s.Update1D_iter (T / n) n = (s.Update1D T).2 ∧
        (s.Update1D_iter (T / n) n).Current1D = (s.Update1D T).1) ∧
    (∀ t1 t2 : ℝ,
        ((s.Update1D t1).2.Update1D t2).2 = (s.Update1D (t1 + t2)).2 ∧
        ((s.Update1D t1).2.Update1D t2).1 = (s.Update1D (t1 + t2)).1) := by
  have iter : ∀ (T : ℝ) (n : ℕ), 1 ≤ n → s.Update1D_iter (T / n) n = (s.Update1D T).2 := by
    intro T n hn
    have hn0 : (n : ℝ) ≠ 0 := by
      have : 0 < n := hn
      exact_mod_cast this.ne.symm
    rw [Update1D_iter_closed s hh, Update1D_state, mul_div_cancel₀ T hn0]
  have two : ∀ t1 t2 : ℝ,
      ((s.Update1D t1).2.Update1D t2).2 = (s.Update1D (t1 + t2)).2 := by
    intro t1 t2
    rw [Update1D_state, Update1D_state, Update1D_state, HalfLifeDecayK_add hh]
    simp only [add_sub_cancel_left, mul_assoc]
  refine ⟨fun T n hn => ⟨iter T n hn, ?_⟩, fun t1 t2 => ⟨two t1 t2, ?_⟩⟩
  · rw [iter T n hn]; rfl
  · have := congrArg UCameraMovement_ExpHalfLifeComponent.Current1D (two t1 t2)
    exact this

/-- Witness of C1: half-life `1`, from `8` towards `0`. -/
theorem Update1D_semigroup_witness :
    (∀ (T : ℝ) (n : ℕ), 1 ≤ n →
        (⟨1, 0, 8, ⟨0, 0⟩, ⟨0, 0⟩⟩ : UCameraMovement_ExpHalfLifeComponent).Update1D_iter
            (T / n) n
          = ((⟨1, 0, 8, ⟨0, 0⟩, ⟨0, 0⟩⟩ :
              UCameraMovement_ExpHalfLifeComponent).Update1D T).2 ∧
        ((⟨1, 0, 8, ⟨0, 0⟩, ⟨0, 0⟩⟩ : UCameraMovement_ExpHalfLifeComponent).Update1D_iter
            (T / n) n).Current1D
          = ((⟨1, 0, 8, ⟨0, 0⟩, ⟨0, 0⟩⟩ :
              UCameraMovement_ExpHalfLifeComponent).Update1D T).1) ∧
    (∀ t1 t2 : ℝ,
        (((⟨1, 0, 8, ⟨0, 0⟩, ⟨0, 0⟩⟩ :
            UCameraMovement_ExpHalfLifeComponent).Update1D t1).2.Update1D t2).2
          = ((⟨1, 0, 8, ⟨0, 0⟩, ⟨0, 0⟩⟩ :
              UCameraMovement_ExpHalfLifeComponent).Update1D (t1 + t2)).2 ∧
        (((⟨1, 0, 8, ⟨0, 0⟩, ⟨0, 0⟩⟩ :
            UCameraMovement_ExpHalfLifeComponent).Update1D t1).2.Update1D t2).1
          = ((⟨1, 0, 8, ⟨0, 0⟩, ⟨0, 0⟩⟩ :
              UCameraMovement_ExpHalfLifeComponent).Update1D (t1 + t2)).1) :=
  Update1D_semigroup ⟨1, 0, 8, ⟨0, 0⟩, ⟨0, 0⟩⟩ (by norm_num)

/-- C9: half-life meaning for the exponential smoother.  For a positive half-life, one
`Update1D` with `DeltaTime = HalfLife` halves the error: the new `Current1D` minus
`Desire1D` is `(Current1D - Desire1D) / 2`, the desire being unchanged. -/
theorem Update1D_half_life (s : UCameraMovement_ExpHalfLifeComponent)
    (hh : 0 < s.HalfLife) :
    (s.Update1D s.HalfLife).2.Current1D - (s.Update1D s.HalfLife).2.Desire1D
        = (s.Current1D - s.Desire1D) / 2 ∧
      (s.Update1D s.HalfLife).2.Desire1D = s.Desire1D ∧
      (s.Update1D s.HalfLife).1 - s.Desire1D = (s.Current1D - s.Desire1D) / 2 := by
  have hK : HalfLifeDecayK s.HalfLife s.HalfLife = 1 / 2 := by
    rw [HalfLifeDecayK_of_pos hh, div_self hh.ne.symm, Real.rpow_one]
    norm_num
  have h1 : (s.Update1D s.HalfLife).2.Current1D
      = s.Desire1D + (s.Current1D - s.Desire1D) * (1 / 2) := by
    rw [Update1D_state, hK]
  have h2 : (s.Update1D s.HalfLife).2.Desire1D = s.Desire1D := rfl
  have h3 : (s.Update1D s.HalfLife).1 = (s.Update1D s.HalfLife).2.Current1D := rfl
  refine ⟨?_, h2, ?_⟩
  · rw [h1, h2]; ring
  · rw [h3, h1]; ring

/-- Witness of C9: half-life `2`, from `10` towards `4`, ends at `7`. -/
theorem Update1D_half_life_witness :
    ((⟨2, 4, 10, ⟨0, 0⟩, ⟨0, 0⟩⟩ : UCameraMovement_ExpHalfLifeComponent).Update1D 2).1 - 4
      = (10 - 4) / 2 :=
  (Update1D_half_life ⟨2, 4, 10, ⟨0, 0⟩, ⟨0, 0⟩⟩ (by norm_num)).2.2

/-! ## Properties of the spring smoother -/

/-- The spring step for a positive half-life, with the local names unfolded. -/
theorem SpringUpdate1D_of_pos {h : ℝ} (hh : 0 < h) (dt d c v : ℝ) :
    SpringUpdate1D h dt d c v =
      (d + (c - d + (v + Real.log 2 / h * (c - d)) * dt) * Real.exp (-(Real.log 2 / h) * dt),
        (v - Real.log 2 / h * (v + Real.log 2 / h * (c - d)) * dt)
          * Real.exp (-(Real.log 2 / h) * dt)) := by
  unfold SpringUpdate1D
  rw [if_neg (not_le.mpr hh)]

/-- The factor `(1 + x) * exp (-x)` of a spring step from rest lies in `[0, 1]`. -/
theorem spring_rest_factor_mem {x : ℝ} (hx : 0 ≤ x) :
    0 ≤ (1 + x) * Real.exp (-x) ∧ (1 + x) * Real.exp (-x) ≤ 1 := by
  have he : 0 < Real.exp (-x) := Real.exp_pos _
  refine ⟨mul_nonneg (by linarith) he.le, ?_⟩
  have h1 : 1 + x ≤ Real.exp x := by linarith [Real.add_one_le_exp x]
  calc (1 + x) * Real.exp (-x) ≤ Real.exp x * Real.exp (-x) :=
        mul_le_mul_of_nonneg_right h1 he.le
    _ = 1 := by rw [← Real.exp_add]; simp

/-- C3: no overshoot of the critically damped spring.  For a positive half-life and a
step `dt ≥ 0`, a spring step started at rest (velocity `0`) yields a current in the
closed interval between the old current `c` and the desire `d`. -/
theorem SpringUpdate1D_no_overshoot (h dt c d : ℝ) (hh : 0 < h) (hdt : 0 ≤ dt) :
    min c d ≤ (SpringUpdate1D h dt d c 0).1 ∧ (SpringUpdate1D h dt d c 0).1 ≤ max c d := by
  have hw : 0 ≤ Real.log 2 / h * dt :=
    mul_nonneg (div_nonneg (Real.log_nonneg (by norm_num)) hh.le) hdt
  obtain ⟨h0, h1⟩ := spring_rest_factor_mem hw
  have key : (SpringUpdate1D h dt d c 0).1
      = d + (c - d) * ((1 + Real.log 2 / h * dt) * Real.exp (-(Real.log 2 / h * dt))) := by
    rw [SpringUpdate1D_of_pos hh]
    simp only [neg_mul]
    ring
  rw [key]
  set θ := (1 + Real.log 2 / h * dt) * Real.exp (-(Real.log 2 / h * dt)) with hθ
  rcases le_total c d with hcd | hcd
  · rw [min_eq_left hcd, max_eq_right hcd]
    constructor <;> nlinarith
  · rw [min_eq_right hcd, max_eq_left hcd]
    constructor <;> nlinarith

/-- Witness of C3: half-life `1`, step `1`, from `5` towards `2`. -/
theorem SpringUpdate1D_no_overshoot_witness :
    min (5 : ℝ) 2 ≤ (SpringUpdate1D 1 1 2 5 0).1 ∧ (SpringUpdate1D 1 1 2 5 0).1 ≤ max 5 2 :=
  SpringUpdate1D_no_overshoot 1 1 5 2 (by norm_num) (by norm_num)

/-- C4, as stated, fails: the half-life `10⁻⁹` is positive and below the epsilon
`SMALL_NUMBER` (so below `KINDA_SMALL_NUMBER` too), yet with `dt = 0`, current `1` and
desire `0` neither `Update1D` nor `SpringUpdate1D` returns the desire; both return the
old current `1`. -/
theorem snap_below_epsilon_counterexample :
    (0 : ℝ) < 1 / 1000000000 ∧ (1 : ℝ) / 1000000000 < SMALL_NUMBER ∧
    (1 : ℝ) / 1000000000 < KINDA_SMALL_NUMBER ∧
    ((⟨1 / 1000000000, 0, 1, ⟨0, 0⟩, ⟨0, 0⟩⟩ :
        UCameraMovement_ExpHalfLifeComponent).Update1D 0).1 = 1 ∧
    ((⟨1 / 1000000000, 0, 1, ⟨0, 0⟩, ⟨0, 0⟩⟩ :
        UCameraMovement_ExpHalfLifeComponent).Update1D 0).1 ≠ 0 ∧
    (SpringUpdate1D (1 / 1000000000) 0 0 1 0).1 = 1 ∧
    (SpringUpdate1D (1 / 1000000000) 0 0 1 0).1 ≠ 0 := by
  have hpos : (0 : ℝ) < 1 / 1000000000 := by norm_num
  have hexp : ((⟨1 / 1000000000, 0, 1, ⟨0, 0⟩, ⟨0, 0⟩⟩ :
      UCameraMovement_ExpHalfLifeComponent).Update1D 0).1 = 1 := by
    show (0 : ℝ) + (1 - 0) * HalfLifeDecayK (1 / 1000000000) 0 = 1
    rw [HalfLifeDecayK_of_pos hpos]
    simp
  have hspr : (SpringUpdate1D (1 / 1000000000) 0 0 1 0).1 = 1 := by
    rw [SpringUpdate1D_of_pos hpos]
    simp
  refine ⟨hpos, ?_, ?_, hexp, ?_, hspr, ?_⟩
  · unfold SMALL_NUMBER; norm_num
  · unfold KINDA_SMALL_NUMBER; norm_num
  · rw [hexp]; norm_num
  · rw [hspr]; norm_num

/-- C4, amended: snap on a non-positive half-life, floats read as exact reals (so that
`Current - Desire` does not overflow in `Update1D`).  For every half-life `h ≤ 0` and
every current, desire, velocity and `dt`, one `Update1D` of the exponential component
returns the desire and leaves `Current1D` equal to it, one `SpringUpdate1D` gives the
desire with velocity `0`, and so does the spring component's `Update1D`; the stateless
`ExpSmoothingHL` returns the target for every half-life `h2` up to `SMALL_NUMBER`. -/
theorem snap_on_nonpositive_half_life (h h2 c d v dt : ℝ) (D2 C2 V2 : FVector2D)
    (hh : h ≤ 0) (hh2 : h2 ≤ SMALL_NUMBER) :
    ((⟨h, d, c, D2, C2⟩ : UCameraMovement_ExpHalfLifeComponent).Update1D dt).1 = d ∧
    ((⟨h, d, c, D2, C2⟩ : UCameraMovement_ExpHalfLifeComponent).Update1D dt).2.Current1D = d ∧
    SpringUpdate1D h dt d c v = (d, 0) ∧
    ((⟨h, d, c, v, D2, C2, V2⟩ : UCameraMovement_SpringHalfLifeComponent).Update1D dt).1 = d ∧
    ((⟨h, d, c, v, D2, C2, V2⟩ :
        UCameraMovement_SpringHalfLifeComponent).Update1D dt).2.Velocity1D = 0 ∧
    ExpSmoothingHL c d h2 dt = d := by
  have hK : HalfLifeDecayK h dt = 0 := by
    unfold HalfLifeDecayK; rw [if_pos hh]
  have hS : SpringUpdate1D h dt d c v = (d, 0) := by
    unfold SpringUpdate1D; rw [if_pos hh]
  have hE : ((⟨h, d, c, D2, C2⟩ : UCameraMovement_ExpHalfLifeComponent).Update1D dt).1 = d := by
    show d + (c - d) * HalfLifeDecayK h dt = d
    rw [hK]; ring
  refine ⟨hE, hE, hS, ?_, ?_, ?_⟩
  · show (SpringUpdate1D h dt d c v).1 = d
    rw [hS]
  · show (SpringUpdate1D h dt d c v).2 = 0
    rw [hS]
  · unfold ExpSmoothingHL ExpSmoothHL_Internal
    rw [if_pos hh2]

/-- Witness of C4 amended: half-life `0` for the components, `10⁻⁹` for the stateless
smoother, from `3` towards `7` with velocity `5` and step `1`. -/
theorem snap_on_nonpositive_half_life_witness :
    ((⟨0, 7, 3, ⟨0, 0⟩, ⟨0, 0⟩⟩ : UCameraMovement_ExpHalfLifeComponent).Update1D 1).1 = 7 ∧
    SpringUpdate1D 0 1 7 3 5 = (7, 0) ∧
    ExpSmoothingHL 3 7 (1 / 1000000000) 1 = 7 :=
  have w := snap_on_nonpositive_half_life 0 (1 / 1000000000) 3 7 5 1 ⟨0, 0⟩ ⟨0, 0⟩ ⟨0, 0⟩
    (le_refl 0) (by unfold SMALL_NUMBER; norm_num)
  ⟨w.1, w.2.2.1, w.2.2.2.2.2⟩

/-- C10: the spring step is the exact solution of the critically damped system.  For a
positive half-life `h` with `w = ln 2 / h`, the current `x t` and velocity `v t` that
`SpringUpdate1D` produces for step length `t` from `x0`, `v0` satisfy `x 0 = x0`,
`v 0 = v0`, and at every real `t` the derivative of `x` is `v t` and the derivative of
`v` is `-2 * w * v t - w ^ 2 * (x t - d)`. -/
theorem SpringUpdate1D_solves_ode (h d x0 v0 : ℝ) (hh : 0 < h) :
    (SpringUpdate1D h 0 d x0 v0).1 = x0 ∧
    (SpringUpdate1D h 0 d x0 v0).2 = v0 ∧
    ∀ t : ℝ,
      HasDerivAt (fun s => (SpringUpdate1D h s d x0 v0).1) (SpringUpdate1D h t d x0 v0).2 t ∧
      HasDerivAt (fun s => (SpringUpdate1D h s d x0 v0).2)
        (-2 * (Real.log 2 / h) * (SpringUpdate1D h t d x0 v0).2
          - (Real.log 2 / h) ^ 2 * ((SpringUpdate1D h t d x0 v0).1 - d)) t := by
  refine ⟨?_, ?_, fun t => ⟨?_, ?_⟩⟩
  · rw [SpringUpdate1D_of_pos hh]; simp
  · rw [SpringUpdate1D_of_pos hh]; simp
  · have hfun : (fun s => (SpringUpdate1D h s d x0 v0).1) = fun s =>
        d + (x0 - d + (v0 + Real.log 2 / h * (x0 - d)) * s)
          * Real.exp (-(Real.log 2 / h) * s) := by
      funext s; rw [SpringUpdate1D_of_pos hh]
    rw [hfun, SpringUpdate1D_of_pos hh]
    have hlin : HasDerivAt (fun s : ℝ => x0 - d + (v0 + Real.log 2 / h * (x0 - d)) * s)
        (v0 + Real.log 2 / h * (x0 - d)) t := by
      simpa using ((hasDerivAt_id t).const_mul (v0 + Real.log 2 / h * (x0 - d))).const_add
        (x0 - d)
    have hexp : HasDerivAt (fun s : ℝ => Real.exp (-(Real.log 2 / h) * s))
        (Real.exp (-(Real.log 2 / h) * t) * (-(Real.log 2 / h))) t := by
      simpa using ((hasDerivAt_id t).const_mul (-(Real.log 2 / h))).exp
    have := (hlin.mul hexp).const_add d
    convert this using 1
    ring
  · have hfun : (fun s => (SpringUpdate1D h s d x0 v0).2) = fun s =>
        (v0 - Real.log 2 / h * (v0 + Real.log 2 / h * (x0 - d)) * s)
          * Real.exp (-(Real.log 2 / h) * s) := by
      funext s; rw [SpringUpdate1D_of_pos hh]
    rw [hfun, SpringUpdate1D_of_pos hh]
    have hlin : HasDerivAt
        (fun s : ℝ => v0 - Real.log 2 / h * (v0 + Real.log 2 / h * (x0 - d)) * s)
        (-(Real.log 2 / h * (v0 + Real.log 2 / h * (x0 - d)))) t := by
      simpa using ((hasDerivAt_id t).const_mul
        (Real.log 2 / h * (v0 + Real.log 2 / h * (x0 - d)))).const_sub v0
    have hexp : HasDerivAt (fun s : ℝ => Real.exp (-(Real.log 2 / h) * s))
        (Real.exp (-(Real.log 2 / h) * t) * (-(Real.log 2 / h))) t := by
      simpa using ((hasDerivAt_id t).const_mul (-(Real.log 2 / h))).exp
    have := hlin.mul hexp
    convert this using 1
    ring

/-- Witness of C10: half-life `1`, desire `0`, from `x0 = 1` with `v0 = 0`. -/
theorem SpringUpdate1D_solves_ode_witness :
    (SpringUpdate1D 1 0 0 1 0).1 = 1 ∧
    (SpringUpdate1D 1 0 0 1 0).2 = 0 ∧
    ∀ t : ℝ,
      HasDerivAt (fun s => (SpringUpdate1D 1 s 0 1 0).1) (SpringUpdate1D 1 t 0 1 0).2 t ∧
      HasDerivAt (fun s => (SpringUpdate1D 1 s 0 1 0).2)
        (-2 * (Real.log 2 / 1) * (SpringUpdate1D 1 t 0 1 0).2
          - (Real.log 2 / 1) ^ 2 * ((SpringUpdate1D 1 t 0 1 0).1 - 0)) t :=
  SpringUpdate1D_solves_ode 1 0 1 0 (by norm_num)

/-! ## Properties of the grid transforms -/

/-- The function `WorldToGrid` on a configuration that passes the degenerate check. -/
theorem WorldToGrid_of_nondegenerate (cfg : FGridConfig) (pos : FVector) (clamp : Bool)
    (pol : EGridRoundingPolicy) (hW : 0 < cfg.Width) (hH : 0 < cfg.Height)
    (hC : KINDA_SMALL_NUMBER < cfg.CellSize) :
    WorldToGrid cfg pos clamp pol =
      if clamp then
        (true, ⟨Clamp (RoundIndex pol (WorldToGridContinuous cfg pos).1) 0 (cfg.Width - 1),
          Clamp (RoundIndex pol (WorldToGridContinuous cfg pos).2) 0 (cfg.Height - 1)⟩)
      else if RoundIndex pol (WorldToGridContinuous cfg pos).1 < 0
          ∨ RoundIndex pol (WorldToGridContinuous cfg pos).1 ≥ cfg.Width
          ∨ RoundIndex pol (WorldToGridContinuous cfg pos).2 < 0
          ∨ RoundIndex pol (WorldToGridContinuous cfg pos).2 ≥ cfg.Height then
        (false, ⟨-1, -1⟩)
      else
        (true, ⟨RoundIndex pol (WorldToGridContinuous cfg pos).1,
          RoundIndex pol (WorldToGridContinuous cfg pos).2⟩) := by
  unfold WorldToGrid
  rw [if_neg]
  rintro (h | h | h)
  · exact absurd hW (not_lt.mpr h)
  · exact absurd hH (not_lt.mpr h)
  · exact absurd hC (not_lt.mpr h)

/-- Engine `FMath::Clamp` with `Min ≤ Max` lands in `[Min, Max]` and is `max Min (min X Max)`. -/
theorem Clamp_spec (X Min Max : ℤ) (h : Min ≤ Max) :
    Min ≤ Clamp X Min Max ∧ Clamp X Min Max ≤ Max ∧ Clamp X Min Max = max Min (min X Max) := by
  unfold Clamp
  split_ifs with h1 h2
  · refine ⟨le_refl _, h, ?_⟩
    rw [max_eq_left]; exact le_trans (min_le_left _ _) h1.le
  · refine ⟨not_lt.mp h1, h2.le, ?_⟩
    rw [min_eq_left h2.le, max_eq_right (not_lt.mp h1)]
  · refine ⟨h, le_refl _, ?_⟩
    rw [min_eq_right (not_lt.mp h2), max_eq_right h]

/-- C5: a degenerate configuration is rejected.  If `Width ≤ 0` or `Height ≤ 0` or
`CellSize ≤ KINDA_SMALL_NUMBER`, then for every world position, rounding policy and
value of `bClampToBounds`, `WorldToGrid` returns `false` and sets `OutGrid` to
`(-1, -1)`. -/
theorem WorldToGrid_degenerate (cfg : FGridConfig) (pos : FVector) (clamp : Bool)
    (pol : EGridRoundingPolicy)
    (h : cfg.Width ≤ 0 ∨ cfg.Height ≤ 0 ∨ cfg.CellSize ≤ KINDA_SMALL_NUMBER) :
    WorldToGrid cfg pos clamp pol = (false, ⟨-1, -1⟩) := by
  unfold WorldToGrid
  rw [if_pos h]

/-- Witness of C5: the default configuration has `Width = 0`. -/
theorem WorldToGrid_degenerate_witness :
    WorldToGrid FGridConfig.default ⟨50, 50, 0⟩ true EGridRoundingPolicy.Floor
      = (false, ⟨-1, -1⟩) :=
  WorldToGrid_degenerate FGridConfig.default ⟨50, 50, 0⟩ true EGridRoundingPolicy.Floor
    (Or.inl (le_refl 0))

/-- C6: clamping always succeeds in bounds.  For a non-degenerate configuration, every
world position and every rounding policy, `WorldToGrid` with `bClampToBounds = true`
returns `true` and an `OutGrid` with `0 ≤ X ≤ Width - 1`, `0 ≤ Y ≤ Height - 1`, each
coordinate being the rounded index clamped into its range. -/
theorem WorldToGrid_clamp (cfg : FGridConfig) (pos : FVector) (pol : EGridRoundingPolicy)
    (hW : 0 < cfg.Width) (hH : 0 < cfg.Height) (hC : KINDA_SMALL_NUMBER < cfg.CellSize) :
    (WorldToGrid cfg pos true pol).1 = true ∧
    0 ≤ (WorldToGrid cfg pos true pol).2.X ∧
    (WorldToGrid cfg pos true pol).2.X ≤ cfg.Width - 1 ∧
    0 ≤ (WorldToGrid cfg pos true pol).2.Y ∧
    (WorldToGrid cfg pos true pol).2.Y ≤ cfg.Height - 1 ∧
    (WorldToGrid cfg pos true pol).2.X
      = max 0 (min (RoundIndex pol (WorldToGridContinuous cfg pos).1) (cfg.Width - 1)) ∧
    (WorldToGrid cfg pos true pol).2.Y
      = max 0 (min (RoundIndex pol (WorldToGridContinuous cfg pos).2) (cfg.Height - 1)) := by
  rw [WorldToGrid_of_nondegenerate cfg pos true pol hW hH hC]
  simp only [if_true]
  obtain ⟨a1, a2, a3⟩ :=
    Clamp_spec (RoundIndex pol (WorldToGridContinuous cfg pos).1) 0 (cfg.Width - 1) (by omega)
  obtain ⟨b1, b2, b3⟩ :=
    Clamp_spec (RoundIndex pol (WorldToGridContinuous cfg pos).2) 0 (cfg.Height - 1) (by omega)
  exact ⟨trivial, a1, a2, b1, b2, a3, b3⟩

/-- Witness of C6: a position far outside the 10 by 10 example grid is clamped into
`[0,9] × [0,9]`. -/
theorem WorldToGrid_clamp_witness :
    (WorldToGrid exampleConfig ⟨1000000, -1000000, 0⟩ true EGridRoundingPolicy.Round).1 = true ∧
    0 ≤ (WorldToGrid exampleConfig ⟨1000000, -1000000, 0⟩ true EGridRoundingPolicy.Round).2.X ∧
    (WorldToGrid exampleConfig ⟨1000000, -1000000, 0⟩ true EGridRoundingPolicy.Round).2.X ≤ 9 ∧
    0 ≤ (WorldToGrid exampleConfig ⟨1000000, -1000000, 0⟩ true EGridRoundingPolicy.Round).2.Y ∧
    (WorldToGrid exampleConfig ⟨1000000, -1000000, 0⟩ true EGridRoundingPolicy.Round).2.Y ≤ 9 :=
  have w := WorldToGrid_clamp exampleConfig ⟨1000000, -1000000, 0⟩ EGridRoundingPolicy.Round
    (by decide) (by decide)
    (by unfold KINDA_SMALL_NUMBER exampleConfig FGridConfig.default; norm_num)
  ⟨w.1, w.2.1, w.2.2.1, w.2.2.2.1, w.2.2.2.2.1⟩

/-- C7: out-of-bounds signalling without clamping.  For a non-degenerate configuration,
every world position and rounding policy, `WorldToGrid` with `bClampToBounds = false`
returns `(false, (-1,-1))` if and only if the rounded index `Gx` is outside
`[0, Width-1]` or `Gy` is outside `[0, Height-1]`; otherwise it returns `true` with
`OutGrid = (Gx, Gy)`. -/
theorem WorldToGrid_no_clamp (cfg : FGridConfig) (pos : FVector) (pol : EGridRoundingPolicy)
    (hW : 0 < cfg.Width) (hH : 0 < cfg.Height) (hC : KINDA_SMALL_NUMBER < cfg.CellSize) :
    (WorldToGrid cfg pos false pol = (false, ⟨-1, -1⟩) ↔
      (RoundIndex pol (WorldToGridContinuous cfg pos).1 < 0
        ∨ cfg.Width - 1 < RoundIndex pol (WorldToGridContinuous cfg pos).1
        ∨ RoundIndex pol (WorldToGridContinuous cfg pos).2 < 0
        ∨ cfg.Height - 1 < RoundIndex pol (WorldToGridContinuous cfg pos).2)) ∧
    (¬ (RoundIndex pol (WorldToGridContinuous cfg pos).1 < 0
        ∨ cfg.Width - 1 < RoundIndex pol (WorldToGridContinuous cfg pos).1
        ∨ RoundIndex pol (WorldToGridContinuous cfg pos).2 < 0
        ∨ cfg.Height - 1 < RoundIndex pol (WorldToGridContinuous cfg pos).2) →
      WorldToGrid cfg pos false pol =
        (true, ⟨RoundIndex pol (WorldToGridContinuous cfg pos).1,
          RoundIndex pol (WorldToGridContinuous cfg pos).2⟩)) := by
  rw [WorldToGrid_of_nondegenerate cfg pos false pol hW hH hC]
  simp only [Bool.false_eq_true, if_false]
  by_cases hout : RoundIndex pol (WorldToGridContinuous cfg pos).1 < 0
      ∨ RoundIndex pol (WorldToGridContinuous cfg pos).1 ≥ cfg.Width
      ∨ RoundIndex pol (WorldToGridContinuous cfg pos).2 < 0
      ∨ RoundIndex pol (WorldToGridContinuous cfg pos).2 ≥ cfg.Height
  · rw [if_pos hout]
    have hout2 : RoundIndex pol (WorldToGridContinuous cfg pos).1 < 0
        ∨ cfg.Width - 1 < RoundIndex pol (WorldToGridContinuous cfg pos).1
        ∨ RoundIndex pol (WorldToGridContinuous cfg pos).2 < 0
        ∨ cfg.Height - 1 < RoundIndex pol (WorldToGridContinuous cfg pos).2 := by omega
    exact ⟨⟨fun _ => hout2, fun _ => rfl⟩, fun hn => absurd hout2 hn⟩
  · rw [if_neg hout]
    have hin : ¬ (RoundIndex pol (WorldToGridContinuous cfg pos).1 < 0
        ∨ cfg.Width - 1 < RoundIndex pol (WorldToGridContinuous cfg pos).1
        ∨ RoundIndex pol (WorldToGridContinuous cfg pos).2 < 0
        ∨ cfg.Height - 1 < RoundIndex pol (WorldToGridContinuous cfg pos).2) := by omega
    refine ⟨⟨fun heq => ?_, fun h => absurd h hin⟩, fun _ => rfl⟩
    have := congrArg Prod.fst heq
    simp at this

/-- Engine `FVector::GetSafeNormal` returns a vector of squared length one unchanged. -/
theorem GetSafeNormal_of_unit (v : FVector) (h : v.X * v.X + v.Y * v.Y + v.Z * v.Z = 1) :
    v.GetSafeNormal = v := by
  unfold FVector.GetSafeNormal
  simp only []
  rw [if_pos h]

/-- Engine `FVector::GetSafeNormal` of the zero vector is the zero vector. -/
theorem GetSafeNormal_zero : FVector.GetSafeNormal ⟨0, 0, 0⟩ = ⟨0, 0, 0⟩ := by
  unfold FVector.GetSafeNormal
  simp only []
  rw [if_neg (by norm_num), if_pos (by unfold SMALL_NUMBER; norm_num)]
  rfl

/-- Engine `FMath::FloorToInt` of a float lying in `[z, z + 1)` for an `int32` value `z`. -/
theorem FloorToInt_eq (F : ℝ) (z : ℤ) (hz : IsInt32 z) (h1 : (z : ℝ) ≤ F)
    (h2 : F < (z : ℝ) + 1) : FloorToInt F = z := by
  unfold FloorToInt toInt32
  rw [Int.floor_eq_iff.mpr ⟨h1, h2⟩]
  exact if_pos hz

/-- The resolved axes of a configuration without rotation whose axes are unit vectors. -/
theorem ResolveGridAxes_of_unit (cfg : FGridConfig) (hr : cfg.bUseRotation = false)
    (hx : cfg.AxisX.X * cfg.AxisX.X + cfg.AxisX.Y * cfg.AxisX.Y + cfg.AxisX.Z * cfg.AxisX.Z = 1)
    (hy : cfg.AxisY.X * cfg.AxisY.X + cfg.AxisY.Y * cfg.AxisY.Y + cfg.AxisY.Z * cfg.AxisY.Z = 1) :
    ResolveGridAxes cfg = (cfg.AxisX, cfg.AxisY) := by
  unfold ResolveGridAxes
  rw [hr, GetSafeNormal_of_unit _ hx, GetSafeNormal_of_unit _ hy]
  simp

/-- The resolved axes of the example configuration are the default axes. -/
theorem ResolveGridAxes_exampleConfig :
    ResolveGridAxes exampleConfig = (⟨1, 0, 0⟩, ⟨0, 1, 0⟩) := by
  rw [ResolveGridAxes_of_unit exampleConfig rfl]
  · rfl
  · simp [exampleConfig, FGridConfig.default, FVector.ForwardVector]
  · simp [exampleConfig, FGridConfig.default, FVector.RightVector]

/-- The continuous coordinates of a world position in the example configuration. -/
theorem WorldToGridContinuous_exampleConfig (x y z : ℝ) :
    WorldToGridContinuous exampleConfig ⟨x, y, z⟩ = (x / 100, y / 100) := by
  unfold WorldToGridContinuous
  rw [ResolveGridAxes_exampleConfig]
  simp [exampleConfig, FGridConfig.default, FVector.sub, FVector.DotProduct,
    FVector.ZeroVector]

/-- Witness of C7: in the 10 by 10 example grid the position `(-50, 50, 0)` rounds to
`Gx = -1` and is signalled out of bounds. -/
theorem WorldToGrid_no_clamp_witness :
    WorldToGrid exampleConfig ⟨-50, 50, 0⟩ false EGridRoundingPolicy.Floor
      = (false, ⟨-1, -1⟩) :=
  (WorldToGrid_no_clamp exampleConfig ⟨-50, 50, 0⟩ EGridRoundingPolicy.Floor
    (by decide) (by decide)
    (by unfold KINDA_SMALL_NUMBER exampleConfig FGridConfig.default; norm_num)).1.mpr
    (Or.inl (by
      rw [WorldToGridContinuous_exampleConfig]
      show FloorToInt (-50 / 100) < 0
      rw [FloorToInt_eq (-50 / 100) (-1) (by unfold IsInt32 INT32_MIN INT32_MAX; decide)
        (by norm_num) (by norm_num)]
      decide))

/-- C8: grid-to-world formula.  For every configuration and cell `(gx, gy)`, the `X`
and `Y` components of `GridToWorldGround` are those of
`GridOrigin + Ax * (gx + 0.5) * CellSize + Ay * (gy + 0.5) * CellSize` with `Ax`, `Ay`
the resolved axes; the `Z` component is the provider's `GetHeightAt gx gy` when a
provider is attached and `GridOrigin.Z` when none is; in the example configuration
cell `(0,0)` maps to `(50, 50, 0)`. -/
theorem GridToWorldGround_formula (cfg : FGridConfig) (g : FIntPoint)
    (p : IGridHeightProvider) :
    (GridToWorldGround cfg g).X
      = cfg.GridOrigin.X + (ResolveGridAxes cfg).1.X * ((g.X + 0.5) * cfg.CellSize)
          + (ResolveGridAxes cfg).2.X * ((g.Y + 0.5) * cfg.CellSize) ∧
    (GridToWorldGround cfg g).Y
      = cfg.GridOrigin.Y + (ResolveGridAxes cfg).1.Y * ((g.X + 0.5) * cfg.CellSize)
          + (ResolveGridAxes cfg).2.Y * ((g.Y + 0.5) * cfg.CellSize) ∧
    (GridToWorldGround { cfg with HeightProvider := some p } g).Z = p.GetHeightAt g.X g.Y ∧
    (GridToWorldGround { cfg with HeightProvider := none } g).Z = cfg.GridOrigin.Z ∧
    GridToWorldGround exampleConfig ⟨0, 0⟩ = ⟨50, 50, 0⟩ := by
  refine ⟨?_, ?_, rfl, rfl, ?_⟩
  · simp only [GridToWorldGround, FVector.add, FVector.smul]
    ring
  · simp only [GridToWorldGround, FVector.add, FVector.smul]
    ring
  · unfold GridToWorldGround
    rw [ResolveGridAxes_exampleConfig]
    simp [exampleConfig, FGridConfig.default, FVector.add, FVector.smul, GetGroundHeight,
      FVector.ZeroVector]
    norm_num

/-- The continuous coordinates of a cell centre, for orthonormal horizontal resolved
axes and a non-zero cell size, are the cell indices plus one half. -/
theorem WorldToGridContinuous_GridToWorldGround (cfg : FGridConfig) (g : FIntPoint)
    (hC : cfg.CellSize ≠ 0)
    (hXX : FVector.DotProduct (ResolveGridAxes cfg).1 (ResolveGridAxes cfg).1 = 1)
    (hYY : FVector.DotProduct (ResolveGridAxes cfg).2 (ResolveGridAxes cfg).2 = 1)
    (hXY : FVector.DotProduct (ResolveGridAxes cfg).1 (ResolveGridAxes cfg).2 = 0)
    (hXz : (ResolveGridAxes cfg).1.Z = 0) (hYz : (ResolveGridAxes cfg).2.Z = 0) :
    WorldToGridContinuous cfg (GridToWorldGround cfg g)
      = ((g.X : ℝ) + 0.5, (g.Y : ℝ) + 0.5) := by
  unfold FVector.DotProduct at hXX hYY hXY
  rw [hXz] at hXX hXY
  rw [hYz] at hYY hXY
  simp only [WorldToGridContinuous, GridToWorldGround, FVector.sub, FVector.add, FVector.smul,
    FVector.DotProduct, hXz, hYz]
  refine Prod.ext ?_ ?_
  · show _ / cfg.CellSize = (g.X : ℝ) + 0.5
    rw [div_eq_iff hC]
    linear_combination ((g.X : ℝ) + 0.5) * cfg.CellSize * hXX
      + ((g.Y : ℝ) + 0.5) * cfg.CellSize * hXY
  · show _ / cfg.CellSize = (g.Y : ℝ) + 0.5
    rw [div_eq_iff hC]
    linear_combination ((g.Y : ℝ) + 0.5) * cfg.CellSize * hYY
      + ((g.X : ℝ) + 0.5) * cfg.CellSize * hXY

/-- Engine `FMath::FloorToInt` of an `int32` value plus one half is that value. -/
theorem FloorToInt_add_half (z : ℤ) (hz : IsInt32 z) : FloorToInt ((z : ℝ) + 0.5) = z :=
  FloorToInt_eq _ z hz (by norm_num) (by norm_num)

/-- C2, as stated, fails for axes that are not orthonormal and horizontal.  In the 10 by
10 example grid: with both axes `(1,0,0)` cell `(0,0)` comes back as `(1,1)`; with
`AxisX = (0,0,1)` cell `(1,0)` comes back as `(0,0)`; with `AxisX` the zero vector cell
`(1,0)` comes back as `(0,0)`. -/
theorem roundtrip_any_axes_counterexample :
    (0 < skewConfig.Width ∧ 0 < skewConfig.Height ∧
      KINDA_SMALL_NUMBER < skewConfig.CellSize) ∧
    WorldToGrid skewConfig (GridToWorldGround skewConfig ⟨0, 0⟩) false
        EGridRoundingPolicy.Floor = (true, ⟨1, 1⟩) ∧
    WorldToGrid skewConfig (GridToWorldGround skewConfig ⟨0, 0⟩) false
        EGridRoundingPolicy.Floor ≠ (true, ⟨0, 0⟩) ∧
    WorldToGrid tiltedConfig (GridToWorldGround tiltedConfig ⟨1, 0⟩) false
        EGridRoundingPolicy.Floor = (true, ⟨0, 0⟩) ∧
    WorldToGrid tiltedConfig (GridToWorldGround tiltedConfig ⟨1, 0⟩) false
        EGridRoundingPolicy.Floor ≠ (true, ⟨1, 0⟩) ∧
    WorldToGrid zeroAxisConfig (GridToWorldGround zeroAxisConfig ⟨1, 0⟩) false
        EGridRoundingPolicy.Floor = (true, ⟨0, 0⟩) ∧
    WorldToGrid zeroAxisConfig (GridToWorldGround zeroAxisConfig ⟨1, 0⟩) false
        EGridRoundingPolicy.Floor ≠ (true, ⟨1, 0⟩) := by
  have i0 : IsInt32 0 := by unfold IsInt32 INT32_MIN INT32_MAX; decide
  have i1 : IsInt32 1 := by unfold IsInt32 INT32_MIN INT32_MAX; decide
  have hK : KINDA_SMALL_NUMBER < (100 : ℝ) := by unfold KINDA_SMALL_NUMBER; norm_num
  have axS : ResolveGridAxes skewConfig = (⟨1, 0, 0⟩, ⟨1, 0, 0⟩) := by
    rw [ResolveGridAxes_of_unit skewConfig rfl]
    · rfl
    · simp [skewConfig, exampleConfig, FGridConfig.default, FVector.ForwardVector]
    · simp [skewConfig]
  have axT : ResolveGridAxes tiltedConfig = (⟨0, 0, 1⟩, ⟨0, 1, 0⟩) := by
    rw [ResolveGridAxes_of_unit tiltedConfig rfl]
    · rfl
    · simp [tiltedConfig]
    · simp [tiltedConfig, exampleConfig, FGridConfig.default, FVector.RightVector]
  have axZ : ResolveGridAxes zeroAxisConfig = (⟨0, 0, 0⟩, ⟨0, 1, 0⟩) := by
    unfold ResolveGridAxes
    have h1 : zeroAxisConfig.AxisX = ⟨0, 0, 0⟩ := rfl
    have h2 : zeroAxisConfig.AxisY = ⟨0, 1, 0⟩ := rfl
    have h3 : zeroAxisConfig.bUseRotation = false := rfl
    rw [h1, h2, h3, GetSafeNormal_zero, GetSafeNormal_of_unit _ (by norm_num)]
    simp
  have cS : WorldToGridContinuous skewConfig (GridToWorldGround skewConfig ⟨0, 0⟩)
      = (1, 1) := by
    simp only [WorldToGridContinuous, GridToWorldGround, axS]
    simp [skewConfig, exampleConfig, FGridConfig.default, FVector.sub, FVector.add,
      FVector.smul, FVector.DotProduct, FVector.ZeroVector, GetGroundHeight]
    norm_num
  have cT : WorldToGridContinuous tiltedConfig (GridToWorldGround tiltedConfig ⟨1, 0⟩)
      = (0, 0.5) := by
    simp only [WorldToGridContinuous, GridToWorldGround, axT]
    simp [tiltedConfig, exampleConfig, FGridConfig.default, FVector.sub, FVector.add,
      FVector.smul, FVector.DotProduct, FVector.ZeroVector, GetGroundHeight]
  have cZ : WorldToGridContinuous zeroAxisConfig (GridToWorldGround zeroAxisConfig ⟨1, 0⟩)
      = (0, 0.5) := by
    simp only [WorldToGridContinuous, GridToWorldGround, axZ]
    simp [zeroAxisConfig, exampleConfig, FGridConfig.default, FVector.sub, FVector.add,
      FVector.smul, FVector.DotProduct, FVector.ZeroVector, GetGroundHeight]
  have f0 : FloorToInt 0 = 0 := FloorToInt_eq 0 0 i0 (by norm_num) (by norm_num)
  have f1 : FloorToInt 1 = 1 := FloorToInt_eq 1 1 i1 (by norm_num) (by norm_num)
  have fh : FloorToInt 0.5 = 0 := FloorToInt_eq 0.5 0 i0 (by norm_num) (by norm_num)
  have rS : WorldToGrid skewConfig (GridToWorldGround skewConfig ⟨0, 0⟩) false
      EGridRoundingPolicy.Floor = (true, ⟨1, 1⟩) := by
    rw [WorldToGrid_of_nondegenerate _ _ _ _ (by decide) (by decide) hK, cS]
    simp only [RoundIndex, f1]
    decide
  have rT : WorldToGrid tiltedConfig (GridToWorldGround tiltedConfig ⟨1, 0⟩) false
      EGridRoundingPolicy.Floor = (true, ⟨0, 0⟩) := by
    rw [WorldToGrid_of_nondegenerate _ _ _ _ (by decide) (by decide) hK, cT]
    simp only [RoundIndex, f0, fh]
    decide
  have rZ : WorldToGrid zeroAxisConfig (GridToWorldGround zeroAxisConfig ⟨1, 0⟩) false
      EGridRoundingPolicy.Floor = (true, ⟨0, 0⟩) := by
    rw [WorldToGrid_of_nondegenerate _ _ _ _ (by decide) (by decide) hK, cZ]
    simp only [RoundIndex, f0, fh]
    decide
  refine ⟨⟨by decide, by decide, hK⟩, rS, ?_, rT, ?_, rZ, ?_⟩
  · rw [rS]; decide
  · rw [rT]; decide
  · rw [rZ]; decide

/-- C2, amended: round-trip law for orthonormal horizontal axes, floats read as exact
reals.  For a non-degenerate
configuration whose resolved axes are unit, mutually orthogonal and horizontal (zero
`Z`), with or without a height provider, and every `int32` cell `(gx, gy)` with
`0 ≤ gx < Width`, `0 ≤ gy < Height`, `WorldToGrid` of `GridToWorldGround` of the cell,
with `bClampToBounds = false` and `Floor`, returns `true` with `OutGrid = (gx, gy)`. -/
theorem WorldToGrid_GridToWorldGround_roundtrip (cfg : FGridConfig) (g : FIntPoint)
    (hW : 0 < cfg.Width) (hH : 0 < cfg.Height) (hC : KINDA_SMALL_NUMBER < cfg.CellSize)
    (hx0 : 0 ≤ g.X) (hx1 : g.X < cfg.Width) (hy0 : 0 ≤ g.Y) (hy1 : g.Y < cfg.Height)
    (hx32 : IsInt32 g.X) (hy32 : IsInt32 g.Y)
    (hXX : FVector.DotProduct (ResolveGridAxes cfg).1 (ResolveGridAxes cfg).1 = 1)
    (hYY : FVector.DotProduct (ResolveGridAxes cfg).2 (ResolveGridAxes cfg).2 = 1)
    (hXY : FVector.DotProduct (ResolveGridAxes cfg).1 (ResolveGridAxes cfg).2 = 0)
    (hXz : (ResolveGridAxes cfg).1.Z = 0) (hYz : (ResolveGridAxes cfg).2.Z = 0) :
    WorldToGrid cfg (GridToWorldGround cfg g) false EGridRoundingPolicy.Floor = (true, g) := by
  have hC0 : cfg.CellSize ≠ 0 := by
    have : (0 : ℝ) < KINDA_SMALL_NUMBER := by unfold KINDA_SMALL_NUMBER; norm_num
    exact (this.trans hC).ne.symm
  rw [WorldToGrid_of_nondegenerate _ _ _ _ hW hH hC,
    WorldToGridContinuous_GridToWorldGround cfg g hC0 hXX hYY hXY hXz hYz]
  simp only [RoundIndex, FloorToInt_add_half _ hx32, FloorToInt_add_half _ hy32]
  rw [if_neg (by simp), if_neg (by omega)]

/-- Witness of C2 amended: cell `(3,4)` of the 10 by 10 example grid. -/
theorem WorldToGrid_GridToWorldGround_roundtrip_witness :
    WorldToGrid exampleConfig (GridToWorldGround exampleConfig ⟨3, 4⟩) false
      EGridRoundingPolicy.Floor = (true, ⟨3, 4⟩) :=
  WorldToGrid_GridToWorldGround_roundtrip exampleConfig ⟨3, 4⟩ (by decide) (by decide)
    (by unfold KINDA_SMALL_NUMBER exampleConfig FGridConfig.default; norm_num)
    (by decide) (by decide) (by decide) (by decide)
    (by unfold IsInt32 INT32_MIN INT32_MAX; decide)
    (by unfold IsInt32 INT32_MIN INT32_MAX; decide)
    (by rw [ResolveGridAxes_exampleConfig]; simp [FVector.DotProduct])
    (by rw [ResolveGridAxes_exampleConfig]; simp [FVector.DotProduct])
    (by rw [ResolveGridAxes_exampleConfig]; simp [FVector.DotProduct])
    (by rw [ResolveGridAxes_exampleConfig])
    (by rw [ResolveGridAxes_exampleConfig])

/-! ## Fixed point, 2D steps and frame of the smoothers -/

/-- The 2D spring step for a positive half-life, with the local names unfolded. -/
theorem SpringUpdate2D_of_pos {h : ℝ} (hh : 0 < h) (dt : ℝ) (D C V : FVector2D) :
    SpringUpdate2D h dt D C V =
      (D.add (((C.sub D).add ((V.add ((C.sub D).smul (Real.log 2 / h))).smul dt)).smul
          (Real.exp (-(Real.log 2 / h) * dt))),
        (V.sub ((V.add ((C.sub D).smul (Real.log 2 / h))).smul (Real.log 2 / h * dt))).smul
          (Real.exp (-(Real.log 2 / h) * dt))) := by
  unfold SpringUpdate2D
  rw [if_neg (not_le.mpr hh)]

/-- The 1D spring step started at the desire with velocity `0` stays there. -/
theorem SpringUpdate1D_fixed (h dt d : ℝ) : SpringUpdate1D h dt d d 0 = (d, 0) := by
  rcases le_or_lt h 0 with hh | hh
  · unfold SpringUpdate1D
    rw [if_pos hh]
  · rw [SpringUpdate1D_of_pos hh]
    simp

/-- The 2D spring step started at the desire with zero velocity stays there. -/
theorem SpringUpdate2D_fixed (h dt : ℝ) (D : FVector2D) :
    SpringUpdate2D h dt D D FVector2D.ZeroVector = (D, FVector2D.ZeroVector) := by
  rcases le_or_lt h 0 with hh | hh
  · unfold SpringUpdate2D
    rw [if_pos hh]
  · rw [SpringUpdate2D_of_pos hh]
    cases D
    simp [FVector2D.add, FVector2D.sub, FVector2D.smul, FVector2D.ZeroVector]

/-- C11, amended: spring fixed point, floats read as exact reals.  For every half-life
(positive, zero or negative), every
`dt` and every desire, a spring step started with current equal to the desire and
velocity `0` ends with current equal to the desire and velocity `0`, in 1D and in 2D;
in particular `Update1D` after `Snap1D` and `Update2D` after `Snap2D` return the desire
and leave the component as `Snap1D`, `Snap2D` left it. -/
theorem spring_fixed_point (s : UCameraMovement_SpringHalfLifeComponent) (h dt d : ℝ)
    (D : FVector2D) :
    SpringUpdate1D h dt d d 0 = (d, 0) ∧
    SpringUpdate2D h dt D D FVector2D.ZeroVector = (D, FVector2D.ZeroVector) ∧
    (s.Snap1D.Update1D dt).1 = s.Desire1D ∧
    (s.Snap1D.Update1D dt).2 = s.Snap1D ∧
    (s.Snap1D.Update1D dt).2.Current1D = s.Desire1D ∧
    (s.Snap1D.Update1D dt).2.Velocity1D = 0 ∧
    (s.Snap2D.Update2D dt).1 = s.Desire2D ∧
    (s.Snap2D.Update2D dt).2 = s.Snap2D ∧
    (s.Snap2D.Update2D dt).2.Current2D = s.Desire2D ∧
    (s.Snap2D.Update2D dt).2.Velocity2D = FVector2D.ZeroVector := by
  have h1 : (s.Snap1D.Update1D dt).2 = s.Snap1D := by
    show ({ s.Snap1D with
      Current1D := (SpringUpdate1D s.HalfLife dt s.Desire1D s.Desire1D 0).1,
      Velocity1D := (SpringUpdate1D s.HalfLife dt s.Desire1D s.Desire1D 0).2 } :
        UCameraMovement_SpringHalfLifeComponent) = s.Snap1D
    rw [SpringUpdate1D_fixed]
    rfl
  have h2 : (s.Snap2D.Update2D dt).2 = s.Snap2D := by
    show ({ s.Snap2D with
      Current2D :=
        (SpringUpdate2D s.HalfLife dt s.Desire2D s.Desire2D FVector2D.ZeroVector).1,
      Velocity2D :=
        (SpringUpdate2D s.HalfLife dt s.Desire2D s.Desire2D FVector2D.ZeroVector).2 } :
        UCameraMovement_SpringHalfLifeComponent) = s.Snap2D
    rw [SpringUpdate2D_fixed]
    rfl
  have r1 : (s.Snap1D.Update1D dt).1 = (s.Snap1D.Update1D dt).2.Current1D := rfl
  have r2 : (s.Snap2D.Update2D dt).1 = (s.Snap2D.Update2D dt).2.Current2D := rfl
  refine ⟨SpringUpdate1D_fixed h dt d, SpringUpdate2D_fixed h dt D, ?_, h1, ?_, ?_, ?_, h2,
    ?_, ?_⟩
  · rw [r1, h1]; rfl
  · rw [h1]; rfl
  · rw [h1]; rfl
  · rw [r2, h2]; rfl
  · rw [h2]; rfl
  · rw [h2]; rfl

/-- C14, amended: 2D smoothing is per-axis 1D smoothing with a shared half-life, floats
and doubles read as exact reals.  For every
half-life, `dt` and 2D state, the `X` and `Y` components of the current that the
exponential component's `Update2D` leaves are the result of its `Update1D` on that
component alone, and the `X` and `Y` components of the current and velocity that
`SpringUpdate2D` (hence the spring component's `Update2D`) produces are the result of
`SpringUpdate1D` on that component alone. -/
theorem Update2D_per_axis (e : UCameraMovement_ExpHalfLifeComponent)
    (s : UCameraMovement_SpringHalfLifeComponent) (h dt : ℝ) (D C V : FVector2D) :
    (e.Update2D dt).1.X
      = (({ e with Desire1D := e.Desire2D.X, Current1D := e.Current2D.X } :
          UCameraMovement_ExpHalfLifeComponent).Update1D dt).1 ∧
    (e.Update2D dt).1.Y
      = (({ e with Desire1D := e.Desire2D.Y, Current1D := e.Current2D.Y } :
          UCameraMovement_ExpHalfLifeComponent).Update1D dt).1 ∧
    ((SpringUpdate2D h dt D C V).1.X, (SpringUpdate2D h dt D C V).2.X)
      = SpringUpdate1D h dt D.X C.X V.X ∧
    ((SpringUpdate2D h dt D C V).1.Y, (SpringUpdate2D h dt D C V).2.Y)
      = SpringUpdate1D h dt D.Y C.Y V.Y ∧
    ((s.Update2D dt).2.Current2D.X, (s.Update2D dt).2.Velocity2D.X)
      = ((({ s with Desire1D := s.Desire2D.X, Current1D := s.Current2D.X,
                    Velocity1D := s.Velocity2D.X } :
            UCameraMovement_SpringHalfLifeComponent).Update1D dt).2.Current1D,
         (({ s with Desire1D := s.Desire2D.X, Current1D := s.Current2D.X,
                    Velocity1D := s.Velocity2D.X } :
            UCameraMovement_SpringHalfLifeComponent).Update1D dt).2.Velocity1D) ∧
    ((s.Update2D dt).2.Current2D.Y, (s.Update2D dt).2.Velocity2D.Y)
      = ((({ s with Desire1D := s.Desire2D.Y, Current1D := s.Current2D.Y,
                    Velocity1D := s.Velocity2D.Y } :
            UCameraMovement_SpringHalfLifeComponent).Update1D dt).2.Current1D,
         (({ s with Desire1D := s.Desire2D.Y, Current1D := s.Current2D.Y,
                    Velocity1D := s.Velocity2D.Y } :
            UCameraMovement_SpringHalfLifeComponent).Update1D dt).2.Velocity1D) := by
  have spr : ∀ (h : ℝ) (D C V : FVector2D),
      ((SpringUpdate2D h dt D C V).1.X, (SpringUpdate2D h dt D C V).2.X)
          = SpringUpdate1D h dt D.X C.X V.X ∧
      ((SpringUpdate2D h dt D C V).1.Y, (SpringUpdate2D h dt D C V).2.Y)
          = SpringUpdate1D h dt D.Y C.Y V.Y := by
    intro h D C V
    rcases le_or_lt h 0 with hh | hh
    · simp only [SpringUpdate2D, SpringUpdate1D, if_pos hh]
      exact ⟨rfl, rfl⟩
    · rw [SpringUpdate2D_of_pos hh, SpringUpdate1D_of_pos hh, SpringUpdate1D_of_pos hh]
      simp only [FVector2D.add, FVector2D.sub, FVector2D.smul]
      constructor
      · refine Prod.ext ?_ ?_
        · show _ = _
          ring
        · show _ = _
          ring
      · refine Prod.ext ?_ ?_
        · show _ = _
          ring
        · show _ = _
          ring
  refine ⟨rfl, rfl, (spr h D C V).1, (spr h D C V).2, ?_, ?_⟩
  · exact (spr s.HalfLife s.Desire2D s.Current2D s.Velocity2D).1
  · exact (spr s.HalfLife s.Desire2D s.Current2D s.Velocity2D).2

/-- C15: frame of a smoothing step.  For every state and `dt`: the exponential
component's `Update1D` changes no field other than `Current1D` and its `Update2D` no
field other than `Current2D`; the spring component's `Update1D` changes only
`Current1D` and `Velocity1D` and its `Update2D` only `Current2D` and `Velocity2D`;
each returns the new current. -/
theorem Update_frame (e : UCameraMovement_ExpHalfLifeComponent)
    (s : UCameraMovement_SpringHalfLifeComponent) (dt : ℝ) :
    ((e.Update1D dt).2 = { e with Current1D := (e.Update1D dt).2.Current1D } ∧
      (e.Update1D dt).2.HalfLife = e.HalfLife ∧
      (e.Update1D dt).2.Desire1D = e.Desire1D ∧
      (e.Update1D dt).2.Desire2D = e.Desire2D ∧
      (e.Update1D dt).2.Current2D = e.Current2D ∧
      (e.Update1D dt).1 = (e.Update1D dt).2.Current1D) ∧
    ((e.Update2D dt).2 = { e with Current2D := (e.Update2D dt).2.Current2D } ∧
      (e.Update2D dt).2.HalfLife = e.HalfLife ∧
      (e.Update2D dt).2.Desire1D = e.Desire1D ∧
      (e.Update2D dt).2.Current1D = e.Current1D ∧
      (e.Update2D dt).2.Desire2D = e.Desire2D ∧
      (e.Update2D dt).1 = (e.Update2D dt).2.Current2D) ∧
    ((s.Update1D dt).2 = { s with Current1D := (s.Update1D dt).2.Current1D,
                                  Velocity1D := (s.Update1D dt).2.Velocity1D } ∧
      (s.Update1D dt).2.HalfLife = s.HalfLife ∧
      (s.Update1D dt).2.Desire1D = s.Desire1D ∧
      (s.Update1D dt).2.Desire2D = s.Desire2D ∧
      (s.Update1D dt).2.Current2D = s.Current2D ∧
      (s.Update1D dt).2.Velocity2D = s.Velocity2D ∧
      (s.Update1D dt).1 = (s.Update1D dt).2.Current1D) ∧
    ((s.Update2D dt).2 = { s with Current2D := (s.Update2D dt).2.Current2D,
                                  Velocity2D := (s.Update2D dt).2.Velocity2D } ∧
      (s.Update2D dt).2.HalfLife = s.HalfLife ∧
      (s.Update2D dt).2.Desire1D = s.Desire1D ∧
      (s.Update2D dt).2.Current1D = s.Current1D ∧
      (s.Update2D dt).2.Velocity1D = s.Velocity1D ∧
      (s.Update2D dt).2.Desire2D = s.Desire2D ∧
      (s.Update2D dt).1 = (s.Update2D dt).2.Current2D) :=
  ⟨⟨rfl, rfl, rfl, rfl, rfl, rfl⟩, ⟨rfl, rfl, rfl, rfl, rfl, rfl⟩,
    ⟨rfl, rfl, rfl, rfl, rfl, rfl, rfl⟩, ⟨rfl, rfl, rfl, rfl, rfl, rfl, rfl⟩⟩

/-- C13: the eye position is the ground position raised by the eye height.  For every
configuration and cell, `GridToWorldEye` is `GridToWorldGround` plus
`(0, 0, DefaultEyeHeight)`: `X` and `Y` are identical and `Z` is larger by exactly
`DefaultEyeHeight`. -/
theorem GridToWorldEye_eq (cfg : FGridConfig) (g : FIntPoint) :
    GridToWorldEye cfg g = (GridToWorldGround cfg g).add ⟨0, 0, cfg.DefaultEyeHeight⟩ ∧
    (GridToWorldEye cfg g).X = (GridToWorldGround cfg g).X ∧
    (GridToWorldEye cfg g).Y = (GridToWorldGround cfg g).Y ∧
    (GridToWorldEye cfg g).Z - (GridToWorldGround cfg g).Z = cfg.DefaultEyeHeight := by
  refine ⟨?_, rfl, rfl, ?_⟩
  · simp [GridToWorldEye, FVector.add]
  · simp [GridToWorldEye]

/-! ## The array-backed height provider -/

/-- Wrapping an `int32` value leaves it as it is. -/
theorem wrapInt32_of_IsInt32 (z : ℤ) (hz : IsInt32 z) : wrapInt32 z = z := by
  unfold IsInt32 INT32_MIN INT32_MAX at hz
  unfold wrapInt32
  omega

/-- C12: row-major height lookup.  For an array-backed provider built with width `W`,
height `H` and a buffer of length `W * H` (an `int32`, as every array length), the
constructor check passes and, for every cell with `0 ≤ x < W` and `0 ≤ y < H`,
`GetHeightAt x y` returns the buffer element at index `y * W + x`; for the 2 by 2
buffer `[1, 2, 3, 4]` it returns `3` for cell `(0,1)` and `4` for cell `(1,1)`. -/
theorem GetHeightAt_row_major (W H : ℤ) (buf : List ℝ) (x y : ℤ)
    (hlen : (buf.length : ℤ) = W * H) (h32 : (buf.length : ℤ) ≤ INT32_MAX)
    (hx0 : 0 ≤ x) (hx1 : x < W) (hy0 : 0 ≤ y) (hy1 : y < H) :
    FArrayGridHeightProvider.Make W H buf = some ⟨W, H, buf⟩ ∧
    (⟨W, H, buf⟩ : FArrayGridHeightProvider).GetHeightAt x y = buf[(y * W + x).toNat]? ∧
    ((⟨W, H, buf⟩ : FArrayGridHeightProvider).GetHeightAt x y).isSome = true ∧
    exampleProvider.GetHeightAt 0 1 = some 3 ∧
    exampleProvider.GetHeightAt 1 1 = some 4 := by
  have hlen0 : (0 : ℤ) ≤ (buf.length : ℤ) := Int.natCast_nonneg _
  have hmin : INT32_MIN ≤ 0 := by unfold INT32_MIN; decide
  have hWH : wrapInt32 (W * H) = W * H :=
    wrapInt32_of_IsInt32 _ ⟨by rw [← hlen]; exact le_trans hmin hlen0, by rw [← hlen]; exact h32⟩
  have hyW : y * W ≤ (H - 1) * W :=
    mul_le_mul_of_nonneg_right (by omega) (by omega)
  have hidx0 : 0 ≤ y * W + x := add_nonneg (mul_nonneg hy0 (by omega)) hx0
  have hidx1 : y * W + x < (buf.length : ℤ) := by
    rw [hlen]
    have : (H - 1) * W = W * H - W := by ring
    omega
  have hidx : wrapInt32 (y * W + x) = y * W + x :=
    wrapInt32_of_IsInt32 _ ⟨le_trans hmin hidx0, by omega⟩
  have hget : (⟨W, H, buf⟩ : FArrayGridHeightProvider).GetHeightAt x y
      = buf[(y * W + x).toNat]? := by
    unfold FArrayGridHeightProvider.GetHeightAt
    simp only [hidx]
    rw [if_pos ⟨hidx0, hidx1⟩]
  have hex : ∀ z : ℤ, 0 ≤ z → z ≤ 3 → wrapInt32 z = z := fun z h0 h3 =>
    wrapInt32_of_IsInt32 z ⟨le_trans hmin h0, by unfold INT32_MAX; omega⟩
  refine ⟨?_, hget, ?_, ?_, ?_⟩
  · unfold FArrayGridHeightProvider.Make
    rw [hWH, if_pos hlen]
  · rw [hget, List.getElem?_eq_getElem (by omega)]
    rfl
  · unfold FArrayGridHeightProvider.GetHeightAt exampleProvider
    simp only []
    rw [hex _ (by decide) (by decide)]
    simp
  · unfold FArrayGridHeightProvider.GetHeightAt exampleProvider
    simp only []
    rw [hex _ (by decide) (by decide)]
    simp

/-- Witness of C12: the 2 by 2 provider over `[1, 2, 3, 4]` at cell `(0,1)`. -/
theorem GetHeightAt_row_major_witness :
    FArrayGridHeightProvider.Make 2 2 [1, 2, 3, 4] = some ⟨2, 2, [1, 2, 3, 4]⟩ ∧
    (⟨2, 2, [1, 2, 3, 4]⟩ : FArrayGridHeightProvider).GetHeightAt 0 1
      = ([1, 2, 3, 4] : List ℝ)[((1 : ℤ) * 2 + 0).toNat]? :=
  have w := GetHeightAt_row_major 2 2 [1, 2, 3, 4] 0 1 (by simp) (by simp [INT32_MAX])
    (by decide) (by decide) (by decide) (by decide)
  ⟨w.1, w.2.1⟩

/-! ## Basis resolution and the grid origin -/

/-- The resolved axes of the configuration whose `AxisX` is the zero vector. -/
theorem ResolveGridAxes_zeroAxisConfig :
    ResolveGridAxes zeroAxisConfig = (⟨0, 0, 0⟩, ⟨0, 1, 0⟩) := by
  unfold ResolveGridAxes
  have h1 : zeroAxisConfig.AxisX = ⟨0, 0, 0⟩ := rfl
  have h2 : zeroAxisConfig.AxisY = ⟨0, 1, 0⟩ := rfl
  have h3 : zeroAxisConfig.bUseRotation = false := rfl
  rw [h1, h2, h3, GetSafeNormal_zero, GetSafeNormal_of_unit _ (by norm_num)]
  simp

/-- The resolved axes of the configuration whose `AxisY` is the zero vector. -/
theorem ResolveGridAxes_zeroAxisYConfig :
    ResolveGridAxes zeroAxisYConfig = (⟨1, 0, 0⟩, ⟨0, 0, 0⟩) := by
  unfold ResolveGridAxes
  have h1 : zeroAxisYConfig.AxisX = ⟨1, 0, 0⟩ := rfl
  have h2 : zeroAxisYConfig.AxisY = ⟨0, 0, 0⟩ := rfl
  have h3 : zeroAxisYConfig.bUseRotation = false := rfl
  rw [h1, h2, h3, GetSafeNormal_zero, GetSafeNormal_of_unit _ (by norm_num)]
  simp

/-- The resolved axes of the configuration whose `AxisX` is vertical. -/
theorem ResolveGridAxes_tiltedConfig :
    ResolveGridAxes tiltedConfig = (⟨0, 0, 1⟩, ⟨0, 1, 0⟩) := by
  rw [ResolveGridAxes_of_unit tiltedConfig rfl]
  · rfl
  · simp [tiltedConfig]
  · simp [tiltedConfig, exampleConfig, FGridConfig.default, FVector.RightVector]

/-- Engine `FVector::Normalize` fails on the zero vector and leaves it as it is. -/
theorem Normalize_zero : FVector.Normalize ⟨0, 0, 0⟩ = (false, ⟨0, 0, 0⟩) := by
  unfold FVector.Normalize
  simp only []
  rw [if_neg (by unfold SMALL_NUMBER; norm_num)]

/-- C16, the code at the failing input: with `bUseRotation = false` and `AxisX` the zero
vector, `ResolveGridAxes` gives the zero vector as X axis, not the forward vector
`(1,0,0)`, so `GridToWorldGround` sends cells `(7,0)` and `(0,0)` to the same position;
likewise a zero `AxisY` resolves to the zero vector, not the right vector `(0,1,0)`.
The sibling `RebuildGridConfig` does fall back: for zero axes its basis is forward and
right. -/
theorem ResolveGridAxes_zero_axis_no_fallback :
    (zeroAxisConfig.bUseRotation = false ∧ zeroAxisConfig.AxisX = ⟨0, 0, 0⟩) ∧
    (ResolveGridAxes zeroAxisConfig).1 = FVector.ZeroVector ∧
    (ResolveGridAxes zeroAxisConfig).1 ≠ FVector.ForwardVector ∧
    GridToWorldGround zeroAxisConfig ⟨7, 0⟩ = GridToWorldGround zeroAxisConfig ⟨0, 0⟩ ∧
    (zeroAxisYConfig.bUseRotation = false ∧ zeroAxisYConfig.AxisY = ⟨0, 0, 0⟩) ∧
    (ResolveGridAxes zeroAxisYConfig).2 = FVector.ZeroVector ∧
    (ResolveGridAxes zeroAxisYConfig).2 ≠ FVector.RightVector ∧
    zeroAxesComponent.RebuildBasis = (FVector.ForwardVector, FVector.RightVector) := by
  have ne1 : (⟨0, 0, 0⟩ : FVector) ≠ FVector.ForwardVector := by
    intro h
    have := congrArg FVector.X h
    simp [FVector.ForwardVector] at this
  have ne2 : (⟨0, 0, 0⟩ : FVector) ≠ FVector.RightVector := by
    intro h
    have := congrArg FVector.Y h
    simp [FVector.RightVector] at this
  refine ⟨⟨rfl, rfl⟩, ?_, ?_, ?_, ⟨rfl, rfl⟩, ?_, ?_, ?_⟩
  · rw [ResolveGridAxes_zeroAxisConfig]; rfl
  · rw [ResolveGridAxes_zeroAxisConfig]; exact ne1
  · simp only [GridToWorldGround, ResolveGridAxes_zeroAxisConfig]
    simp [zeroAxisConfig, exampleConfig, FGridConfig.default, FVector.add, FVector.smul,
      FVector.ZeroVector, GetGroundHeight]
  · rw [ResolveGridAxes_zeroAxisYConfig]; rfl
  · rw [ResolveGridAxes_zeroAxisYConfig]; exact ne2
  · unfold UHeightMapGridBindingComponent.RebuildBasis
    have h1 : zeroAxesComponent.bUseRotation = false := rfl
    have h2 : ({ zeroAxesComponent.AxisX with Z := 0 } : FVector) = ⟨0, 0, 0⟩ := rfl
    have h3 : ({ zeroAxesComponent.AxisY with Z := 0 } : FVector) = ⟨0, 0, 0⟩ := rfl
    simp only [h1, h2, h3, Normalize_zero]
    simp

/-- C17, as stated, fails: in the example configuration cell `(0,0)` lies at
`(50, 50, 0)` while `GridOrigin` is `(0, 0, 0)`. -/
theorem GridOrigin_not_cell_centre_counterexample :
    (GridToWorldGround exampleConfig ⟨0, 0⟩).X = 50 ∧
    (GridToWorldGround exampleConfig ⟨0, 0⟩).Y = 50 ∧
    exampleConfig.GridOrigin.X = 0 ∧
    exampleConfig.GridOrigin.Y = 0 ∧
    (GridToWorldGround exampleConfig ⟨0, 0⟩).X ≠ exampleConfig.GridOrigin.X ∧
    (GridToWorldGround exampleConfig ⟨0, 0⟩).Y ≠ exampleConfig.GridOrigin.Y := by
  have hx : (GridToWorldGround exampleConfig ⟨0, 0⟩).X = 50 := by
    simp only [GridToWorldGround, ResolveGridAxes_exampleConfig]
    simp [exampleConfig, FGridConfig.default, FVector.add, FVector.smul, FVector.ZeroVector]
    norm_num
  have hy : (GridToWorldGround exampleConfig ⟨0, 0⟩).Y = 50 := by
    simp only [GridToWorldGround, ResolveGridAxes_exampleConfig]
    simp [exampleConfig, FGridConfig.default, FVector.add, FVector.smul, FVector.ZeroVector]
    norm_num
  have ox : exampleConfig.GridOrigin.X = 0 := rfl
  have oy : exampleConfig.GridOrigin.Y = 0 := rfl
  refine ⟨hx, hy, ox, oy, ?_, ?_⟩
  · rw [hx, ox]; norm_num
  · rw [hy, oy]; norm_num

/-- C17, amended: `GridOrigin` is the corner of cell `(0,0)`.  For every configuration,
the `X` and `Y` components of `GridToWorldGround` at cell `(0,0)` are those of
`GridOrigin` moved by half a cell along each resolved axis, that is of
`GridOrigin + (Ax + Ay) * (0.5 * CellSize)`. -/
theorem GridToWorldGround_origin_cell (cfg : FGridConfig) :
    (GridToWorldGround cfg ⟨0, 0⟩).X
      = cfg.GridOrigin.X
        + ((ResolveGridAxes cfg).1.X + (ResolveGridAxes cfg).2.X) * (0.5 * cfg.CellSize) ∧
    (GridToWorldGround cfg ⟨0, 0⟩).Y
      = cfg.GridOrigin.Y
        + ((ResolveGridAxes cfg).1.Y + (ResolveGridAxes cfg).2.Y) * (0.5 * cfg.CellSize) := by
  constructor
  · simp only [GridToWorldGround, FVector.add, FVector.smul]
    push_cast
    ring
  · simp only [GridToWorldGround, FVector.add, FVector.smul]
    push_cast
    ring

/-! ## Half-life of the spring -/

/-- One spring step from rest over a step equal to the half-life. -/
theorem SpringUpdate1D_at_half_life (h c d : ℝ) (hh : 0 < h) :
    (SpringUpdate1D h h d c 0).1 = d + (c - d) * ((1 + Real.log 2) / 2) := by
  have he : Real.exp (-(Real.log 2 / h) * h) = 1 / 2 := by
    have : -(Real.log 2 / h) * h = -Real.log 2 := by
      field_simp
    rw [this, Real.exp_neg, Real.exp_log (by norm_num)]
    norm_num
  rw [SpringUpdate1D_of_pos hh, he]
  have hw : Real.log 2 / h * (c - d) * h = Real.log 2 * (c - d) := by
    field_simp
  simp only [zero_add]
  rw [hw]
  ring

/-- C18, as stated, fails: with half-life `1`, from current `1` at rest towards desire
`0`, the spring step with `dt = 1` leaves the error `(1 + ln 2) / 2`, which is more
than the half `1 / 2`. -/
theorem spring_half_life_counterexample :
    (SpringUpdate1D 1 1 0 1 0).1 - 0 = (1 + Real.log 2) / 2 ∧
    (1 - 0 : ℝ) / 2 < (SpringUpdate1D 1 1 0 1 0).1 - 0 ∧
    (SpringUpdate1D 1 1 0 1 0).1 - 0 ≠ (1 - 0 : ℝ) / 2 := by
  have hv : (SpringUpdate1D 1 1 0 1 0).1 - 0 = (1 + Real.log 2) / 2 := by
    rw [SpringUpdate1D_at_half_life 1 1 0 (by norm_num)]
    ring
  have hl : 0 < Real.log 2 := Real.log_pos (by norm_num)
  have hlt : (1 - 0 : ℝ) / 2 < (SpringUpdate1D 1 1 0 1 0).1 - 0 := by
    rw [hv]; linarith
  exact ⟨hv, hlt, hlt.ne.symm⟩

/-- C18, amended: half-life meaning for the spring smoother.  For every half-life
`h > 0`, current `c` and desire `d`, one spring step started at rest with `dt = h`
leaves the error multiplied by `(1 + ln 2) / 2`: `current' - d = (c - d) * (1 + ln 2) / 2`. -/
theorem SpringUpdate1D_half_life (h c d : ℝ) (hh : 0 < h) :
    (SpringUpdate1D h h d c 0).1 - d = (c - d) * (1 + Real.log 2) / 2 := by
  rw [SpringUpdate1D_at_half_life h c d hh]
  ring

/-- Witness of C18 amended: half-life `2`, from `10` towards `4`. -/
theorem SpringUpdate1D_half_life_witness :
    (SpringUpdate1D 2 2 4 10 0).1 - 4 = (10 - 4) * (1 + Real.log 2) / 2 :=
  SpringUpdate1D_half_life 2 10 4 (by norm_num)

/-! ## Vertical component and the returned flag of `WorldToGrid` -/

/-- The continuous coordinates of a world position in the configuration whose `AxisX`
is vertical: the first one is the height of the position. -/
theorem WorldToGridContinuous_tiltedConfig (x y z : ℝ) :
    WorldToGridContinuous tiltedConfig ⟨x, y, z⟩ = (z / 100, y / 100) := by
  simp only [WorldToGridContinuous, ResolveGridAxes_tiltedConfig]
  simp [tiltedConfig, exampleConfig, FGridConfig.default, FVector.sub, FVector.DotProduct,
    FVector.ZeroVector]

/-- C19, as stated, fails for axes that are not horizontal: in the 10 by 10 grid with
`AxisX = (0,0,1)` the positions `(0, 50, 50)` and `(0, 50, 150)`, which differ only in
`Z`, map to the cells `(0,0)` and `(1,0)`. -/
theorem WorldToGrid_vertical_counterexample :
    (0 < tiltedConfig.Width ∧ 0 < tiltedConfig.Height ∧
      KINDA_SMALL_NUMBER < tiltedConfig.CellSize) ∧
    WorldToGrid tiltedConfig ⟨0, 50, 50⟩ false EGridRoundingPolicy.Floor
      = (true, ⟨0, 0⟩) ∧
    WorldToGrid tiltedConfig ⟨0, 50, 150⟩ false EGridRoundingPolicy.Floor
      = (true, ⟨1, 0⟩) ∧
    WorldToGrid tiltedConfig ⟨0, 50, 50⟩ false EGridRoundingPolicy.Floor
      ≠ WorldToGrid tiltedConfig ⟨0, 50, 150⟩ false EGridRoundingPolicy.Floor := by
  have i0 : IsInt32 0 := by unfold IsInt32 INT32_MIN INT32_MAX; decide
  have i1 : IsInt32 1 := by unfold IsInt32 INT32_MIN INT32_MAX; decide
  have hK : KINDA_SMALL_NUMBER < (100 : ℝ) := by unfold KINDA_SMALL_NUMBER; norm_num
  have f0 : FloorToInt (50 / 100) = 0 := FloorToInt_eq _ 0 i0 (by norm_num) (by norm_num)
  have f1 : FloorToInt (150 / 100) = 1 := FloorToInt_eq _ 1 i1 (by norm_num) (by norm_num)
  have r0 : WorldToGrid tiltedConfig ⟨0, 50, 50⟩ false EGridRoundingPolicy.Floor
      = (true, ⟨0, 0⟩) := by
    rw [WorldToGrid_of_nondegenerate _ _ _ _ (by decide) (by decide) hK,
      WorldToGridContinuous_tiltedConfig]
    simp only [RoundIndex, f0]
    decide
  have r1 : WorldToGrid tiltedConfig ⟨0, 50, 150⟩ false EGridRoundingPolicy.Floor
      = (true, ⟨1, 0⟩) := by
    rw [WorldToGrid_of_nondegenerate _ _ _ _ (by decide) (by decide) hK,
      WorldToGridContinuous_tiltedConfig]
    simp only [RoundIndex, f0, f1]
    decide
  refine ⟨⟨by decide, by decide, hK⟩, r0, r1, ?_⟩
  rw [r0, r1]
  decide

/-- C19, amended: world-to-grid discards the vertical component when the axes are
horizontal.  For every configuration whose two resolved axes have zero `Z` component,
every rounding policy and clamp setting, two world positions with equal `X` and `Y`
that differ only in `Z` give the same success flag and the same `OutGrid`. -/
theorem WorldToGrid_ignores_vertical (cfg : FGridConfig) (x y z1 z2 : ℝ) (clamp : Bool)
    (pol : EGridRoundingPolicy)
    (hXz : (ResolveGridAxes cfg).1.Z = 0) (hYz : (ResolveGridAxes cfg).2.Z = 0) :
    WorldToGrid cfg ⟨x, y, z1⟩ clamp pol = WorldToGrid cfg ⟨x, y, z2⟩ clamp pol := by
  have hc : WorldToGridContinuous cfg ⟨x, y, z1⟩ = WorldToGridContinuous cfg ⟨x, y, z2⟩ := by
    simp only [WorldToGridContinuous, FVector.sub, FVector.DotProduct, hXz, hYz, mul_zero]
  unfold WorldToGrid
  rw [hc]

/-- Witness of C19 amended: the example grid has horizontal axes; the positions
`(250, 350, 0)` and `(250, 350, 900)` give the same result. -/
theorem WorldToGrid_ignores_vertical_witness :
    WorldToGrid exampleConfig ⟨250, 350, 0⟩ false EGridRoundingPolicy.Floor
      = WorldToGrid exampleConfig ⟨250, 350, 900⟩ false EGridRoundingPolicy.Floor :=
  WorldToGrid_ignores_vertical exampleConfig 250 350 0 900 false EGridRoundingPolicy.Floor
    (by rw [ResolveGridAxes_exampleConfig]) (by rw [ResolveGridAxes_exampleConfig])

/-- C20, as stated, fails on a degenerate configuration: with `Height = 0` and
`bClampToBounds = true`, `WorldToGrid` returns `false` and `OutGrid = (-1, -1)`, which
is not in any grid range. -/
theorem WorldToGrid_clamp_degenerate_counterexample :
    WorldToGrid { exampleConfig with Height := 0 } ⟨50, 50, 0⟩ true
        EGridRoundingPolicy.Round = (false, ⟨-1, -1⟩) ∧
    (WorldToGrid { exampleConfig with Height := 0 } ⟨50, 50, 0⟩ true
        EGridRoundingPolicy.Round).1 ≠ true ∧
    (WorldToGrid { exampleConfig with Height := 0 } ⟨50, 50, 0⟩ true
        EGridRoundingPolicy.Round).2.X < 0 := by
  have h : WorldToGrid { exampleConfig with Height := 0 } ⟨50, 50, 0⟩ true
      EGridRoundingPolicy.Round = (false, ⟨-1, -1⟩) := by
    unfold WorldToGrid
    rw [if_pos (Or.inr (Or.inl (le_refl 0)))]
  refine ⟨h, ?_, ?_⟩
  · rw [h]; decide
  · rw [h]; decide

/-- C20, amended: `WorldToGrid` returns `false` exactly when the configuration is
degenerate, or `bClampToBounds` is false and a rounded index lies outside the grid; on
a non-degenerate configuration with `bClampToBounds = true` it returns `true` and an
`OutGrid` inside `[0, Width-1] × [0, Height-1]`. -/
theorem WorldToGrid_false_iff (cfg : FGridConfig) (pos : FVector) (clamp : Bool)
    (pol : EGridRoundingPolicy) :
    ((WorldToGrid cfg pos clamp pol).1 = false ↔
      ((cfg.Width ≤ 0 ∨ cfg.Height ≤ 0 ∨ cfg.CellSize ≤ KINDA_SMALL_NUMBER) ∨
        (clamp = false ∧
          (RoundIndex pol (WorldToGridContinuous cfg pos).1 < 0
            ∨ RoundIndex pol (WorldToGridContinuous cfg pos).1 ≥ cfg.Width
            ∨ RoundIndex pol (WorldToGridContinuous cfg pos).2 < 0
            ∨ RoundIndex pol (WorldToGridContinuous cfg pos).2 ≥ cfg.Height)))) ∧
    (¬ (cfg.Width ≤ 0 ∨ cfg.Height ≤ 0 ∨ cfg.CellSize ≤ KINDA_SMALL_NUMBER) →
      (WorldToGrid cfg pos true pol).1 = true ∧
      0 ≤ (WorldToGrid cfg pos true pol).2.X ∧
      (WorldToGrid cfg pos true pol).2.X ≤ cfg.Width - 1 ∧
      0 ≤ (WorldToGrid cfg pos true pol).2.Y ∧
      (WorldToGrid cfg pos true pol).2.Y ≤ cfg.Height - 1) := by
  by_cases hdeg : cfg.Width ≤ 0 ∨ cfg.Height ≤ 0 ∨ cfg.CellSize ≤ KINDA_SMALL_NUMBER
  · refine ⟨⟨fun _ => Or.inl hdeg, fun _ => ?_⟩, fun hn => absurd hdeg hn⟩
    unfold WorldToGrid
    rw [if_pos hdeg]
  · have hW : 0 < cfg.Width := not_le.mp fun h => hdeg (Or.inl h)
    have hH : 0 < cfg.Height := not_le.mp fun h => hdeg (Or.inr (Or.inl h))
    have hC : KINDA_SMALL_NUMBER < cfg.CellSize :=
      not_le.mp fun h => hdeg (Or.inr (Or.inr h))
    constructor
    · rw [WorldToGrid_of_nondegenerate cfg pos clamp pol hW hH hC]
      cases clamp
      · by_cases hout : RoundIndex pol (WorldToGridContinuous cfg pos).1 < 0
            ∨ RoundIndex pol (WorldToGridContinuous cfg pos).1 ≥ cfg.Width
            ∨ RoundIndex pol (WorldToGridContinuous cfg pos).2 < 0
            ∨ RoundIndex pol (WorldToGridContinuous cfg pos).2 ≥ cfg.Height
        · simp only [Bool.false_eq_true, if_false, if_pos hout]
          exact ⟨fun _ => Or.inr ⟨trivial, hout⟩, fun _ => trivial⟩
        · simp only [Bool.false_eq_true, if_false, if_neg hout]
          constructor
          · intro h
            exact absurd h (by simp)
          · rintro (h | ⟨_, h⟩)
            · exact absurd h hdeg
            · exact absurd h hout
      · simp only [if_true]
        constructor
        · intro h
          exact absurd h (by simp)
        · rintro (h | ⟨h, _⟩)
          · exact absurd h hdeg
          · exact absurd h (by simp)
    · intro _
      rw [WorldToGrid_of_nondegenerate cfg pos true pol hW hH hC]
      simp only [if_true]
      obtain ⟨a1, a2, _⟩ := Clamp_spec (RoundIndex pol (WorldToGridContinuous cfg pos).1) 0
        (cfg.Width - 1) (by omega)
      obtain ⟨b1, b2, _⟩ := Clamp_spec (RoundIndex pol (WorldToGridContinuous cfg pos).2) 0
        (cfg.Height - 1) (by omega)
      exact ⟨trivial, a1, a2, b1, b2⟩

/-! ## Negative steps, spring semigroup and the stateless smoother -/

/-- C23, amended: negative time step in the exponential smoother, floats read as exact
reals.  For a half-life `h > 0`, a
step `dt < 0` and a current different from the desire, `Update1D` evaluates
`d + (c - d) * 0.5 ^ (dt / h)` with `dt` as it is, so the new error is strictly larger
in magnitude than the old one and has the same sign. -/
theorem Update1D_negative_dt (s : UCameraMovement_ExpHalfLifeComponent) (dt : ℝ)
    (hh : 0 < s.HalfLife) (hdt : dt < 0) (hne : s.Current1D ≠ s.Desire1D) :
    (s.Update1D dt).2.Current1D
      = s.Desire1D + (s.Current1D - s.Desire1D) * (0.5 : ℝ) ^ (dt / s.HalfLife) ∧
    |s.Current1D - s.Desire1D| < |(s.Update1D dt).2.Current1D - s.Desire1D| ∧
    0 < ((s.Update1D dt).2.Current1D - s.Desire1D) * (s.Current1D - s.Desire1D) ∧
    (s.Update1D dt).1 = (s.Update1D dt).2.Current1D := by
  have hval : (s.Update1D dt).2.Current1D
      = s.Desire1D + (s.Current1D - s.Desire1D) * (0.5 : ℝ) ^ (dt / s.HalfLife) := by
    rw [Update1D_state, HalfLifeDecayK_of_pos hh]
  have hK : (1 : ℝ) < (0.5 : ℝ) ^ (dt / s.HalfLife) :=
    Real.one_lt_rpow_of_pos_of_lt_one_of_neg (by norm_num) (by norm_num)
      (div_neg_of_neg_of_pos hdt hh)
  have he : s.Current1D - s.Desire1D ≠ 0 := sub_ne_zero.mpr hne
  have habs : 0 < |s.Current1D - s.Desire1D| := abs_pos.mpr he
  refine ⟨hval, ?_, ?_, rfl⟩
  · rw [hval, add_sub_cancel_left, abs_mul, abs_of_pos (lt_trans one_pos hK)]
    nlinarith
  · rw [hval, add_sub_cancel_left]
    have hsq : 0 < (s.Current1D - s.Desire1D) * (s.Current1D - s.Desire1D) :=
      mul_self_pos.mpr he
    nlinarith

/-- Witness of C23: half-life `1`, step `-1`, from `3` with desire `1`. -/
theorem Update1D_negative_dt_witness :
    |(3 : ℝ) - 1|
      < |((⟨1, 1, 3, ⟨0, 0⟩, ⟨0, 0⟩⟩ :
            UCameraMovement_ExpHalfLifeComponent).Update1D (-1)).2.Current1D - 1| :=
  (Update1D_negative_dt ⟨1, 1, 3, ⟨0, 0⟩, ⟨0, 0⟩⟩ (-1) (by norm_num) (by norm_num)
    (by norm_num)).2.1

/-- C26: semigroup law of the spring smoother.  For a half-life `h > 0`, a constant
desire, every current and velocity and all step lengths `t1`, `t2`, a spring step with
`t1` followed by one with `t2` gives the same current and velocity as one step with
`t1 + t2`. -/
theorem SpringUpdate1D_semigroup (h d c v t1 t2 : ℝ) (hh : 0 < h) :
    SpringUpdate1D h t2 d (SpringUpdate1D h t1 d c v).1 (SpringUpdate1D h t1 d c v).2
      = SpringUpdate1D h (t1 + t2) d c v := by
  rw [SpringUpdate1D_of_pos hh t1, SpringUpdate1D_of_pos hh t2, SpringUpdate1D_of_pos hh]
  have hE : Real.exp (-(Real.log 2 / h) * (t1 + t2))
      = Real.exp (-(Real.log 2 / h) * t1) * Real.exp (-(Real.log 2 / h) * t2) := by
    rw [← Real.exp_add]
    congr 1
    ring
  rw [hE]
  refine Prod.ext ?_ ?_
  · show _ = _
    ring
  · show _ = _
    ring

/-- Witness of C26: half-life `1`, desire `0`, from `1` with velocity `2`, steps `3`
and `4`. -/
theorem SpringUpdate1D_semigroup_witness :
    SpringUpdate1D 1 4 0 (SpringUpdate1D 1 3 0 1 2).1 (SpringUpdate1D 1 3 0 1 2).2
      = SpringUpdate1D 1 (3 + 4) 0 1 2 :=
  SpringUpdate1D_semigroup 1 0 1 2 3 4 (by norm_num)

/-- The constant `SMALL_NUMBER` is positive. -/
theorem SMALL_NUMBER_pos : 0 < SMALL_NUMBER := by
  unfold SMALL_NUMBER; norm_num

/-- The stateless smoother with `ln 2` for its literal, above the epsilon and for a
step `dt ≥ 0`. -/
theorem ExpSmoothHL_InternalLn2_log (c d h dt : ℝ) (hh : SMALL_NUMBER < h) (hdt : 0 ≤ dt) :
    ExpSmoothHL_InternalLn2 (Real.log 2) c d h dt
      = c + (d - c) * (1 - Real.exp (-(Real.log 2 / h) * dt)) := by
  unfold ExpSmoothHL_InternalLn2
  rw [if_neg (not_le.mpr hh), max_eq_right hdt]

/-- The decay coefficient as an exponential. -/
theorem HalfLifeDecayK_eq_exp {h : ℝ} (hh : 0 < h) (dt : ℝ) :
    HalfLifeDecayK h dt = Real.exp (-(Real.log 2 / h) * dt) := by
  rw [HalfLifeDecayK_of_pos hh, Real.rpow_def_of_pos (by norm_num)]
  congr 1
  have h05 : Real.log (0.5 : ℝ) = -Real.log 2 := by
    rw [show (0.5 : ℝ) = 2⁻¹ by norm_num, Real.log_inv]
  rw [h05]
  field_simp

/-- C27: the two exponential implementations agree.  Reading the literal
`0.6931471805599453` as `ln 2`, for every half-life above `SMALL_NUMBER`, every
`dt ≥ 0` and every current `c` and target `d`, the stateless smoother returns
`c + (d - c) * (1 - exp (-(ln 2 / h) * dt))`, which is the value
`d + (c - d) * 0.5 ^ (dt / h)` that the camera component's `Update1D` returns, and
`ExpSmoothHL_Component` computes the same value; `ExpSmoothingHL` and
`ExpSmoothHL_Component` are these functions at the literal. -/
theorem ExpSmoothingHL_agrees (c d h dt : ℝ) (D2 C2 : FVector2D)
    (hh : SMALL_NUMBER < h) (hdt : 0 ≤ dt) :
    (ExpSmoothingHL c d h dt = ExpSmoothHL_InternalLn2 LN2_LITERAL c d h dt ∧
      ExpSmoothHL_Component c d h dt = ExpSmoothHL_ComponentLn2 LN2_LITERAL c d h dt) ∧
    ExpSmoothHL_InternalLn2 (Real.log 2) c d h dt
      = c + (d - c) * (1 - Real.exp (-(Real.log 2 / h) * dt)) ∧
    ExpSmoothHL_InternalLn2 (Real.log 2) c d h dt = d + (c - d) * (0.5 : ℝ) ^ (dt / h) ∧
    ExpSmoothHL_InternalLn2 (Real.log 2) c d h dt
      = ((⟨h, d, c, D2, C2⟩ : UCameraMovement_ExpHalfLifeComponent).Update1D dt).1 ∧
    ExpSmoothHL_ComponentLn2 (Real.log 2) c d h dt
      = ExpSmoothHL_InternalLn2 (Real.log 2) c d h dt := by
  have hpos : 0 < h := lt_trans SMALL_NUMBER_pos hh
  have h1 := ExpSmoothHL_InternalLn2_log c d h dt hh hdt
  have hK := HalfLifeDecayK_eq_exp hpos dt
  have h2 : ExpSmoothHL_InternalLn2 (Real.log 2) c d h dt
      = d + (c - d) * HalfLifeDecayK h dt := by
    rw [h1, hK]; ring
  refine ⟨⟨rfl, rfl⟩, h1, ?_, h2, rfl⟩
  rw [h2, HalfLifeDecayK_of_pos hpos]

/-- Witness of C27: half-life `1`, step `2`, from `8` towards `0`. -/
theorem ExpSmoothingHL_agrees_witness :
    ExpSmoothHL_InternalLn2 (Real.log 2) 8 0 1 2
      = ((⟨1, 0, 8, ⟨0, 0⟩, ⟨0, 0⟩⟩ : UCameraMovement_ExpHalfLifeComponent).Update1D 2).1 :=
  (ExpSmoothingHL_agrees 8 0 1 2 ⟨0, 0⟩ ⟨0, 0⟩ (by unfold SMALL_NUMBER; norm_num)
    (by norm_num)).2.2.2.1

/-- C29: `ExpSmoothingHL` never leaves the segment between its inputs.  For every
current, target, half-life and `DeltaTime` (negative `DeltaTime` and non-positive
half-life included) the returned value lies in the closed interval between the current
and the target. -/
theorem ExpSmoothingHL_mem_segment (c t h dt : ℝ) :
    min c t ≤ ExpSmoothingHL c t h dt ∧ ExpSmoothingHL c t h dt ≤ max c t := by
  unfold ExpSmoothingHL ExpSmoothHL_Internal
  by_cases hh : h ≤ SMALL_NUMBER
  · rw [if_pos hh]
    exact ⟨min_le_right _ _, le_max_right _ _⟩
  · rw [if_neg hh]
    have hpos : 0 < h := lt_trans SMALL_NUMBER_pos (not_le.mp hh)
    have hL : 0 < LN2_LITERAL / h := div_pos (by unfold LN2_LITERAL; norm_num) hpos
    have hm : (0 : ℝ) ≤ max 0 dt := le_max_left _ _
    have he0 : 0 < Real.exp (-(LN2_LITERAL / h) * max 0 dt) := Real.exp_pos _
    have he1 : Real.exp (-(LN2_LITERAL / h) * max 0 dt) ≤ 1 := by
      rw [Real.exp_le_one_iff]
      have := mul_nonneg hL.le hm
      linarith
    simp only []
    set E := Real.exp (-(LN2_LITERAL / h) * max 0 dt) with hE
    rcases le_total c t with hct | hct
    · rw [min_eq_left hct, max_eq_right hct]
      constructor <;> nlinarith
    · rw [min_eq_right hct, max_eq_left hct]
      constructor <;> nlinarith

/-! ## The grid configuration built by the binding component -/

/-- Engine `FVector::Normalize`, when it succeeds, leaves a vector of squared length
one. -/
theorem Normalize_unit (v : FVector) (h : v.Normalize.1 = true) :
    v.Normalize.2.X * v.Normalize.2.X + v.Normalize.2.Y * v.Normalize.2.Y
      + v.Normalize.2.Z * v.Normalize.2.Z = 1 := by
  unfold FVector.Normalize at h ⊢
  simp only [] at h ⊢
  by_cases hS : v.X * v.X + v.Y * v.Y + v.Z * v.Z > SMALL_NUMBER
  · rw [if_pos hS]
    have hpos : 0 < v.X * v.X + v.Y * v.Y + v.Z * v.Z := lt_trans SMALL_NUMBER_pos hS
    have hsq : Real.sqrt (v.X * v.X + v.Y * v.Y + v.Z * v.Z)
        * Real.sqrt (v.X * v.X + v.Y * v.Y + v.Z * v.Z)
        = v.X * v.X + v.Y * v.Y + v.Z * v.Z := Real.mul_self_sqrt hpos.le
    have hne : Real.sqrt (v.X * v.X + v.Y * v.Y + v.Z * v.Z) ≠ 0 :=
      (Real.sqrt_pos.mpr hpos).ne.symm
    show v.X * (1 / Real.sqrt (v.X * v.X + v.Y * v.Y + v.Z * v.Z))
          * (v.X * (1 / Real.sqrt (v.X * v.X + v.Y * v.Y + v.Z * v.Z)))
        + v.Y * (1 / Real.sqrt (v.X * v.X + v.Y * v.Y + v.Z * v.Z))
          * (v.Y * (1 / Real.sqrt (v.X * v.X + v.Y * v.Y + v.Z * v.Z)))
        + v.Z * (1 / Real.sqrt (v.X * v.X + v.Y * v.Y + v.Z * v.Z))
          * (v.Z * (1 / Real.sqrt (v.X * v.X + v.Y * v.Y + v.Z * v.Z))) = 1
    field_simp
  · rw [if_neg hS] at h
    exact absurd h (by simp)

/-- The basis of `RebuildGridConfig` without rotation consists of two vectors of squared
length one. -/
theorem RebuildBasis_unit (self : UHeightMapGridBindingComponent)
    (hr : self.bUseRotation = false) :
    (self.RebuildBasis.1.X * self.RebuildBasis.1.X + self.RebuildBasis.1.Y * self.RebuildBasis.1.Y
        + self.RebuildBasis.1.Z * self.RebuildBasis.1.Z = 1) ∧
    (self.RebuildBasis.2.X * self.RebuildBasis.2.X + self.RebuildBasis.2.Y * self.RebuildBasis.2.Y
        + self.RebuildBasis.2.Z * self.RebuildBasis.2.Z = 1) := by
  unfold UHeightMapGridBindingComponent.RebuildBasis
  simp only [hr, Bool.false_eq_true, if_false]
  constructor
  · cases hN : (FVector.Normalize { self.AxisX with Z := 0 }).1
    · simp [FVector.ForwardVector]
    · simpa using Normalize_unit _ hN
  · cases hN : (FVector.Normalize { self.AxisY with Z := 0 }).1
    · simp [FVector.RightVector]
    · simpa using Normalize_unit _ hN

/-- The configuration that `RebuildGridConfig` builds from a valid asset. -/
theorem RebuildGridConfig_of_valid (self : UHeightMapGridBindingComponent)
    (Asset : UTerrainHeightMapAsset) (hA : self.HeightMapAsset = some Asset)
    (hW : 0 < Asset.Width) (hH : 0 < Asset.Height)
    (hlen : (Asset.CellHeights.length : ℤ) = Asset.Width * Asset.Height)
    (h32 : (Asset.CellHeights.length : ℤ) ≤ INT32_MAX) :
    self.RebuildGridConfig.GridConfig =
      { Width := Asset.Width
        Height := Asset.Height
        GridOrigin :=
          (self.GridOrigin.sub (self.RebuildBasis.1.smul
            (0.5 * (Asset.Width : ℝ) * self.CellSize))).sub
            (self.RebuildBasis.2.smul (0.5 * (Asset.Height : ℝ) * self.CellSize))
        bUseRotation := self.bUseRotation
        GridRotation := self.GridRotation
        AxisX := self.RebuildBasis.1
        AxisY := self.RebuildBasis.2
        CellSize := self.CellSize
        DefaultEyeHeight := self.DefaultEyeHeight
        HeightProvider :=
          (FArrayGridHeightProvider.Make Asset.Width Asset.Height Asset.CellHeights).map
            FArrayGridHeightProvider.toInterface } := by
  have hmin : INT32_MIN ≤ 0 := by unfold INT32_MIN; decide
  have hwrap : wrapInt32 (Asset.Width * Asset.Height) = Asset.Width * Asset.Height :=
    wrapInt32_of_IsInt32 _
      ⟨by rw [← hlen]; exact le_trans hmin (Int.natCast_nonneg _), by rw [← hlen]; exact h32⟩
  have hvalid : ¬ (Asset.Width ≤ 0 ∨ Asset.Height ≤ 0 ∨
      (Asset.CellHeights.length : ℤ) ≠ wrapInt32 (Asset.Width * Asset.Height)) := by
    rw [hwrap]
    rintro (h | h | h)
    · omega
    · omega
    · exact h hlen
  unfold UHeightMapGridBindingComponent.RebuildGridConfig
  rw [hA]
  simp only []
  rw [if_neg hvalid]

/-- The axes that the geometry library resolves from the rebuilt configuration are the
basis `RebuildGridConfig` computed. -/
theorem ResolveGridAxes_RebuildGridConfig (self : UHeightMapGridBindingComponent)
    (Asset : UTerrainHeightMapAsset) (hA : self.HeightMapAsset = some Asset)
    (hW : 0 < Asset.Width) (hH : 0 < Asset.Height)
    (hlen : (Asset.CellHeights.length : ℤ) = Asset.Width * Asset.Height)
    (h32 : (Asset.CellHeights.length : ℤ) ≤ INT32_MAX) :
    ResolveGridAxes self.RebuildGridConfig.GridConfig = self.RebuildBasis := by
  rw [RebuildGridConfig_of_valid self Asset hA hW hH hlen h32]
  unfold ResolveGridAxes
  cases hr : self.bUseRotation
  · obtain ⟨u1, u2⟩ := RebuildBasis_unit self hr
    simp only [Bool.false_eq_true, if_false]
    rw [GetSafeNormal_of_unit _ u1, GetSafeNormal_of_unit _ u2]
  · simp only [if_true]
    unfold UHeightMapGridBindingComponent.RebuildBasis
    rw [hr]
    simp only [if_true]

/-- C21, amended: the bound grid is centred on the component's `GridOrigin`, floats
read as exact reals.  After
`RebuildGridConfig` with a valid asset (`Width > 0`, `Height > 0`, `CellHeights` of
length `Width * Height`, an `int32`) and any `CellSize`, orientation setting and axes,
the `X` and `Y` components of the centres of cells `(0,0)` and `(Width-1, Height-1)`
add up to twice the `X` and `Y` components of the component's `GridOrigin`, which the
call leaves unchanged. -/
theorem RebuildGridConfig_centred (self : UHeightMapGridBindingComponent)
    (Asset : UTerrainHeightMapAsset) (hA : self.HeightMapAsset = some Asset)
    (hW : 0 < Asset.Width) (hH : 0 < Asset.Height)
    (hlen : (Asset.CellHeights.length : ℤ) = Asset.Width * Asset.Height)
    (h32 : (Asset.CellHeights.length : ℤ) ≤ INT32_MAX) :
    (self.RebuildGridConfig.GridConfig.Width = Asset.Width ∧
      self.RebuildGridConfig.GridConfig.Height = Asset.Height ∧
      self.RebuildGridConfig.GridOrigin = self.GridOrigin) ∧
    (GridToWorldGround self.RebuildGridConfig.GridConfig ⟨0, 0⟩).X
        + (GridToWorldGround self.RebuildGridConfig.GridConfig
            ⟨Asset.Width - 1, Asset.Height - 1⟩).X
      = 2 * self.GridOrigin.X ∧
    (GridToWorldGround self.RebuildGridConfig.GridConfig ⟨0, 0⟩).Y
        + (GridToWorldGround self.RebuildGridConfig.GridConfig
            ⟨Asset.Width - 1, Asset.Height - 1⟩).Y
      = 2 * self.GridOrigin.Y := by
  have hax := ResolveGridAxes_RebuildGridConfig self Asset hA hW hH hlen h32
  have hcfg := RebuildGridConfig_of_valid self Asset hA hW hH hlen h32
  have hO : self.RebuildGridConfig.GridOrigin = self.GridOrigin := by
    unfold UHeightMapGridBindingComponent.RebuildGridConfig
    rw [hA]
    simp only []
    split_ifs <;> rfl
  refine ⟨⟨by rw [hcfg], by rw [hcfg], hO⟩, ?_, ?_⟩
  · simp only [GridToWorldGround, hax]
    rw [hcfg]
    simp only [FVector.add, FVector.smul, FVector.sub]
    push_cast
    ring
  · simp only [GridToWorldGround, hax]
    rw [hcfg]
    simp only [FVector.add, FVector.smul, FVector.sub]
    push_cast
    ring

/-- Witness of C21: the example component, whose `AxisX = (3, 4, 5)` is neither flat nor
unit and whose `AxisY` is the zero vector, has map centre `(500, 300, 0)`. -/
theorem RebuildGridConfig_centred_witness :
    (GridToWorldGround exampleComponent.RebuildGridConfig.GridConfig ⟨0, 0⟩).X
        + (GridToWorldGround exampleComponent.RebuildGridConfig.GridConfig
            ⟨exampleAsset.Width - 1, exampleAsset.Height - 1⟩).X
      = 2 * exampleComponent.GridOrigin.X ∧
    (GridToWorldGround exampleComponent.RebuildGridConfig.GridConfig ⟨0, 0⟩).Y
        + (GridToWorldGround exampleComponent.RebuildGridConfig.GridConfig
            ⟨exampleAsset.Width - 1, exampleAsset.Height - 1⟩).Y
      = 2 * exampleComponent.GridOrigin.Y :=
  (RebuildGridConfig_centred exampleComponent exampleAsset rfl (by decide) (by decide)
    (by simp [exampleAsset]) (by simp [exampleAsset, INT32_MAX])).2

/-! ## Safety of the height queries -/

/-- The method `GetHeightAt` when the flat index, computed without wrapping, passes the
range check. -/
theorem GetHeightAt_of_index (p : FArrayGridHeightProvider) (x y : ℤ)
    (h0 : 0 ≤ y * p.Width + x) (h1 : y * p.Width + x < (p.CellHeights.length : ℤ))
    (h32 : (p.CellHeights.length : ℤ) ≤ INT32_MAX) :
    wrapInt32 (y * p.Width + x) = y * p.Width + x ∧
    p.GetHeightAt x y = p.CellHeights[(y * p.Width + x).toNat]? ∧
    ∃ v, p.GetHeightAt x y = some v := by
  have hmin : INT32_MIN ≤ 0 := by unfold INT32_MIN; decide
  have hidx : wrapInt32 (y * p.Width + x) = y * p.Width + x :=
    wrapInt32_of_IsInt32 _ ⟨le_trans hmin h0, by omega⟩
  have hget : p.GetHeightAt x y = p.CellHeights[(y * p.Width + x).toNat]? := by
    unfold FArrayGridHeightProvider.GetHeightAt
    simp only [hidx]
    rw [if_pos ⟨h0, h1⟩]
  refine ⟨hidx, hget, ?_⟩
  rw [hget, List.getElem?_eq_getElem (by omega)]
  exact ⟨_, rfl⟩

/-- The flat index of an in-range cell lies inside a buffer of length `W * H`. -/
theorem flat_index_bounds (W H x y : ℤ) (hx0 : 0 ≤ x) (hx1 : x < W) (hy0 : 0 ≤ y)
    (hy1 : y < H) : 0 ≤ y * W + x ∧ y * W + x < W * H := by
  have hyW : y * W ≤ (H - 1) * W := mul_le_mul_of_nonneg_right (by omega) (by omega)
  have hexp : (H - 1) * W = W * H - W := by ring
  exact ⟨add_nonneg (mul_nonneg hy0 (by omega)) hx0, by omega⟩

/-- C24: in-range height queries are safe.  For an array-backed provider whose buffer
length equals `Width * Height` (an `int32`) with `Width > 0` and `Height > 0`, and
every cell with `0 ≤ x < Width` and `0 ≤ y < Height`, the flat index `y * Width + x`
satisfies `0 ≤ index < buffer length` and is computed without overflow, so the range
check of `GetHeightAt` holds and the call returns a buffer element. -/
theorem GetHeightAt_in_range_safe (W H : ℤ) (buf : List ℝ) (x y : ℤ)
    (hW : 0 < W) (hH : 0 < H)
    (hlen : (buf.length : ℤ) = W * H) (h32 : (buf.length : ℤ) ≤ INT32_MAX)
    (hx0 : 0 ≤ x) (hx1 : x < W) (hy0 : 0 ≤ y) (hy1 : y < H) :
    (0 ≤ y * W + x ∧ y * W + x < (buf.length : ℤ)) ∧
    wrapInt32 (y * W + x) = y * W + x ∧
    (0 ≤ wrapInt32 (y * W + x) ∧ wrapInt32 (y * W + x) < (buf.length : ℤ)) ∧
    (∃ v, (⟨W, H, buf⟩ : FArrayGridHeightProvider).GetHeightAt x y = some v ∧
      (⟨W, H, buf⟩ : FArrayGridHeightProvider).toInterface.GetHeightAt x y = v) := by
  have _hpos : 0 < W * H := mul_pos hW hH
  obtain ⟨b0, b1⟩ := flat_index_bounds W H x y hx0 hx1 hy0 hy1
  rw [← hlen] at b1
  obtain ⟨hidx, _, v, hv⟩ := GetHeightAt_of_index ⟨W, H, buf⟩ x y b0 b1 h32
  refine ⟨⟨b0, b1⟩, hidx, ?_, v, hv, ?_⟩
  · have hidx2 : wrapInt32 (y * W + x) = y * W + x := hidx
    rw [hidx2]
    exact ⟨b0, b1⟩
  · show ((⟨W, H, buf⟩ : FArrayGridHeightProvider).GetHeightAt x y).getD 0 = v
    rw [hv]
    rfl

/-- Witness of C24: cell `(1,1)` of the 2 by 2 provider over `[1, 2, 3, 4]`. -/
theorem GetHeightAt_in_range_safe_witness :
    ∃ v, (⟨2, 2, [1, 2, 3, 4]⟩ : FArrayGridHeightProvider).GetHeightAt 1 1 = some v ∧
      (⟨2, 2, [1, 2, 3, 4]⟩ : FArrayGridHeightProvider).toInterface.GetHeightAt 1 1 = v :=
  (GetHeightAt_in_range_safe 2 2 [1, 2, 3, 4] 1 1 (by decide) (by decide) (by simp)
    (by simp [INT32_MAX]) (by decide) (by decide) (by decide) (by decide)).2.2.2

/-- C30: the range check of the height provider does not detect every out-of-range
query.  For a provider with `Width = W ≥ 1`, `Height ≥ 2` and a buffer of length
`W * Height` (an `int32`), the query `(W, 0)` has `x` outside `[0, W-1]`, yet its flat
index is `W`, the check of `GetHeightAt` passes, and the call returns the height stored
for the in-range cell `(0, 1)`. -/
theorem GetHeightAt_misses_column_overflow (W H : ℤ) (buf : List ℝ)
    (hW : 1 ≤ W) (hH : 2 ≤ H)
    (hlen : (buf.length : ℤ) = W * H) (h32 : (buf.length : ℤ) ≤ INT32_MAX) :
    ¬ (0 ≤ W ∧ W ≤ W - 1) ∧
    (0 ≤ wrapInt32 (0 * W + W) ∧ wrapInt32 (0 * W + W) < (buf.length : ℤ)) ∧
    (∃ v, (⟨W, H, buf⟩ : FArrayGridHeightProvider).GetHeightAt W 0 = some v) ∧
    (⟨W, H, buf⟩ : FArrayGridHeightProvider).GetHeightAt W 0
      = (⟨W, H, buf⟩ : FArrayGridHeightProvider).GetHeightAt 0 1 := by
  have hlt : W < W * H := by nlinarith
  have b0 : (0 : ℤ) ≤ 0 * W + W := by omega
  have b1 : 0 * W + W < (buf.length : ℤ) := by rw [hlen]; omega
  have c0 : (0 : ℤ) ≤ 1 * W + 0 := by omega
  have c1 : 1 * W + 0 < (buf.length : ℤ) := by rw [hlen]; omega
  obtain ⟨hidx, hget, v, hv⟩ := GetHeightAt_of_index ⟨W, H, buf⟩ W 0 b0 b1 h32
  obtain ⟨_, hget1, _⟩ := GetHeightAt_of_index ⟨W, H, buf⟩ 0 1 c0 c1 h32
  have hidx2 : wrapInt32 (0 * W + W) = 0 * W + W := hidx
  refine ⟨by omega, ?_, ⟨v, hv⟩, ?_⟩
  · rw [hidx2]; exact ⟨b0, b1⟩
  · rw [hget, hget1]
    have e : (0 * W + W) = (1 * W + 0) := by ring
    show buf[(0 * W + W).toNat]? = buf[(1 * W + 0).toNat]?
    rw [e]

/-- Witness of C30: in the 2 by 2 provider over `[1, 2, 3, 4]` the query `(2, 0)`
passes the check and returns the height of cell `(0, 1)`. -/
theorem GetHeightAt_misses_column_overflow_witness :
    ¬ ((0 : ℤ) ≤ 2 ∧ (2 : ℤ) ≤ 2 - 1) ∧
    (⟨2, 2, [1, 2, 3, 4]⟩ : FArrayGridHeightProvider).GetHeightAt 2 0
      = (⟨2, 2, [1, 2, 3, 4]⟩ : FArrayGridHeightProvider).GetHeightAt 0 1 :=
  have w := GetHeightAt_misses_column_overflow 2 2 [1, 2, 3, 4] (by decide) (by decide)
    (by simp) (by simp [INT32_MAX])
  ⟨w.1, w.2.2.2⟩

/-! ## Cells as regions, and the clamp invariant of the smoother component -/

/-- C25, amended: every point of a cell maps to that cell, floats read as exact reals.
For a non-degenerate configuration
whose resolved axes are orthonormal and horizontal, an in-bounds `int32` cell
`(gx, gy)`, and a world position whose offset from `GridOrigin` projected on the X axis
lies in `[gx * CellSize, (gx+1) * CellSize)` and on the Y axis in
`[gy * CellSize, (gy+1) * CellSize)`, `WorldToGrid` with `Floor` and
`bClampToBounds = false` returns `true` with `OutGrid = (gx, gy)`, and so does every
position with the same `X` and `Y` and any `Z`; the position
`GridToWorldGround` of the cell, with whatever provider the configuration has, is such
a position and maps to the cell. -/
theorem WorldToGrid_cell_region (cfg : FGridConfig) (g : FIntPoint) (pos : FVector)
    (hW : 0 < cfg.Width) (hH : 0 < cfg.Height) (hC : KINDA_SMALL_NUMBER < cfg.CellSize)
    (hx0 : 0 ≤ g.X) (hx1 : g.X < cfg.Width) (hy0 : 0 ≤ g.Y) (hy1 : g.Y < cfg.Height)
    (hx32 : IsInt32 g.X) (hy32 : IsInt32 g.Y)
    (hXX : FVector.DotProduct (ResolveGridAxes cfg).1 (ResolveGridAxes cfg).1 = 1)
    (hYY : FVector.DotProduct (ResolveGridAxes cfg).2 (ResolveGridAxes cfg).2 = 1)
    (hXY : FVector.DotProduct (ResolveGridAxes cfg).1 (ResolveGridAxes cfg).2 = 0)
    (hXz : (ResolveGridAxes cfg).1.Z = 0) (hYz : (ResolveGridAxes cfg).2.Z = 0)
    (hU0 : (g.X : ℝ) * cfg.CellSize
      ≤ FVector.DotProduct (pos.sub cfg.GridOrigin) (ResolveGridAxes cfg).1)
    (hU1 : FVector.DotProduct (pos.sub cfg.GridOrigin) (ResolveGridAxes cfg).1
      < ((g.X : ℝ) + 1) * cfg.CellSize)
    (hV0 : (g.Y : ℝ) * cfg.CellSize
      ≤ FVector.DotProduct (pos.sub cfg.GridOrigin) (ResolveGridAxes cfg).2)
    (hV1 : FVector.DotProduct (pos.sub cfg.GridOrigin) (ResolveGridAxes cfg).2
      < ((g.Y : ℝ) + 1) * cfg.CellSize) :
    WorldToGrid cfg pos false EGridRoundingPolicy.Floor = (true, g) ∧
    (∀ z : ℝ,
      WorldToGrid cfg ⟨pos.X, pos.Y, z⟩ false EGridRoundingPolicy.Floor = (true, g)) ∧
    ((g.X : ℝ) * cfg.CellSize
        ≤ FVector.DotProduct ((GridToWorldGround cfg g).sub cfg.GridOrigin)
            (ResolveGridAxes cfg).1 ∧
      FVector.DotProduct ((GridToWorldGround cfg g).sub cfg.GridOrigin)
          (ResolveGridAxes cfg).1 < ((g.X : ℝ) + 1) * cfg.CellSize ∧
      (g.Y : ℝ) * cfg.CellSize
        ≤ FVector.DotProduct ((GridToWorldGround cfg g).sub cfg.GridOrigin)
            (ResolveGridAxes cfg).2 ∧
      FVector.DotProduct ((GridToWorldGround cfg g).sub cfg.GridOrigin)
          (ResolveGridAxes cfg).2 < ((g.Y : ℝ) + 1) * cfg.CellSize) ∧
    WorldToGrid cfg (GridToWorldGround cfg g) false EGridRoundingPolicy.Floor = (true, g) := by
  have hKpos : (0 : ℝ) < KINDA_SMALL_NUMBER := by unfold KINDA_SMALL_NUMBER; norm_num
  have hCpos : 0 < cfg.CellSize := hKpos.trans hC
  have region : ∀ q : FVector,
      (g.X : ℝ) * cfg.CellSize
        ≤ FVector.DotProduct (q.sub cfg.GridOrigin) (ResolveGridAxes cfg).1 →
      FVector.DotProduct (q.sub cfg.GridOrigin) (ResolveGridAxes cfg).1
        < ((g.X : ℝ) + 1) * cfg.CellSize →
      (g.Y : ℝ) * cfg.CellSize
        ≤ FVector.DotProduct (q.sub cfg.GridOrigin) (ResolveGridAxes cfg).2 →
      FVector.DotProduct (q.sub cfg.GridOrigin) (ResolveGridAxes cfg).2
        < ((g.Y : ℝ) + 1) * cfg.CellSize →
      WorldToGrid cfg q false EGridRoundingPolicy.Floor = (true, g) := by
    intro q a0 a1 b0 b1
    rw [WorldToGrid_of_nondegenerate _ _ _ _ hW hH hC]
    have fx : FloorToInt (WorldToGridContinuous cfg q).1 = g.X :=
      FloorToInt_eq _ _ hx32 ((le_div_iff₀ hCpos).mpr a0) ((div_lt_iff₀ hCpos).mpr a1)
    have fy : FloorToInt (WorldToGridContinuous cfg q).2 = g.Y :=
      FloorToInt_eq _ _ hy32 ((le_div_iff₀ hCpos).mpr b0) ((div_lt_iff₀ hCpos).mpr b1)
    simp only [RoundIndex, fx, fy]
    rw [if_neg (by simp), if_neg (by omega)]
  have hcont := WorldToGridContinuous_GridToWorldGround cfg g hCpos.ne.symm hXX hYY hXY hXz hYz
  have hU : FVector.DotProduct ((GridToWorldGround cfg g).sub cfg.GridOrigin)
      (ResolveGridAxes cfg).1 = ((g.X : ℝ) + 0.5) * cfg.CellSize := by
    have := congrArg Prod.fst hcont
    exact (div_eq_iff hCpos.ne.symm).mp this
  have hV : FVector.DotProduct ((GridToWorldGround cfg g).sub cfg.GridOrigin)
      (ResolveGridAxes cfg).2 = ((g.Y : ℝ) + 0.5) * cfg.CellSize := by
    have := congrArg Prod.snd hcont
    exact (div_eq_iff hCpos.ne.symm).mp this
  have hz : ∀ (z : ℝ) (A : FVector), A.Z = 0 →
      FVector.DotProduct ((⟨pos.X, pos.Y, z⟩ : FVector).sub cfg.GridOrigin) A
        = FVector.DotProduct (pos.sub cfg.GridOrigin) A := by
    intro z A hA
    simp only [FVector.DotProduct, FVector.sub, hA, mul_zero]
  have e05 : (0.5 : ℝ) = 1 / 2 := by norm_num
  have r1 : (g.X : ℝ) * cfg.CellSize ≤ ((g.X : ℝ) + 0.5) * cfg.CellSize := by
    rw [e05]; nlinarith
  have r2 : ((g.X : ℝ) + 0.5) * cfg.CellSize < ((g.X : ℝ) + 1) * cfg.CellSize := by
    rw [e05]; nlinarith
  have r3 : (g.Y : ℝ) * cfg.CellSize ≤ ((g.Y : ℝ) + 0.5) * cfg.CellSize := by
    rw [e05]; nlinarith
  have r4 : ((g.Y : ℝ) + 0.5) * cfg.CellSize < ((g.Y : ℝ) + 1) * cfg.CellSize := by
    rw [e05]; nlinarith
  refine ⟨region pos hU0 hU1 hV0 hV1, ?_, ?_, ?_⟩
  · intro z
    apply region
    · rw [hz z _ hXz]; exact hU0
    · rw [hz z _ hXz]; exact hU1
    · rw [hz z _ hYz]; exact hV0
    · rw [hz z _ hYz]; exact hV1
  · rw [hU, hV]
    exact ⟨r1, r2, r3, r4⟩
  · apply region
    · rw [hU]; exact r1
    · rw [hU]; exact r2
    · rw [hV]; exact r3
    · rw [hV]; exact r4

/-- Witness of C25: the position `(399, 400, 77)` lies in cell `(3,4)` of the example
grid. -/
theorem WorldToGrid_cell_region_witness :
    WorldToGrid exampleConfig ⟨399, 400, 77⟩ false EGridRoundingPolicy.Floor
      = (true, ⟨3, 4⟩) :=
  (WorldToGrid_cell_region exampleConfig ⟨3, 4⟩ ⟨399, 400, 77⟩ (by decide) (by decide)
    (by unfold KINDA_SMALL_NUMBER exampleConfig FGridConfig.default; norm_num)
    (by decide) (by decide) (by decide) (by decide)
    (by unfold IsInt32 INT32_MIN INT32_MAX; decide)
    (by unfold IsInt32 INT32_MIN INT32_MAX; decide)
    (by rw [ResolveGridAxes_exampleConfig]; simp [FVector.DotProduct])
    (by rw [ResolveGridAxes_exampleConfig]; simp [FVector.DotProduct])
    (by rw [ResolveGridAxes_exampleConfig]; simp [FVector.DotProduct])
    (by rw [ResolveGridAxes_exampleConfig])
    (by rw [ResolveGridAxes_exampleConfig])
    (by rw [ResolveGridAxes_exampleConfig]
        simp [FVector.DotProduct, FVector.sub, exampleConfig, FGridConfig.default,
          FVector.ZeroVector]
        norm_num)
    (by rw [ResolveGridAxes_exampleConfig]
        simp [FVector.DotProduct, FVector.sub, exampleConfig, FGridConfig.default,
          FVector.ZeroVector]
        norm_num)
    (by rw [ResolveGridAxes_exampleConfig]
        simp [FVector.DotProduct, FVector.sub, exampleConfig, FGridConfig.default,
          FVector.ZeroVector]
        norm_num)
    (by rw [ResolveGridAxes_exampleConfig]
        simp [FVector.DotProduct, FVector.sub, exampleConfig, FGridConfig.default,
          FVector.ZeroVector]
        norm_num)).1

/-- Engine `FMath::Clamp` on floats with `Min ≤ Max` lands in `[Min, Max]`. -/
theorem ClampFloat_mem (X Min Max : ℝ) (h : Min ≤ Max) :
    Min ≤ ClampFloat X Min Max ∧ ClampFloat X Min Max ≤ Max := by
  unfold ClampFloat
  split_ifs with h1 h2
  · exact ⟨le_refl _, h⟩
  · exact ⟨not_lt.mp h1, h2.le⟩
  · exact ⟨h, le_refl _⟩

/-- C28: clamp invariant of `UHalfLifeSmootherComponent`.  When `bClamp` is true and
`MinValue ≤ MaxValue`, after `Update dt`, for every `dt`, half-life, prior current and
desire, both `Current` and `Desire` lie in `[MinValue, MaxValue]` and the returned
value is `Current`; `SetDesire` and `SetCurrent` store a value in
`[MinValue, MaxValue]` and leave the other of the two fields alone; none of the three
changes `MinValue`, `MaxValue` or `bClamp`. -/
theorem Smoother_clamp_invariant (s : UHalfLifeSmootherComponent) (dt x : ℝ)
    (hc : s.bClamp = true) (hm : s.MinValue ≤ s.MaxValue) :
    ((s.MinValue ≤ (s.Update dt).2.Current ∧ (s.Update dt).2.Current ≤ s.MaxValue) ∧
      (s.MinValue ≤ (s.Update dt).2.Desire ∧ (s.Update dt).2.Desire ≤ s.MaxValue) ∧
      (s.Update dt).1 = (s.Update dt).2.Current ∧
      (s.Update dt).2.MinValue = s.MinValue ∧ (s.Update dt).2.MaxValue = s.MaxValue ∧
      (s.Update dt).2.bClamp = s.bClamp) ∧
    ((s.MinValue ≤ (s.SetDesire x).Desire ∧ (s.SetDesire x).Desire ≤ s.MaxValue) ∧
      (s.SetDesire x).Current = s.Current ∧
      (s.SetDesire x).MinValue = s.MinValue ∧ (s.SetDesire x).MaxValue = s.MaxValue ∧
      (s.SetDesire x).bClamp = s.bClamp) ∧
    ((s.MinValue ≤ (s.SetCurrent x).Current ∧ (s.SetCurrent x).Current ≤ s.MaxValue) ∧
      (s.SetCurrent x).Desire = s.Desire ∧
      (s.SetCurrent x).MinValue = s.MinValue ∧ (s.SetCurrent x).MaxValue = s.MaxValue ∧
      (s.SetCurrent x).bClamp = s.bClamp) := by
  have hU : (s.Update dt).2 =
      { s with
        Desire := ClampFloat s.Desire s.MinValue s.MaxValue
        Current := ClampFloat
          (ExpSmoothHL_Component (ClampFloat s.Current s.MinValue s.MaxValue)
            (ClampFloat s.Desire s.MinValue s.MaxValue) s.HalfLife dt)
          s.MinValue s.MaxValue } := by
    unfold UHalfLifeSmootherComponent.Update
    simp only [hc, if_true]
  have hD : (s.SetDesire x).Desire = ClampFloat x s.MinValue s.MaxValue := by
    unfold UHalfLifeSmootherComponent.SetDesire
    simp only [hc, if_true]
  have hS : (s.SetCurrent x).Current = ClampFloat x s.MinValue s.MaxValue := by
    unfold UHalfLifeSmootherComponent.SetCurrent
    simp only [hc, if_true]
  refine ⟨⟨?_, ?_, rfl, ?_, ?_, ?_⟩, ⟨?_, rfl, rfl, rfl, rfl⟩, ⟨?_, rfl, rfl, rfl, rfl⟩⟩
  · rw [hU]; exact ClampFloat_mem _ _ _ hm
  · rw [hU]; exact ClampFloat_mem _ _ _ hm
  · rw [hU]
  · rw [hU]
  · rw [hU]
  · rw [hD]; exact ClampFloat_mem _ _ _ hm
  · rw [hS]; exact ClampFloat_mem _ _ _ hm

/-- Witness of C28: the example smoother starts with current `2000` and desire `50`,
both outside `[150, 1000]`. -/
theorem Smoother_clamp_invariant_witness :
    (exampleSmoother.MinValue ≤ (exampleSmoother.Update 1).2.Current ∧
      (exampleSmoother.Update 1).2.Current ≤ exampleSmoother.MaxValue) ∧
    (exampleSmoother.MinValue ≤ (exampleSmoother.Update 1).2.Desire ∧
      (exampleSmoother.Update 1).2.Desire ≤ exampleSmoother.MaxValue) :=
  have w := Smoother_clamp_invariant exampleSmoother 1 0 rfl
    (by unfold exampleSmoother; norm_num)
  ⟨w.1.1, w.1.2.1⟩

/-! ## Single-precision evaluation -/

/-- Rounding to the nearest integer of a real in the lower half of `[f, f + 1)`. -/
theorem roundHalfEven_down (x : ℝ) (f : ℤ) (h0 : (f : ℝ) ≤ x) (h1 : x < (f : ℝ) + 1 / 2) :
    roundHalfEven x = f := by
  have hf : ⌊x⌋ = f := Int.floor_eq_iff.mpr ⟨h0, by linarith⟩
  unfold roundHalfEven
  rw [hf, if_pos (by linarith)]

/-- Rounding to the nearest integer of a real in the upper half of `[f, f + 1)`. -/
theorem roundHalfEven_up (x : ℝ) (f : ℤ) (h0 : (f : ℝ) + 1 / 2 < x) (h1 : x < (f : ℝ) + 1) :
    roundHalfEven x = f + 1 := by
  have hf : ⌊x⌋ = f := Int.floor_eq_iff.mpr ⟨by linarith, h1⟩
  unfold roundHalfEven
  rw [hf, if_neg (by linarith), if_pos (by linarith)]

/-- Rounding to the nearest integer at a tie above an odd integer goes up. -/
theorem roundHalfEven_tie_odd (x : ℝ) (f : ℤ) (h : x = (f : ℝ) + 1 / 2) (hodd : f % 2 = 1) :
    roundHalfEven x = f + 1 := by
  have hf : ⌊x⌋ = f := Int.floor_eq_iff.mpr ⟨by linarith, by linarith⟩
  unfold roundHalfEven
  rw [hf, if_neg (by linarith), if_neg (by linarith), if_neg (by omega)]

/-- The binade exponent of a real between two consecutive powers of two. -/
theorem binadeF32_eq (x : ℝ) (e : ℤ) (he : -126 ≤ e) (h1 : (2 : ℝ) ^ e ≤ |x|)
    (h2 : |x| < (2 : ℝ) ^ (e + 1)) : binadeF32 x = e := by
  have hpos : 0 < |x| := lt_of_lt_of_le (zpow_pos (by norm_num) e) h1
  have hle : e ≤ Int.log 2 |x| :=
    (Int.zpow_le_iff_le_log (by norm_num) hpos).mp (by exact_mod_cast h1)
  have hlt : Int.log 2 |x| < e + 1 :=
    (Int.lt_zpow_iff_log_lt (by norm_num) hpos).mp (by exact_mod_cast h2)
  unfold binadeF32
  omega

/-- The `float` nearest to a real between two consecutive powers of two. -/
theorem roundF32_eval (x : ℝ) (e k : ℤ) (he : -126 ≤ e) (h1 : (2 : ℝ) ^ e ≤ |x|)
    (h2 : |x| < (2 : ℝ) ^ (e + 1)) (hk : roundHalfEven (x / (2 : ℝ) ^ (e - 23)) = k) :
    roundF32 x = (k : ℝ) * (2 : ℝ) ^ (e - 23) := by
  unfold roundF32
  rw [binadeF32_eq x e he h1 h2, hk]

/-- A multiple `k * 2 ^ (e - 23)` lying in the binade of exponent `e` is a `float`:
rounding leaves it as it is. -/
theorem roundF32_of_float (x : ℝ) (e k : ℤ) (he : -126 ≤ e) (h1 : (2 : ℝ) ^ e ≤ |x|)
    (h2 : |x| < (2 : ℝ) ^ (e + 1)) (hx : x / (2 : ℝ) ^ (e - 23) = (k : ℝ)) :
    roundF32 x = x := by
  rw [roundF32_eval x e k he h1 h2 (by rw [hx]; exact roundHalfEven_down _ k le_rfl (by linarith))]
  rw [← hx]
  exact div_mul_cancel₀ x (zpow_ne_zero _ (by norm_num))

/-- Zero is a `float`. -/
theorem roundF32_zero : roundF32 0 = 0 := by
  unfold roundF32 roundHalfEven
  simp

/-- With the identity for rounding, the functions of the single-precision section are
the functions that read floats as exact reals. -/
theorem Rnd_id_eq (s : UCameraMovement_ExpHalfLifeComponent)
    (c : UHeightMapGridBindingComponent) (cfg : FGridConfig) (g : FIntPoint)
    (pos : FVector) (clamp : Bool) (pol : EGridRoundingPolicy) (h dt : ℝ) :
    HalfLifeDecayKRnd id h dt = HalfLifeDecayK h dt ∧
    s.Update1DRnd id dt = s.Update1D dt ∧
    s.Update2DRnd id dt = s.Update2D dt ∧
    GridToWorldGroundRnd id cfg g = GridToWorldGround cfg g ∧
    WorldToGridContinuousRnd id cfg pos = WorldToGridContinuous cfg pos ∧
    WorldToGridRnd id cfg pos clamp pol = WorldToGrid cfg pos clamp pol ∧
    c.RebuildGridConfigRnd id = c.RebuildGridConfig := by
  have hK : ∀ h dt, HalfLifeDecayKRnd id h dt = HalfLifeDecayK h dt := fun _ _ => rfl
  have hR : ∀ (pol : EGridRoundingPolicy) (F : ℝ), RoundIndexRnd id pol F = RoundIndex pol F := by
    intro pol F
    cases pol <;> rfl
  refine ⟨hK h dt, rfl, rfl, rfl, rfl, ?_, rfl⟩
  unfold WorldToGridRnd WorldToGrid
  simp only [hR]
  rfl

/-! ## Rounding policy and cell edges in single precision -/

/-- The `float` sum of `0.5 - 2⁻²⁵` and `0.5` is `1`. -/
theorem roundF32_below_half_add_half :
    roundF32 ((16777215 : ℝ) / 33554432 + 0.5) = 1 := by
  rw [roundF32_eval _ (-1) 16777216 (by norm_num) (by rw [abs_of_pos] <;> norm_num)
    (by rw [abs_of_pos] <;> norm_num)
    (by
      have := roundHalfEven_tie_odd
        (((16777215 : ℝ) / 33554432 + 0.5) / (2 : ℝ) ^ ((-1 : ℤ) - 23)) 16777215
        (by norm_num) (by decide)
      rw [this]; norm_num)]
  norm_num

/-- The value `0.5 - 2⁻²⁵` is a `float`. -/
theorem roundF32_below_half : roundF32 ((16777215 : ℝ) / 33554432) = 16777215 / 33554432 :=
  roundF32_of_float _ (-2) 16777215 (by norm_num) (by rw [abs_of_pos] <;> norm_num)
    (by rw [abs_of_pos] <;> norm_num) (by norm_num)

/-- The values `1 / 2`, `1`, `50` and `100` are `float`s. -/
theorem roundF32_small_values :
    roundF32 (1 / 2) = 1 / 2 ∧ roundF32 1 = 1 ∧ roundF32 50 = 50 ∧ roundF32 100 = 100 := by
  refine ⟨?_, ?_, ?_, ?_⟩
  · exact roundF32_of_float _ (-1) 8388608 (by norm_num) (by rw [abs_of_pos] <;> norm_num)
      (by rw [abs_of_pos] <;> norm_num) (by norm_num)
  · exact roundF32_of_float _ 0 8388608 (by norm_num) (by rw [abs_of_pos] <;> norm_num)
      (by rw [abs_of_pos] <;> norm_num) (by norm_num)
  · exact roundF32_of_float _ 5 13107200 (by norm_num) (by rw [abs_of_pos] <;> norm_num)
      (by rw [abs_of_pos] <;> norm_num) (by norm_num)
  · exact roundF32_of_float _ 6 13107200 (by norm_num) (by rw [abs_of_pos] <;> norm_num)
      (by rw [abs_of_pos] <;> norm_num) (by norm_num)

/-- The resolved axes of the configuration with unit cells are the default axes. -/
theorem ResolveGridAxes_unitConfig :
    ResolveGridAxes unitConfig = (⟨1, 0, 0⟩, ⟨0, 1, 0⟩) := by
  rw [ResolveGridAxes_of_unit unitConfig rfl]
  · rfl
  · simp [unitConfig, exampleConfig, FGridConfig.default, FVector.ForwardVector]
  · simp [unitConfig, exampleConfig, FGridConfig.default, FVector.RightVector]

/-- The function `WorldToGridRnd` on a configuration that passes the degenerate check,
without clamping. -/
theorem WorldToGridRnd_no_clamp (rnd : ℝ → ℝ) (cfg : FGridConfig) (pos : FVector)
    (pol : EGridRoundingPolicy) (hW : 0 < cfg.Width) (hH : 0 < cfg.Height)
    (hC : KINDA_SMALL_NUMBER < cfg.CellSize) (gx gy : ℤ)
    (hgx : RoundIndexRnd rnd pol (WorldToGridContinuousRnd rnd cfg pos).1 = gx)
    (hgy : RoundIndexRnd rnd pol (WorldToGridContinuousRnd rnd cfg pos).2 = gy)
    (hx0 : 0 ≤ gx) (hx1 : gx < cfg.Width) (hy0 : 0 ≤ gy) (hy1 : gy < cfg.Height) :
    WorldToGridRnd rnd cfg pos false pol = (true, ⟨gx, gy⟩) := by
  unfold WorldToGridRnd
  rw [if_neg]
  · simp only [hgx, hgy]
    rw [if_neg (by simp), if_neg (by omega)]
  · rintro (h | h | h)
    · exact absurd hW (not_lt.mpr h)
    · exact absurd hH (not_lt.mpr h)
    · exact absurd hC (not_lt.mpr h)

/-- C22, as stated, fails under `Round` in single precision.  In the 10 by 10 grid with
unit cells the position `(0.5 - 2⁻²⁵, 0.5, 0)` has continuous coordinates
`(0.5 - 2⁻²⁵, 0.5)`, inside the `int32` range; `RoundToInt` adds `0.5f` in `float`, the
sum rounds to `1`, and the index is `1`, at distance `0.5 + 2⁻²⁵` from the coordinate,
while `0` is nearer. -/
theorem WorldToGrid_round_not_nearest_counterexample :
    (0 < unitConfig.Width ∧ 0 < unitConfig.Height ∧
      KINDA_SMALL_NUMBER < unitConfig.CellSize) ∧
    WorldToGridContinuousRnd roundF32 unitConfig ⟨16777215 / 33554432, 1 / 2, 0⟩
      = (16777215 / 33554432, 1 / 2) ∧
    InInt32Range (16777215 / 33554432) ∧
    RoundIndexRnd roundF32 EGridRoundingPolicy.Round (16777215 / 33554432) = 1 ∧
    WorldToGridRnd roundF32 unitConfig ⟨16777215 / 33554432, 1 / 2, 0⟩ false
      EGridRoundingPolicy.Round = (true, ⟨1, 1⟩) ∧
    (1 : ℝ) / 2 < |((1 : ℤ) : ℝ) - 16777215 / 33554432| ∧
    |((0 : ℤ) : ℝ) - 16777215 / 33554432| < |((1 : ℤ) : ℝ) - 16777215 / 33554432| ∧
    ¬ IsNearestInt 1 (16777215 / 33554432) := by
  have hK : KINDA_SMALL_NUMBER < unitConfig.CellSize := by
    unfold KINDA_SMALL_NUMBER unitConfig; norm_num
  have i1 : IsInt32 1 := by unfold IsInt32 INT32_MIN INT32_MAX; decide
  have hU : FVector.DotProduct
      ((⟨16777215 / 33554432, 1 / 2, 0⟩ : FVector).sub unitConfig.GridOrigin) ⟨1, 0, 0⟩
      = 16777215 / 33554432 := by
    simp [FVector.DotProduct, FVector.sub, unitConfig, exampleConfig, FGridConfig.default,
      FVector.ZeroVector]
  have hV : FVector.DotProduct
      ((⟨16777215 / 33554432, 1 / 2, 0⟩ : FVector).sub unitConfig.GridOrigin) ⟨0, 1, 0⟩
      = 1 / 2 := by
    simp [FVector.DotProduct, FVector.sub, unitConfig, exampleConfig, FGridConfig.default,
      FVector.ZeroVector]
  have hCs : unitConfig.CellSize = 1 := rfl
  have hcont : WorldToGridContinuousRnd roundF32 unitConfig ⟨16777215 / 33554432, 1 / 2, 0⟩
      = (16777215 / 33554432, 1 / 2) := by
    unfold WorldToGridContinuousRnd
    simp only [ResolveGridAxes_unitConfig, hU, hV, hCs, div_one, roundF32_below_half,
      roundF32_small_values.1]
  have hidx : RoundIndexRnd roundF32 EGridRoundingPolicy.Round (16777215 / 33554432) = 1 := by
    show FloorToInt (roundF32 ((16777215 : ℝ) / 33554432 + 0.5)) = 1
    rw [roundF32_below_half_add_half]
    exact FloorToInt_eq 1 1 i1 (by norm_num) (by norm_num)
  have hidy : RoundIndexRnd roundF32 EGridRoundingPolicy.Round (1 / 2) = 1 := by
    show FloorToInt (roundF32 ((1 : ℝ) / 2 + 0.5)) = 1
    rw [show ((1 : ℝ) / 2 + 0.5) = 1 by norm_num, roundF32_small_values.2.1]
    exact FloorToInt_eq 1 1 i1 (by norm_num) (by norm_num)
  have hfar : (1 : ℝ) / 2 < |((1 : ℤ) : ℝ) - 16777215 / 33554432| := by
    rw [abs_of_pos] <;> norm_num
  refine ⟨⟨by decide, by decide, hK⟩, hcont, ?_, hidx, ?_, hfar, ?_, ?_⟩
  · unfold InInt32Range INT32_MIN INT32_MAX
    norm_num
  · exact WorldToGridRnd_no_clamp roundF32 unitConfig _ _ (by decide) (by decide) hK 1 1
      (by rw [hcont]; exact hidx) (by rw [hcont]; exact hidy) (by decide) (by decide)
      (by decide) (by decide)
  · rw [abs_of_neg (by norm_num), abs_of_pos (by norm_num)]
    norm_num
  · intro h
    exact absurd h.1 (not_le.mpr hfar)

/-- The `float` nearest to the double `100 - 2⁻³⁰` is `100`. -/
theorem roundF32_below_hundred : roundF32 (100 - 1 / 1073741824) = 100 := by
  rw [roundF32_eval _ 6 13107200 (by norm_num) (by rw [abs_of_pos] <;> norm_num)
    (by rw [abs_of_pos] <;> norm_num)
    (by
      have := roundHalfEven_up ((100 - 1 / 1073741824) / (2 : ℝ) ^ ((6 : ℤ) - 23)) 13107199
        (by norm_num) (by norm_num)
      rw [this]; norm_num)]
  norm_num

/-- C25, as stated, fails at a cell edge in single precision.  In the example grid
(cells of size `100`, orthonormal horizontal axes) the position
`(100 - 2⁻³⁰, 50, 0)` projects to `100 - 2⁻³⁰` on the X axis and `50` on the Y axis,
inside the square `[0, 100) × [0, 100)` of cell `(0,0)`; the projection is narrowed to
the `float` `100`, the quotient is `1`, and `WorldToGrid` returns cell `(1,0)`. -/
theorem WorldToGrid_cell_edge_counterexample :
    (0 < exampleConfig.Width ∧ 0 < exampleConfig.Height ∧
      KINDA_SMALL_NUMBER < exampleConfig.CellSize) ∧
    (((0 : ℤ) : ℝ) * exampleConfig.CellSize
        ≤ FVector.DotProduct
            ((⟨100 - 1 / 1073741824, 50, 0⟩ : FVector).sub exampleConfig.GridOrigin)
            (ResolveGridAxes exampleConfig).1 ∧
      FVector.DotProduct
          ((⟨100 - 1 / 1073741824, 50, 0⟩ : FVector).sub exampleConfig.GridOrigin)
          (ResolveGridAxes exampleConfig).1 < (((0 : ℤ) : ℝ) + 1) * exampleConfig.CellSize ∧
      ((0 : ℤ) : ℝ) * exampleConfig.CellSize
        ≤ FVector.DotProduct
            ((⟨100 - 1 / 1073741824, 50, 0⟩ : FVector).sub exampleConfig.GridOrigin)
            (ResolveGridAxes exampleConfig).2 ∧
      FVector.DotProduct
          ((⟨100 - 1 / 1073741824, 50, 0⟩ : FVector).sub exampleConfig.GridOrigin)
          (ResolveGridAxes exampleConfig).2 < (((0 : ℤ) : ℝ) + 1) * exampleConfig.CellSize) ∧
    WorldToGridContinuousRnd roundF32 exampleConfig ⟨100 - 1 / 1073741824, 50, 0⟩
      = (1, 1 / 2) ∧
    WorldToGridRnd roundF32 exampleConfig ⟨100 - 1 / 1073741824, 50, 0⟩ false
      EGridRoundingPolicy.Floor = (true, ⟨1, 0⟩) ∧
    WorldToGridRnd roundF32 exampleConfig ⟨100 - 1 / 1073741824, 50, 0⟩ false
      EGridRoundingPolicy.Floor ≠ (true, ⟨0, 0⟩) := by
  have hK : KINDA_SMALL_NUMBER < exampleConfig.CellSize := by
    unfold KINDA_SMALL_NUMBER exampleConfig FGridConfig.default; norm_num
  have i0 : IsInt32 0 := by unfold IsInt32 INT32_MIN INT32_MAX; decide
  have i1 : IsInt32 1 := by unfold IsInt32 INT32_MIN INT32_MAX; decide
  have hU : FVector.DotProduct
      ((⟨100 - 1 / 1073741824, 50, 0⟩ : FVector).sub exampleConfig.GridOrigin) ⟨1, 0, 0⟩
      = 100 - 1 / 1073741824 := by
    simp [FVector.DotProduct, FVector.sub, exampleConfig, FGridConfig.default,
      FVector.ZeroVector]
  have hV : FVector.DotProduct
      ((⟨100 - 1 / 1073741824, 50, 0⟩ : FVector).sub exampleConfig.GridOrigin) ⟨0, 1, 0⟩
      = 50 := by
    simp [FVector.DotProduct, FVector.sub, exampleConfig, FGridConfig.default,
      FVector.ZeroVector]
  have hCs : exampleConfig.CellSize = 100 := rfl
  have hcont : WorldToGridContinuousRnd roundF32 exampleConfig
      ⟨100 - 1 / 1073741824, 50, 0⟩ = (1, 1 / 2) := by
    unfold WorldToGridContinuousRnd
    simp only [ResolveGridAxes_exampleConfig, hU, hV, hCs, roundF32_below_hundred,
      roundF32_small_values.2.2.1]
    rw [show (100 : ℝ) / 100 = 1 by norm_num, show (50 : ℝ) / 100 = 1 / 2 by norm_num,
      roundF32_small_values.2.1, roundF32_small_values.1]
  have hres : WorldToGridRnd roundF32 exampleConfig ⟨100 - 1 / 1073741824, 50, 0⟩ false
      EGridRoundingPolicy.Floor = (true, ⟨1, 0⟩) :=
    WorldToGridRnd_no_clamp roundF32 exampleConfig _ _ (by decide) (by decide) hK 1 0
      (by rw [hcont]; exact FloorToInt_eq 1 1 i1 (by norm_num) (by norm_num))
      (by rw [hcont]; exact FloorToInt_eq (1 / 2) 0 i0 (by norm_num) (by norm_num))
      (by decide) (by decide) (by decide) (by decide)
  refine ⟨⟨by decide, by decide, hK⟩, ?_, hcont, hres, ?_⟩
  · rw [ResolveGridAxes_exampleConfig, hU, hV, hCs]
    norm_num
  · rw [hres]; decide

/-! ## The exponential smoother in single precision -/

/-- The values `2` and `3` are `float`s. -/
theorem roundF32_two_three : roundF32 2 = 2 ∧ roundF32 3 = 3 := by
  constructor
  · exact roundF32_of_float _ 1 8388608 (by norm_num) (by rw [abs_of_pos] <;> norm_num)
      (by rw [abs_of_pos] <;> norm_num) (by norm_num)
  · exact roundF32_of_float _ 1 12582912 (by norm_num) (by rw [abs_of_pos] <;> norm_num)
      (by rw [abs_of_pos] <;> norm_num) (by norm_num)

/-- The power `0.5 ^ (-2⁻³⁰)` lies between `1` and `1 + 2⁻³⁰`. -/
theorem half_rpow_tiny_bounds :
    1 ≤ (0.5 : ℝ) ^ (-(1 / 1073741824 : ℝ)) ∧
    (0.5 : ℝ) ^ (-(1 / 1073741824 : ℝ)) ≤ 1 + 1 / 1073741824 := by
  have h2 : (0.5 : ℝ) ^ (-(1 / 1073741824 : ℝ)) = (1 + 1 : ℝ) ^ (1 / 1073741824 : ℝ) := by
    rw [Real.rpow_neg (by norm_num), ← Real.inv_rpow (by norm_num)]
    norm_num
  rw [h2]
  constructor
  · exact Real.one_le_rpow (by norm_num) (by norm_num)
  · have := rpow_one_add_le_one_add_mul_self (s := (1 : ℝ)) (by norm_num)
      (p := (1 / 1073741824 : ℝ)) (by norm_num) (by norm_num)
    linarith

/-- The `float` nearest to `0.5 ^ (-2⁻³⁰)` is `1`. -/
theorem roundF32_half_rpow_tiny : roundF32 ((0.5 : ℝ) ^ (-(1 / 1073741824 : ℝ))) = 1 := by
  obtain ⟨b0, b1⟩ := half_rpow_tiny_bounds
  have hpos : (0 : ℝ) < (0.5 : ℝ) ^ (-(1 / 1073741824 : ℝ)) := lt_of_lt_of_le one_pos b0
  rw [roundF32_eval _ 0 8388608 (by norm_num)
    (by rw [abs_of_pos hpos]; norm_num; linarith)
    (by rw [abs_of_pos hpos]; norm_num; linarith)
    (by
      apply roundHalfEven_down
      · rw [le_div_iff₀ (by norm_num)]
        norm_num
        linarith
      · rw [div_lt_iff₀ (by norm_num)]
        norm_num
        linarith)]
  norm_num

/-- C23, as stated, fails for a tiny negative step in single precision.  With half-life
`1`, `dt = -2⁻³⁰`, current `3` and desire `1`, the value of `FMath::Pow` rounds to the
`float` `1`, so `Update1D` leaves the current at `3`: the new error equals the old
one, it is not strictly larger. -/
theorem Update1D_tiny_negative_dt_counterexample :
    ((0 : ℝ) < 1 ∧ -(1 / 1073741824 : ℝ) < 0 ∧ (3 : ℝ) ≠ 1) ∧
    HalfLifeDecayKRnd roundF32 1 (-(1 / 1073741824)) = 1 ∧
    ((⟨1, 1, 3, ⟨0, 0⟩, ⟨0, 0⟩⟩ : UCameraMovement_ExpHalfLifeComponent).Update1DRnd roundF32
        (-(1 / 1073741824))).2.Current1D = 3 ∧
    ¬ (|(3 : ℝ) - 1|
        < |((⟨1, 1, 3, ⟨0, 0⟩, ⟨0, 0⟩⟩ :
              UCameraMovement_ExpHalfLifeComponent).Update1DRnd roundF32
              (-(1 / 1073741824))).2.Current1D - 1|) := by
  have hdt : roundF32 (-(1 / 1073741824 : ℝ)) = -(1 / 1073741824) :=
    roundF32_of_float _ (-30) (-8388608) (by norm_num)
      (by rw [abs_of_neg] <;> norm_num) (by rw [abs_of_neg] <;> norm_num) (by norm_num)
  have hK : HalfLifeDecayKRnd roundF32 1 (-(1 / 1073741824)) = 1 := by
    unfold HalfLifeDecayKRnd
    rw [if_neg (by norm_num), div_one, hdt, roundF32_half_rpow_tiny]
  have hcur : ((⟨1, 1, 3, ⟨0, 0⟩, ⟨0, 0⟩⟩ :
      UCameraMovement_ExpHalfLifeComponent).Update1DRnd roundF32
        (-(1 / 1073741824))).2.Current1D = 3 := by
    show roundF32 ((1 : ℝ) + roundF32 (roundF32 ((3 : ℝ) - 1)
      * HalfLifeDecayKRnd roundF32 1 (-(1 / 1073741824)))) = 3
    rw [hK, show ((3 : ℝ) - 1) = 2 by norm_num, roundF32_two_three.1, mul_one,
      roundF32_two_three.1, show ((1 : ℝ) + 2) = 3 by norm_num, roundF32_two_three.2]
  refine ⟨⟨by norm_num, by norm_num, by norm_num⟩, hK, hcur, ?_⟩
  rw [hcur]
  exact lt_irrefl _

/-- C14, as stated, fails on the precision of the two states.  The example component
holds the same `float` values in its 1D and 2D states (half-life `1`, desire `1`,
current `1 + 3 * 2⁻²³`); with `dt = 1` the coefficient is `0.5`; `Update2D` works in
double precision and leaves `X = 1 + 3 * 2⁻²⁴`, `Update1D` rounds its sum to a `float`
and leaves `1 + 2⁻²²`. -/
theorem Update2D_precision_counterexample :
    (roundingSmoother.Desire1D = roundingSmoother.Desire2D.X ∧
      roundingSmoother.Current1D = roundingSmoother.Current2D.X) ∧
    HalfLifeDecayKRnd roundF32 roundingSmoother.HalfLife 1 = 0.5 ∧
    (roundingSmoother.Update2DRnd roundF32 1).1.X = 1 + 3 / 16777216 ∧
    (roundingSmoother.Update1DRnd roundF32 1).1 = 1 + 1 / 4194304 ∧
    (roundingSmoother.Update2DRnd roundF32 1).1.X
      ≠ (roundingSmoother.Update1DRnd roundF32 1).1 := by
  have hh : roundingSmoother.HalfLife = 1 := rfl
  have hK : HalfLifeDecayKRnd roundF32 roundingSmoother.HalfLife 1 = 0.5 := by
    unfold HalfLifeDecayKRnd
    rw [hh, if_neg (by norm_num), div_one, roundF32_small_values.2.1, Real.rpow_one,
      show (0.5 : ℝ) = 1 / 2 by norm_num, roundF32_small_values.1]
  have h2 : (roundingSmoother.Update2DRnd roundF32 1).1.X = 1 + 3 / 16777216 := by
    show (1 : ℝ) + ((1 + 3 / 8388608 : ℝ) - 1)
      * HalfLifeDecayKRnd roundF32 roundingSmoother.HalfLife 1 = 1 + 3 / 16777216
    rw [hK]
    norm_num
  have r1 : roundF32 ((3 : ℝ) / 8388608) = 3 / 8388608 :=
    roundF32_of_float _ (-22) 12582912 (by norm_num) (by rw [abs_of_pos] <;> norm_num)
      (by rw [abs_of_pos] <;> norm_num) (by norm_num)
  have r2 : roundF32 ((3 : ℝ) / 16777216) = 3 / 16777216 :=
    roundF32_of_float _ (-23) 12582912 (by norm_num) (by rw [abs_of_pos] <;> norm_num)
      (by rw [abs_of_pos] <;> norm_num) (by norm_num)
  have r3 : roundF32 ((1 : ℝ) + 3 / 16777216) = 1 + 1 / 4194304 := by
    rw [roundF32_eval _ 0 8388610 (by norm_num) (by rw [abs_of_pos] <;> norm_num)
      (by rw [abs_of_pos] <;> norm_num)
      (by
        have := roundHalfEven_tie_odd
          (((1 : ℝ) + 3 / 16777216) / (2 : ℝ) ^ ((0 : ℤ) - 23)) 8388609
          (by norm_num) (by decide)
        rw [this]; norm_num)]
    norm_num
  have h1 : (roundingSmoother.Update1DRnd roundF32 1).1 = 1 + 1 / 4194304 := by
    show roundF32 ((1 : ℝ) + roundF32 (roundF32 ((1 + 3 / 8388608 : ℝ) - 1)
      * HalfLifeDecayKRnd roundF32 roundingSmoother.HalfLife 1)) = 1 + 1 / 4194304
    rw [hK, show ((1 + 3 / 8388608 : ℝ) - 1) = 3 / 8388608 by norm_num, r1,
      show ((3 : ℝ) / 8388608 * 0.5) = 3 / 16777216 by norm_num, r2, r3]
  refine ⟨⟨rfl, rfl⟩, hK, h2, h1, ?_⟩
  rw [h2, h1]
  norm_num

/-! ## The rebuilt grid configuration in single precision -/

/-- Engine `FVector::Normalize` leaves the forward and right vectors as they are. -/
theorem Normalize_forward_right :
    FVector.Normalize ⟨1, 0, 0⟩ = (true, ⟨1, 0, 0⟩) ∧
    FVector.Normalize ⟨0, 1, 0⟩ = (true, ⟨0, 1, 0⟩) := by
  constructor
  · unfold FVector.Normalize
    simp only []
    rw [if_pos (by unfold SMALL_NUMBER; norm_num)]
    norm_num
  · unfold FVector.Normalize
    simp only []
    rw [if_pos (by unfold SMALL_NUMBER; norm_num)]
    norm_num

/-- The basis that `RebuildGridConfig` computes for the component `roundingComponent`. -/
theorem RebuildBasis_roundingComponent :
    roundingComponent.RebuildBasis = (⟨1, 0, 0⟩, ⟨0, 1, 0⟩) := by
  unfold UHeightMapGridBindingComponent.RebuildBasis
  have h1 : roundingComponent.bUseRotation = false := rfl
  have h2 : ({ roundingComponent.AxisX with Z := 0 } : FVector) = ⟨1, 0, 0⟩ := rfl
  have h3 : ({ roundingComponent.AxisY with Z := 0 } : FVector) = ⟨0, 1, 0⟩ := rfl
  simp only [h1, h2, h3, Normalize_forward_right.1, Normalize_forward_right.2]
  simp [FVector.ForwardVector, FVector.RightVector]

/-- The configuration that `RebuildGridConfigRnd` builds for `roundingComponent`. -/
theorem RebuildGridConfigRnd_roundingComponent :
    (roundingComponent.RebuildGridConfigRnd roundF32).GridConfig =
      { Width := 3
        Height := 1
        GridOrigin :=
          ((⟨0, 0, 0⟩ : FVector).sub (roundingComponent.RebuildBasis.1.smul
            (roundF32 (roundF32 (0.5 * roundF32 ((3 : ℤ) : ℝ)) * (1 + 1 / 8388608))))).sub
            (roundingComponent.RebuildBasis.2.smul
              (roundF32 (roundF32 (0.5 * roundF32 ((1 : ℤ) : ℝ)) * (1 + 1 / 8388608))))
        bUseRotation := false
        GridRotation := FRotator.ZeroRotator
        AxisX := roundingComponent.RebuildBasis.1
        AxisY := roundingComponent.RebuildBasis.2
        CellSize := 1 + 1 / 8388608
        DefaultEyeHeight := 160
        HeightProvider :=
          (FArrayGridHeightProvider.Make 3 1 [0, 0, 0]).map
            FArrayGridHeightProvider.toInterface } := by
  have hA : roundingComponent.HeightMapAsset = some ⟨3, 1, [0, 0, 0]⟩ := rfl
  have hwrap : wrapInt32 (3 * 1) = 3 :=
    wrapInt32_of_IsInt32 _ (by unfold IsInt32 INT32_MIN INT32_MAX; decide)
  unfold UHeightMapGridBindingComponent.RebuildGridConfigRnd
  rw [hA]
  simp only []
  rw [if_neg]
  · rfl
  · rw [hwrap]
    simp

/-- C21, as stated, fails on the rounding of the half sizes.  For the component
`roundingComponent` (a valid 3 by 1 asset, cells of size `1 + 2⁻²³`, map centre at the
origin, default axes) `HalfSizeX` rounds to `1.5 + 2⁻²²` while the lateral offsets of
cells `(0,0)` and `(2,0)` round to `0.5 + 2⁻²⁴` and `2.5 + 2⁻²²`, so the `X` components
of the two cell centres add up to `-3 * 2⁻²⁴`, not to twice the centre's `0`. -/
theorem RebuildGridConfig_rounding_counterexample :
    ((0 : ℤ) < 3 ∧ (0 : ℤ) < 1 ∧ (([0, 0, 0] : List ℝ).length : ℤ) = 3 * 1) ∧
    (GridToWorldGroundRnd roundF32
        (roundingComponent.RebuildGridConfigRnd roundF32).GridConfig ⟨0, 0⟩).X
      + (GridToWorldGroundRnd roundF32
          (roundingComponent.RebuildGridConfigRnd roundF32).GridConfig ⟨3 - 1, 1 - 1⟩).X
      = -(3 / 16777216) ∧
    2 * roundingComponent.GridOrigin.X = 0 ∧
    (GridToWorldGroundRnd roundF32
        (roundingComponent.RebuildGridConfigRnd roundF32).GridConfig ⟨0, 0⟩).X
      + (GridToWorldGroundRnd roundF32
          (roundingComponent.RebuildGridConfigRnd roundF32).GridConfig ⟨3 - 1, 1 - 1⟩).X
      ≠ 2 * roundingComponent.GridOrigin.X := by
  have f05 : roundF32 (0.5 : ℝ) = 0.5 := by
    rw [show (0.5 : ℝ) = 1 / 2 by norm_num]; exact roundF32_small_values.1
  have f15 : roundF32 (1.5 : ℝ) = 1.5 :=
    roundF32_of_float _ 0 12582912 (by norm_num) (by rw [abs_of_pos] <;> norm_num)
      (by rw [abs_of_pos] <;> norm_num) (by norm_num)
  have f25 : roundF32 (2.5 : ℝ) = 2.5 :=
    roundF32_of_float _ 1 10485760 (by norm_num) (by rw [abs_of_pos] <;> norm_num)
      (by rw [abs_of_pos] <;> norm_num) (by norm_num)
  have fhalfc : roundF32 ((0.5 : ℝ) * (1 + 1 / 8388608)) = 1 / 2 + 1 / 16777216 := by
    rw [roundF32_of_float _ (-1) 8388609 (by norm_num) (by rw [abs_of_pos] <;> norm_num)
      (by rw [abs_of_pos] <;> norm_num) (by norm_num)]
    norm_num
  have f15c : roundF32 ((1.5 : ℝ) * (1 + 1 / 8388608)) = 3 / 2 + 1 / 4194304 := by
    rw [roundF32_eval _ 0 12582914 (by norm_num) (by rw [abs_of_pos] <;> norm_num)
      (by rw [abs_of_pos] <;> norm_num)
      (by
        have := roundHalfEven_tie_odd
          (((1.5 : ℝ) * (1 + 1 / 8388608)) / (2 : ℝ) ^ ((0 : ℤ) - 23)) 12582913
          (by norm_num) (by decide)
        rw [this]; norm_num)]
    norm_num
  have f25c : roundF32 ((2.5 : ℝ) * (1 + 1 / 8388608)) = 5 / 2 + 1 / 4194304 := by
    rw [roundF32_eval _ 1 10485761 (by norm_num) (by rw [abs_of_pos] <;> norm_num)
      (by rw [abs_of_pos] <;> norm_num)
      (by
        have := roundHalfEven_down
          (((2.5 : ℝ) * (1 + 1 / 8388608)) / (2 : ℝ) ^ ((1 : ℤ) - 23)) 10485761
          (by norm_num) (by norm_num)
        rw [this])]
    norm_num
  have hHX : roundF32 (roundF32 (0.5 * roundF32 ((3 : ℤ) : ℝ)) * (1 + 1 / 8388608))
      = 3 / 2 + 1 / 4194304 := by
    rw [show (((3 : ℤ) : ℝ)) = 3 by norm_num, roundF32_two_three.2,
      show ((0.5 : ℝ) * 3) = 1.5 by norm_num, f15, f15c]
  have hHY : roundF32 (roundF32 (0.5 * roundF32 ((1 : ℤ) : ℝ)) * (1 + 1 / 8388608))
      = 1 / 2 + 1 / 16777216 := by
    rw [show (((1 : ℤ) : ℝ)) = 1 by norm_num, roundF32_small_values.2.1,
      show ((0.5 : ℝ) * 1) = 0.5 by norm_num, f05, fhalfc]
  have hL0 : roundF32 (roundF32 (roundF32 ((0 : ℤ) : ℝ) + 0.5) * (1 + 1 / 8388608))
      = 1 / 2 + 1 / 16777216 := by
    rw [show (((0 : ℤ) : ℝ)) = 0 by norm_num, roundF32_zero, zero_add, f05, fhalfc]
  have hL2 : roundF32 (roundF32 (roundF32 (((3 - 1 : ℤ)) : ℝ) + 0.5) * (1 + 1 / 8388608))
      = 5 / 2 + 1 / 4194304 := by
    rw [show (((3 - 1 : ℤ)) : ℝ) = 2 by norm_num, roundF32_two_three.1,
      show ((2 : ℝ) + 0.5) = 2.5 by norm_num, f25, f25c]
  have hL0' : roundF32 (roundF32 (roundF32 (((1 - 1 : ℤ)) : ℝ) + 0.5) * (1 + 1 / 8388608))
      = 1 / 2 + 1 / 16777216 := by
    rw [show (((1 - 1 : ℤ)) : ℝ) = 0 by norm_num, roundF32_zero, zero_add, f05, fhalfc]
  have hcfg := RebuildGridConfigRnd_roundingComponent
  rw [RebuildBasis_roundingComponent, hHX, hHY] at hcfg
  have hax : ResolveGridAxes (roundingComponent.RebuildGridConfigRnd roundF32).GridConfig
      = (⟨1, 0, 0⟩, ⟨0, 1, 0⟩) := by
    rw [hcfg, ResolveGridAxes_of_unit _ rfl (by norm_num) (by norm_num)]
  have hsum : (GridToWorldGroundRnd roundF32
        (roundingComponent.RebuildGridConfigRnd roundF32).GridConfig ⟨0, 0⟩).X
      + (GridToWorldGroundRnd roundF32
          (roundingComponent.RebuildGridConfigRnd roundF32).GridConfig ⟨3 - 1, 1 - 1⟩).X
      = -(3 / 16777216) := by
    simp only [GridToWorldGroundRnd, hax]
    rw [hcfg]
    simp only [FVector.add, FVector.smul, FVector.sub, hL0, hL2, hL0']
    norm_num
  have hO : 2 * roundingComponent.GridOrigin.X = 0 := by
    show (2 : ℝ) * 0 = 0
    norm_num
  refine ⟨⟨by decide, by decide, by simp⟩, hsum, hO, ?_⟩
  rw [hsum, hO]
  norm_num

/-! ## The spring step with overflow -/

/-- An exact result within the finite range is a finite `float`. -/
theorem F32Val.ofReal_of_finite (x : ℝ) (h0 : -FLT_MAX ≤ x) (h1 : x ≤ FLT_MAX) :
    F32Val.ofReal x = F32Val.fin x := by
  unfold F32Val.ofReal
  rw [if_neg (not_lt.mpr h1), if_neg (not_lt.mpr h0)]

/-- The exponential of `200 * ln 2` is `2 ^ 200`, beyond the largest finite `float`. -/
theorem exp_200_log_two_overflows : FLT_MAX < Real.exp (200 * Real.log 2) := by
  have h : Real.exp (200 * Real.log 2) = (2 : ℝ) ^ (200 : ℕ) := by
    have := Real.exp_nat_mul (Real.log 2) 200
    rw [Real.exp_log (by norm_num)] at this
    rw [← this]
    norm_num
  rw [h]
  unfold FLT_MAX
  norm_num

/-- C11, as stated, fails for a large negative step.  With half-life `1`, `Dt = -200`
and current equal to the desire `3` at rest, `FMath::Exp(-W * Dt)` is the exponential
of `200 * ln 2`, which overflows to infinity; the zero displacement times infinity is
NaN, so the spring step leaves NaN in both the current and the velocity instead of
`(3, 0)`. -/
theorem spring_fixed_point_overflow_counterexample :
    ((F32Val.ofReal (Real.log 2 / 1)).neg.mul (F32Val.fin (-200))).exp = F32Val.pinf ∧
    SpringUpdate1DOvf 1 (-200) 3 3 0 = (F32Val.nan, F32Val.nan) ∧
    (SpringUpdate1DOvf 1 (-200) 3 3 0).1 ≠ F32Val.fin 3 ∧
    (SpringUpdate1DOvf 1 (-200) 3 3 0).2 ≠ F32Val.fin 0 := by
  have hmax : (1000 : ℝ) ≤ FLT_MAX := by unfold FLT_MAX; norm_num
  have hl0 : 0 < Real.log 2 := Real.log_pos (by norm_num)
  have hl1 : Real.log 2 < 1 := by
    have := Real.log_two_lt_d9
    linarith
  have hW : F32Val.ofReal (Real.log 2 / 1) = F32Val.fin (Real.log 2) := by
    rw [div_one]
    exact F32Val.ofReal_of_finite _ (by linarith) (by linarith)
  have hWDt : (F32Val.fin (Real.log 2)).neg.mul (F32Val.fin (-200))
      = F32Val.fin (200 * Real.log 2) := by
    show F32Val.ofReal (-Real.log 2 * -200) = F32Val.fin (200 * Real.log 2)
    rw [show -Real.log 2 * -200 = 200 * Real.log 2 by ring]
    exact F32Val.ofReal_of_finite _ (by linarith) (by linarith)
  have hE : ((F32Val.ofReal (Real.log 2 / 1)).neg.mul (F32Val.fin (-200))).exp
      = F32Val.pinf := by
    rw [hW, hWDt]
    show F32Val.ofReal (Real.exp (200 * Real.log 2)) = F32Val.pinf
    unfold F32Val.ofReal
    rw [if_pos exp_200_log_two_overflows]
  have hzero : F32Val.ofReal 0 = F32Val.fin 0 :=
    F32Val.ofReal_of_finite _ (by linarith) (by linarith)
  have hy : (F32Val.fin 3).sub (F32Val.fin 3) = F32Val.fin 0 := by
    show F32Val.ofReal (3 + -3) = F32Val.fin 0
    rw [show ((3 : ℝ) + -3) = 0 by norm_num, hzero]
  have hWy : (F32Val.fin (Real.log 2)).mul (F32Val.fin 0) = F32Val.fin 0 := by
    show F32Val.ofReal (Real.log 2 * 0) = F32Val.fin 0
    rw [mul_zero, hzero]
  have h00 : (F32Val.fin 0).add (F32Val.fin 0) = F32Val.fin 0 := by
    show F32Val.ofReal (0 + 0) = F32Val.fin 0
    rw [add_zero, hzero]
  have h0s : (F32Val.fin 0).sub (F32Val.fin 0) = F32Val.fin 0 := by
    show F32Val.ofReal (0 + -0) = F32Val.fin 0
    rw [neg_zero, add_zero, hzero]
  have h0Dt : (F32Val.fin 0).mul (F32Val.fin (-200)) = F32Val.fin 0 := by
    show F32Val.ofReal (0 * -200) = F32Val.fin 0
    rw [zero_mul, hzero]
  have h0inf : (F32Val.fin 0).mul F32Val.pinf = F32Val.nan := by
    show F32Val.infTimes true 0 = F32Val.nan
    unfold F32Val.infTimes
    rw [if_neg (lt_irrefl _), if_neg (lt_irrefl _)]
  have hres : SpringUpdate1DOvf 1 (-200) 3 3 0 = (F32Val.nan, F32Val.nan) := by
    unfold SpringUpdate1DOvf
    rw [if_neg (by norm_num)]
    simp only [hE]
    simp only [hW, hy, hWy, h00, h0s, h0Dt, h0inf]
    rfl
  refine ⟨hE, hres, ?_, ?_⟩
  · rw [hres]
    intro h
    cases h
  · rw [hres]
    intro h
    cases h

/-! ## Rounding policy -/

/-- The index computed from a float inside the `int32` range, policy by policy, for any
rounding `rnd` of the `float` sum of `RoundToInt`. -/
theorem RoundIndexRnd_spec (rnd : ℝ → ℝ) (f : ℝ) (hf : InInt32Range f) :
    IsGreatestIntLE (RoundIndexRnd rnd EGridRoundingPolicy.Floor f) f ∧
    IsGreatestIntLE (RoundIndexRnd rnd EGridRoundingPolicy.Other f) f ∧
    IsLeastIntGE (RoundIndexRnd rnd EGridRoundingPolicy.Ceil f) f ∧
    (rnd (f + 0.5) = f + 0.5 →
      IsNearestInt (RoundIndexRnd rnd EGridRoundingPolicy.Round f) f) := by
  obtain ⟨hlo, hhi⟩ := hf
  have e05 : (0.5 : ℝ) = 1 / 2 := by norm_num
  have hfl : toInt32 ⌊f⌋ = ⌊f⌋ := by
    unfold toInt32
    refine if_pos ⟨Int.le_floor.mpr hlo, ?_⟩
    have : ((⌊f⌋ : ℤ) : ℝ) ≤ ((INT32_MAX : ℤ) : ℝ) := le_trans (Int.floor_le f) hhi
    exact_mod_cast this
  have hce : toInt32 ⌈f⌉ = ⌈f⌉ := by
    unfold toInt32
    refine if_pos ⟨?_, Int.ceil_le.mpr hhi⟩
    have : ((INT32_MIN : ℤ) : ℝ) ≤ ((⌈f⌉ : ℤ) : ℝ) := le_trans hlo (Int.le_ceil f)
    exact_mod_cast this
  have hrd : toInt32 ⌊f + 0.5⌋ = ⌊f + 0.5⌋ := by
    unfold toInt32
    refine if_pos ⟨Int.le_floor.mpr (by linarith), ?_⟩
    have h1 : ((⌊f + 0.5⌋ : ℤ) : ℝ) ≤ f + 0.5 := Int.floor_le _
    rw [e05] at h1
    have h2 : ((⌊f + 0.5⌋ : ℤ) : ℝ) < ((INT32_MAX + 1 : ℤ) : ℝ) := by
      push_cast
      rw [e05]
      linarith
    have h3 : ⌊f + 0.5⌋ < INT32_MAX + 1 := by exact_mod_cast h2
    omega
  have hfloor : IsGreatestIntLE (toInt32 ⌊f⌋) f := by
    rw [hfl]
    exact ⟨Int.floor_le f, fun w hw => Int.le_floor.mpr hw⟩
  refine ⟨hfloor, hfloor, ?_, ?_⟩
  · show IsLeastIntGE (toInt32 ⌈f⌉) f
    rw [hce]
    exact ⟨Int.le_ceil f, fun w hw => Int.ceil_le.mpr hw⟩
  · intro hsum
    show IsNearestInt (toInt32 ⌊rnd (f + 0.5)⌋) f
    rw [hsum, hrd]
    have h1 : ((⌊f + 0.5⌋ : ℤ) : ℝ) ≤ f + 0.5 := Int.floor_le _
    have h2 : f + 0.5 < ((⌊f + 0.5⌋ : ℤ) : ℝ) + 1 := Int.lt_floor_add_one _
    rw [e05] at h1 h2 ⊢
    have habs : |((⌊f + 1 / 2⌋ : ℤ) : ℝ) - f| ≤ 1 / 2 := by
      rw [abs_le]
      constructor <;> linarith
    refine ⟨habs, fun w => ?_⟩
    rcases lt_trichotomy w ⌊f + 1 / 2⌋ with hw | hw | hw
    · have hw1 : w + 1 ≤ ⌊f + 1 / 2⌋ := hw
      have hw2 : ((w : ℤ) : ℝ) + 1 ≤ ((⌊f + 1 / 2⌋ : ℤ) : ℝ) := by exact_mod_cast hw1
      refine le_trans habs ?_
      rw [le_abs]
      right
      linarith
    · rw [hw]
    · have hw1 : ⌊f + 1 / 2⌋ + 1 ≤ w := hw
      have hw2 : ((⌊f + 1 / 2⌋ : ℤ) : ℝ) + 1 ≤ ((w : ℤ) : ℝ) := by exact_mod_cast hw1
      refine le_trans habs ?_
      rw [le_abs]
      left
      linarith

/-- C22, amended: rounding policy.  For a non-degenerate configuration and a world
position whose continuous cell coordinates `(fx, fy)`, as `WorldToGrid` computes them
under any rounding `rnd` of its `float` results (`rnd = id` reads floats as exact reals,
`rnd = roundF32` is single precision), lie inside the `int32` range, the index
`WorldToGrid` computes before bounds handling is, per axis, the greatest integer `≤ f`
under `Floor` and under any policy value other than `Round` and `Ceil`, and the least
integer `≥ f` under `Ceil`; under `Round` it is the floor of the `float` sum
`f + 0.5f`, an integer nearest to `f` (within `1/2`) whenever that sum is exact, as it
is with floats read as exact reals; these are the indices that the clamped
`WorldToGrid` clamps. -/
theorem WorldToGrid_rounding_policy (rnd : ℝ → ℝ) (cfg : FGridConfig) (pos : FVector)
    (hW : 0 < cfg.Width) (hH : 0 < cfg.Height) (hC : KINDA_SMALL_NUMBER < cfg.CellSize)
    (hx : InInt32Range (WorldToGridContinuousRnd rnd cfg pos).1)
    (hy : InInt32Range (WorldToGridContinuousRnd rnd cfg pos).2) :
    (IsGreatestIntLE
        (RoundIndexRnd rnd EGridRoundingPolicy.Floor (WorldToGridContinuousRnd rnd cfg pos).1)
        (WorldToGridContinuousRnd rnd cfg pos).1 ∧
      IsGreatestIntLE
        (RoundIndexRnd rnd EGridRoundingPolicy.Floor (WorldToGridContinuousRnd rnd cfg pos).2)
        (WorldToGridContinuousRnd rnd cfg pos).2) ∧
    (IsGreatestIntLE
        (RoundIndexRnd rnd EGridRoundingPolicy.Other (WorldToGridContinuousRnd rnd cfg pos).1)
        (WorldToGridContinuousRnd rnd cfg pos).1 ∧
      IsGreatestIntLE
        (RoundIndexRnd rnd EGridRoundingPolicy.Other (WorldToGridContinuousRnd rnd cfg pos).2)
        (WorldToGridContinuousRnd rnd cfg pos).2) ∧
    (IsLeastIntGE
        (RoundIndexRnd rnd EGridRoundingPolicy.Ceil (WorldToGridContinuousRnd rnd cfg pos).1)
        (WorldToGridContinuousRnd rnd cfg pos).1 ∧
      IsLeastIntGE
        (RoundIndexRnd rnd EGridRoundingPolicy.Ceil (WorldToGridContinuousRnd rnd cfg pos).2)
        (WorldToGridContinuousRnd rnd cfg pos).2) ∧
    ((rnd ((WorldToGridContinuousRnd rnd cfg pos).1 + 0.5)
          = (WorldToGridContinuousRnd rnd cfg pos).1 + 0.5 →
        IsNearestInt
          (RoundIndexRnd rnd EGridRoundingPolicy.Round (WorldToGridContinuousRnd rnd cfg pos).1)
          (WorldToGridContinuousRnd rnd cfg pos).1) ∧
      (rnd ((WorldToGridContinuousRnd rnd cfg pos).2 + 0.5)
          = (WorldToGridContinuousRnd rnd cfg pos).2 + 0.5 →
        IsNearestInt
          (RoundIndexRnd rnd EGridRoundingPolicy.Round (WorldToGridContinuousRnd rnd cfg pos).2)
          (WorldToGridContinuousRnd rnd cfg pos).2)) ∧
    (∀ pol : EGridRoundingPolicy,
      WorldToGridRnd rnd cfg pos true pol =
        (true,
          ⟨Clamp (RoundIndexRnd rnd pol (WorldToGridContinuousRnd rnd cfg pos).1) 0
              (cfg.Width - 1),
            Clamp (RoundIndexRnd rnd pol (WorldToGridContinuousRnd rnd cfg pos).2) 0
              (cfg.Height - 1)⟩)) := by
  obtain ⟨a1, a2, a3, a4⟩ := RoundIndexRnd_spec rnd _ hx
  obtain ⟨b1, b2, b3, b4⟩ := RoundIndexRnd_spec rnd _ hy
  refine ⟨⟨a1, b1⟩, ⟨a2, b2⟩, ⟨a3, b3⟩, ⟨a4, b4⟩, fun pol => ?_⟩
  unfold WorldToGridRnd
  rw [if_neg]
  · simp only [if_true]
  · rintro (h | h | h)
    · exact absurd hW (not_lt.mpr h)
    · exact absurd hH (not_lt.mpr h)
    · exact absurd hC (not_lt.mpr h)

/-- Witness of C22 amended: in single precision the position `(100, 50, 0)` of the
example grid has continuous coordinates `(1, 0.5)`; the `float` sum `0.5 + 0.5f` is
exact. -/
theorem WorldToGrid_rounding_policy_witness :
    IsGreatestIntLE
      (RoundIndexRnd roundF32 EGridRoundingPolicy.Floor
        (WorldToGridContinuousRnd roundF32 exampleConfig ⟨100, 50, 0⟩).1)
      (WorldToGridContinuousRnd roundF32 exampleConfig ⟨100, 50, 0⟩).1 ∧
    IsNearestInt
      (RoundIndexRnd roundF32 EGridRoundingPolicy.Round
        (WorldToGridContinuousRnd roundF32 exampleConfig ⟨100, 50, 0⟩).2)
      (WorldToGridContinuousRnd roundF32 exampleConfig ⟨100, 50, 0⟩).2 :=
  have hcont : WorldToGridContinuousRnd roundF32 exampleConfig ⟨100, 50, 0⟩ = (1, 1 / 2) := by
    have hU : FVector.DotProduct
        ((⟨100, 50, 0⟩ : FVector).sub exampleConfig.GridOrigin) ⟨1, 0, 0⟩ = 100 := by
      simp [FVector.DotProduct, FVector.sub, exampleConfig, FGridConfig.default,
        FVector.ZeroVector]
    have hV : FVector.DotProduct
        ((⟨100, 50, 0⟩ : FVector).sub exampleConfig.GridOrigin) ⟨0, 1, 0⟩ = 50 := by
      simp [FVector.DotProduct, FVector.sub, exampleConfig, FGridConfig.default,
        FVector.ZeroVector]
    have hCs : exampleConfig.CellSize = 100 := rfl
    unfold WorldToGridContinuousRnd
    simp only [ResolveGridAxes_exampleConfig, hU, hV, hCs, roundF32_small_values.2.2.2,
      roundF32_small_values.2.2.1]
    rw [show (100 : ℝ) / 100 = 1 by norm_num, show (50 : ℝ) / 100 = 1 / 2 by norm_num,
      roundF32_small_values.2.1, roundF32_small_values.1]
  have w := WorldToGrid_rounding_policy roundF32 exampleConfig ⟨100, 50, 0⟩ (by decide)
    (by decide)
    (by unfold KINDA_SMALL_NUMBER exampleConfig FGridConfig.default; norm_num)
    (by rw [hcont]
        unfold InInt32Range INT32_MIN INT32_MAX
        norm_num)
    (by rw [hcont]
        unfold InInt32Range INT32_MIN INT32_MAX
        norm_num)
  ⟨w.1.1, w.2.2.2.1.2 (by
    rw [hcont]
    show roundF32 ((1 : ℝ) / 2 + 0.5) = 1 / 2 + 0.5
    rw [show ((1 : ℝ) / 2 + 0.5) = 1 by norm_num]
    exact roundF32_small_values.2.1)⟩

end DemoRoundBasedTactic
